import Mathlib

/-
Shallow embedding of the PET emulator core (pet-emulator-enhanced.py):
the 6502 CPU (CPU6502), the bus (Memory), the screen buffer (VideoRAM)
and the 6522 interface adapter (VIA), together with theorems checking the
specification's claims against these definitions.

Conventions used throughout the embedding:
  * Python ints are modelled by Nat where the source values are
    non-negative, and by Int where the source can go negative.
  * `x & 0xFF` / `x & 0xFFFF` on non-negative ints are written `x % 256` /
    `x % 65536`; other masks keep the bitwise form (`&&&`, `|||`, `^^^`,
    `<<<`, `>>>`).
  * `(x - 1) & 0xFF` on a non-negative int is written `(x + 255) % 256`
    (the two agree for every x ≥ 0).
  * Python's `x & ~y` on non-negative ints is `pyAndNot x y` below.
-/

/-- Python `x & ~y` for non-negative ints: the bits of `x` with the bits
of `y` cleared.  (Bitwise, `x_i ∧ ¬y_i = x_i ⊕ (x_i ∧ y_i)`.) -/
def pyAndNot (x y : Nat) : Nat := x ^^^ (x &&& y)

/-- Python `a << n` for an arbitrary-sign int. -/
def pyShl (a : Int) (n : Nat) : Int := a * (2 ^ n : Nat)

/-- Python `a | b` on arbitrary-sign ints (two's complement:
`a | b = ~(~a & ~b)`, and `~x = -x-1`). -/
def pyOr (a b : Int) : Int :=
  if 0 ≤ a then
    if 0 ≤ b then ((a.toNat ||| b.toNat : Nat) : Int)
    else -(pyAndNot (-b - 1).toNat a.toNat : Nat) - 1
  else
    if 0 ≤ b then -(pyAndNot (-a - 1).toNat b.toNat : Nat) - 1
    else -((-a - 1).toNat &&& (-b - 1).toNat : Nat) - 1

/-- Python `a & b` on arbitrary-sign ints (two's complement). -/
def pyAnd (a b : Int) : Int :=
  if 0 ≤ a then
    if 0 ≤ b then ((a.toNat &&& b.toNat : Nat) : Int)
    else (pyAndNot a.toNat (-b - 1).toNat : Nat)
  else
    if 0 ≤ b then (pyAndNot b.toNat (-a - 1).toNat : Nat)
    else -((-a - 1).toNat ||| (-b - 1).toNat : Nat) - 1

section BitBounds

/-- Reduction of an `if` under a projection, for pairs (first component). -/
theorem fst_ite {α β : Type} (P : Prop) [Decidable P] (a b : α × β) :
    (if P then a else b).1 = if P then a.1 else b.1 := by split <;> rfl

/-- Reduction of an `if` under a projection, for pairs (second component). -/
theorem snd_ite {α β : Type} (P : Prop) [Decidable P] (a b : α × β) :
    (if P then a else b).2 = if P then a.2 else b.2 := by split <;> rfl

theorem mod256_lt (x : Nat) : x % 256 < 256 := Nat.mod_lt _ (by norm_num)

theorem mod65536_lt (x : Nat) : x % 65536 < 65536 := Nat.mod_lt _ (by norm_num)

theorem ite_one_zero_le (P : Prop) [Decidable P] : (if P then 1 else 0 : Nat) ≤ 1 := by
  split <;> omega

theorem and_lt256 (x : Nat) {y : Nat} (h : y < 256) : x &&& y < 256 := by
  have h8 : y < 2 ^ 8 := by norm_num; exact h
  have := Nat.and_lt_two_pow x h8
  norm_num at this
  exact this

theorem and_one_le (x : Nat) : x &&& 1 ≤ 1 := Nat.and_le_right

theorem or_lt256 {x y : Nat} (hx : x < 256) (hy : y < 256) : x ||| y < 256 := by
  have hx8 : x < 2 ^ 8 := by norm_num; exact hx
  have hy8 : y < 2 ^ 8 := by norm_num; exact hy
  have := Nat.or_lt_two_pow hx8 hy8
  norm_num at this
  exact this

theorem xor_lt256 {x y : Nat} (hx : x < 256) (hy : y < 256) : x ^^^ y < 256 := by
  have hx8 : x < 2 ^ 8 := by norm_num; exact hx
  have hy8 : y < 2 ^ 8 := by norm_num; exact hy
  have := Nat.xor_lt_two_pow hx8 hy8
  norm_num at this
  exact this

theorem shiftr1_lt {x : Nat} (h : x < 256) : x >>> 1 < 256 := by
  rw [Nat.shiftRight_eq_div_pow]
  omega

theorem shl7_lt {x : Nat} (h : x ≤ 1) : x <<< 7 < 256 := by
  rw [Nat.shiftLeft_eq]
  omega

/-- Value `hi << 8 | lo` is a 16-bit value when both halves are bytes. -/
theorem or_hi_lo {hi lo : Nat} (hhi : hi < 256) (hlo : lo < 256) :
    (hi <<< 8) ||| lo < 65536 := by
  have h1 : hi <<< 8 < 2 ^ 16 := by rw [Nat.shiftLeft_eq]; norm_num; omega
  have h2 : lo < 2 ^ 16 := by norm_num; omega
  have := Nat.or_lt_two_pow h1 h2
  norm_num at this
  exact this

/-- Value `lo | (hi << 8)` is a 16-bit value when both halves are bytes. -/
theorem or_lo_hi {lo hi : Nat} (hlo : lo < 256) (hhi : hi < 256) :
    lo ||| (hi <<< 8) < 65536 := by
  have h1 : lo < 2 ^ 16 := by norm_num; omega
  have h2 : hi <<< 8 < 2 ^ 16 := by rw [Nat.shiftLeft_eq]; norm_num; omega
  have := Nat.or_lt_two_pow h1 h2
  norm_num at this
  exact this

theorem emod65536_toNat_lt (z : Int) : (z.emod 65536).toNat < 65536 := by
  have h1 : 0 ≤ z.emod 65536 := Int.emod_nonneg z (by norm_num)
  have h2 : z.emod 65536 < 65536 := Int.emod_lt_of_pos z (by norm_num)
  omega

theorem emod256_toNat_lt (z : Int) : (z.emod 256).toNat < 256 := by
  have h1 : 0 ≤ z.emod 256 := Int.emod_nonneg z (by norm_num)
  have h2 : z.emod 256 < 256 := Int.emod_lt_of_pos z (by norm_num)
  omega

/-- A number below 256 saturates when or-ed with the byte mask. -/
theorem or_255_of_lt {x : Nat} (hx : x < 256) : x ||| 255 = 255 := by
  apply Nat.eq_of_testBit_eq
  intro i
  rw [Nat.testBit_lor]
  by_cases hi : i < 8
  · have h255 : Nat.testBit 255 i = true := by
      have := Nat.testBit_two_pow_sub_one 8 i
      norm_num at this
      rw [this]
      simpa using hi
    simp [h255]
  · have hxb : Nat.testBit x i = false := by
      apply Nat.testBit_lt_two_pow
      calc x < 256 := hx
        _ ≤ 2 ^ i := by
          have : 8 ≤ i := by omega
          calc (256 : Nat) = 2 ^ 8 := by norm_num
            _ ≤ 2 ^ i := Nat.pow_le_pow_right (by norm_num) this
    have h255 : Nat.testBit 255 i = false := by
      have := Nat.testBit_two_pow_sub_one 8 i
      norm_num at this
      rw [this]
      simpa using hi
    simp [hxb, h255]

/-- Low byte of `hi << 8 | lo` when `lo` is a byte. -/
theorem or_shl8_mod256 (hi : Nat) {lo : Nat} (hlo : lo < 256) :
    ((hi <<< 8) ||| lo) % 256 = lo := by
  have hmask : ∀ x : Nat, x % 256 = x &&& 255 := by
    intro x
    have := Nat.and_pow_two_sub_one_eq_mod x 8
    norm_num at this
    omega
  rw [hmask]
  apply Nat.eq_of_testBit_eq
  intro i
  rw [Nat.testBit_land, Nat.testBit_lor]
  by_cases hi8 : i < 8
  · have h255 : Nat.testBit 255 i = true := by
      have := Nat.testBit_two_pow_sub_one 8 i
      norm_num at this
      rw [this]; simpa using hi8
    have hsh : Nat.testBit (hi <<< 8) i = false := by
      rw [Nat.testBit_shiftLeft]
      simp [show ¬ (8 ≤ i) from by omega]
    simp [h255, hsh]
  · have h255 : Nat.testBit 255 i = false := by
      have := Nat.testBit_two_pow_sub_one 8 i
      norm_num at this
      rw [this]; simpa using hi8
    have hlob : Nat.testBit lo i = false := by
      apply Nat.testBit_lt_two_pow
      calc lo < 256 := hlo
        _ ≤ 2 ^ i := by
          have : 8 ≤ i := by omega
          calc (256 : Nat) = 2 ^ 8 := by norm_num
            _ ≤ 2 ^ i := Nat.pow_le_pow_right (by norm_num) this
    simp [h255, hlob]

end BitBounds

/-! ## The bus (`class Memory` in the source)

`ram` is the 65,536-byte backing store (a function on addresses; the
source uses `bytearray(0x10000)`), `roms` is the insertion-ordered dict
`self.roms` mapping a base address to the ROM bytes, `io_read` models the
dict of read handlers (`some v` meaning a handler registered at that
address whose call returns `v`), and `io_write` models the *presence* of
a write handler (the handler itself mutates a peripheral, never the
`Memory` object, so its effect is outside this structure). -/

structure Memory where
  ram : Nat → Nat
  roms : List (Nat × List Nat)
  io_read : Nat → Option Nat
  io_write : Nat → Bool

namespace Memory

/-- First ROM overlay containing `a`, in dict insertion order; returns the
overlay byte.  This is the `for rom_addr, (data, size) in self.roms.items()`
loop shared by `read` and `write`. -/
def rom_lookup : List (Nat × List Nat) → Nat → Option Nat
  | [], _ => none
  | (base, data) :: rest, a =>
    if base ≤ a ∧ a < base + data.length then some (data.getD (a - base) 0)
    else rom_lookup rest a

/-- Source `Memory.read`: I/O handler first, then ROM overlays,
then RAM. -/
def read (m : Memory) (addr : Nat) : Nat :=
  let a := addr % 65536
  match m.io_read a with
  | some v => v
  | none =>
    match rom_lookup m.roms a with
    | some v => v
    | none => m.ram a

/-- Source `Memory.write`: an I/O write handler consumes the
write (the handler mutates a peripheral, not the `Memory`), a ROM overlay
drops it, otherwise RAM is updated. -/
def write (m : Memory) (addr value : Nat) : Memory :=
  let a := addr % 65536
  let v := value % 256
  if m.io_write a then m
  else if (rom_lookup m.roms a).isSome then m
  else { m with ram := fun x => if x = a then v else m.ram x }

/-- Python dict assignment `self.roms[addr] = data`: replace in place if
the key exists, else append. -/
def dict_insert : List (Nat × List Nat) → Nat → List Nat → List (Nat × List Nat)
  | [], k, v => [(k, v)]
  | (k', v') :: rest, k, v =>
    if k' = k then (k, v) :: rest else (k', v') :: dict_insert rest k v

/-- Source `Memory.load_rom`: registers the overlay in `roms`
and copies the bytes into RAM, skipping indices past the end of the
65,536-byte RAM.  No validation is performed. -/
def load_rom (m : Memory) (data : List Nat) (addr : Nat) : Memory :=
  { m with
    roms := dict_insert m.roms addr data,
    ram := fun x =>
      if addr ≤ x ∧ x < addr + data.length ∧ x < 65536 then data.getD (x - addr) 0
      else m.ram x }

/-- Well-formedness: every stored byte is a byte, and every I/O read
handler returns a byte (`bytearray` and `bytes` guarantee the former in
the source; the peripherals guarantee the latter). -/
def Wf (m : Memory) : Prop :=
  (∀ a, m.ram a < 256) ∧
  (∀ r ∈ m.roms, ∀ b ∈ r.2, b < 256) ∧
  (∀ a v, m.io_read a = some v → v < 256)

theorem rom_lookup_lt {roms : List (Nat × List Nat)}
    (h : ∀ r ∈ roms, ∀ b ∈ r.2, b < 256) {a v : Nat}
    (hv : rom_lookup roms a = some v) : v < 256 := by
  induction roms with
  | nil => simp [rom_lookup] at hv
  | cons hd tl ih =>
    rw [rom_lookup] at hv
    split at hv
    · rename_i hin
      obtain ⟨h1, h2⟩ := hin
      injection hv with hv
      subst hv
      rcases Nat.lt_or_ge (a - hd.1) hd.2.length with hlt | hge
      · have hmem : hd.2.getD (a - hd.1) 0 ∈ hd.2 := by
          rw [List.getD_eq_getElem hd.2 0 hlt]
          exact List.getElem_mem hlt
        exact h hd (by simp) _ hmem
      · rw [List.getD_eq_default _ _ hge]
        norm_num
    · exact ih (fun r hr => h r (by simp [hr])) hv

theorem read_lt {m : Memory} (hm : m.Wf) (addr : Nat) : m.read addr < 256 := by
  obtain ⟨hram, hrom, hio⟩ := hm
  rw [read]
  rcases hior : m.io_read (addr % 65536) with _ | v
  · rcases hroml : rom_lookup m.roms (addr % 65536) with _ | v
    · simp only [hior, hroml]
      exact hram _
    · simp only [hior, hroml]
      exact rom_lookup_lt hrom hroml
  · simp only [hior]
    exact hio _ _ hior

theorem write_wf {m : Memory} (hm : m.Wf) (addr value : Nat) : (m.write addr value).Wf := by
  obtain ⟨hram, hrom, hio⟩ := hm
  rw [write]
  split
  · exact ⟨hram, hrom, hio⟩
  · split
    · exact ⟨hram, hrom, hio⟩
    · refine ⟨?_, hrom, hio⟩
      intro a
      dsimp only
      split
      · exact mod256_lt _
      · exact hram a

end Memory

/-! ## The screen buffer (`class VideoRAM` in the source) -/

structure VideoRAM where
  width : Nat
  height : Nat
  size : Nat
  memory : List Nat
  dirty : Bool

namespace VideoRAM

/-- Constructor `VideoRAM.__init__`. -/
def init (width height : Nat) : VideoRAM :=
  { width := width, height := height, size := width * height,
    memory := List.replicate (width * height) 0, dirty := true }

/-- Source `VideoRAM.read`: out-of-range addresses read as 0.  The Python `addr`
can be any int, so the address is an `Int` here. -/
def read (v : VideoRAM) (addr : Int) : Nat :=
  if 0 ≤ addr ∧ addr < (v.size : Int) then v.memory.getD addr.toNat 0
  else 0

/-- Source `VideoRAM.write`: in-range differing writes update the byte and raise
`dirty`; equal or out-of-range writes change nothing. -/
def write (v : VideoRAM) (addr : Int) (value : Nat) : VideoRAM :=
  if 0 ≤ addr ∧ addr < (v.size : Int) then
    if v.memory.getD addr.toNat 0 ≠ value then
      { v with memory := v.memory.set addr.toNat value, dirty := true }
    else v
  else v

/-- Source `VideoRAM.clear`. -/
def clear (v : VideoRAM) : VideoRAM :=
  { v with memory := List.replicate v.size 0x20, dirty := true }

end VideoRAM

/-! ## The interface adapter (`class VIA` in the source)

The four port callbacks mutate peripherals outside the `VIA` object and
are not needed by any claim; the register file and timer state are
modelled in full. -/

structure VIA where
  registers : List Nat
  port_a : Nat
  port_b : Nat
  ddr_a : Nat
  ddr_b : Nat
  timer1_counter : Nat
  timer1_latch : Nat
  timer2_counter : Nat
  shift_register : Nat
  irq_status : Nat
  irq_enable : Nat

namespace VIA

/-- Constructor `VIA.__init__`. -/
def init : VIA :=
  { registers := List.replicate 16 0, port_a := 0xFF, port_b := 0xFF,
    ddr_a := 0, ddr_b := 0, timer1_counter := 0, timer1_latch := 0,
    timer2_counter := 0, shift_register := 0, irq_status := 0, irq_enable := 0 }

/-- Source `VIA.write` (the port A/B external callbacks touch
only peripherals and are omitted). -/
def write (v : VIA) (addr value : Nat) : VIA :=
  let reg := addr % 16
  let value := value % 256
  let v :=
    if reg = 0x0 then { v with port_b := value }
    else if reg = 0x1 then { v with port_a := value }
    else if reg = 0x2 then { v with ddr_b := value }
    else if reg = 0x3 then { v with ddr_a := value }
    else if reg = 0x4 then { v with timer1_latch := (v.timer1_latch &&& 0xFF00) ||| value }
    else if reg = 0x5 then
      let latch := (value <<< 8) ||| (v.timer1_latch % 256)
      { v with timer1_latch := latch, timer1_counter := latch,
               irq_status := pyAndNot v.irq_status 0x40 }
    else if reg = 0x6 then { v with timer1_latch := (v.timer1_latch &&& 0xFF00) ||| value }
    else if reg = 0x7 then { v with timer1_latch := (value <<< 8) ||| (v.timer1_latch % 256) }
    else if reg = 0x8 then { v with timer2_counter := (v.timer2_counter &&& 0xFF00) ||| value }
    else if reg = 0x9 then
      { v with timer2_counter := (value <<< 8) ||| (v.timer2_counter % 256),
               irq_status := pyAndNot v.irq_status 0x20 }
    else if reg = 0xA then { v with shift_register := value }
    else if reg = 0xD then { v with irq_status := pyAndNot v.irq_status value }
    else if reg = 0xE then
      if value &&& 0x80 ≠ 0 then { v with irq_enable := v.irq_enable ||| (value &&& 0x7F) }
      else { v with irq_enable := pyAndNot v.irq_enable (value &&& 0x7F) }
    else v
  { v with registers := v.registers.set reg value }

/-- Source `VIA.update_timers`: returns the updated VIA and the
`irq_triggered` flag. -/
def update_timers (v0 : VIA) (cycles : Nat) : VIA × Bool :=
  let r1 :=
    if 0 < v0.timer1_counter then
      if v0.timer1_counter ≤ cycles then
        ({ v0 with timer1_counter := v0.timer1_latch,
                   irq_status := v0.irq_status ||| 0x40 },
         v0.irq_enable &&& 0x40 != 0)
      else ({ v0 with timer1_counter := v0.timer1_counter - cycles }, false)
    else (v0, false)
  let v1 := r1.1
  let trig1 := r1.2
  if 0 < v1.timer2_counter then
    if v1.timer2_counter ≤ cycles then
      ({ v1 with timer2_counter := 0, irq_status := v1.irq_status ||| 0x20 },
       trig1 || (v1.irq_enable &&& 0x20 != 0))
    else ({ v1 with timer2_counter := v1.timer2_counter - cycles }, trig1)
  else (v1, trig1)

end VIA

/-! ## The CPU (`class CPU6502` in the source) -/

structure CPU6502 where
  A : Nat
  X : Nat
  Y : Nat
  PC : Nat
  SP : Nat
  C : Nat
  Z : Nat
  I : Nat
  D : Nat
  B : Nat
  V : Nat
  N : Nat
  cycles : Nat
  total_cycles : Nat
  irq_pending : Bool
  nmi_pending : Bool

namespace CPU6502

/-- Constructor `CPU6502.__init__`. -/
def init : CPU6502 :=
  { A := 0, X := 0, Y := 0, PC := 0, SP := 0xFF,
    C := 0, Z := 0, I := 0, D := 0, B := 0, V := 0, N := 0,
    cycles := 0, total_cycles := 0, irq_pending := false, nmi_pending := false }

section ProjIte

variable (P : Prop) [Decidable P] (c d : CPU6502)

@[simp] theorem A_ite : (if P then c else d).A = if P then c.A else d.A := by split <;> rfl
@[simp] theorem X_ite : (if P then c else d).X = if P then c.X else d.X := by split <;> rfl
@[simp] theorem Y_ite : (if P then c else d).Y = if P then c.Y else d.Y := by split <;> rfl
@[simp] theorem PC_ite : (if P then c else d).PC = if P then c.PC else d.PC := by split <;> rfl
@[simp] theorem SP_ite : (if P then c else d).SP = if P then c.SP else d.SP := by split <;> rfl
@[simp] theorem C_ite : (if P then c else d).C = if P then c.C else d.C := by split <;> rfl
@[simp] theorem Z_ite : (if P then c else d).Z = if P then c.Z else d.Z := by split <;> rfl
@[simp] theorem I_ite : (if P then c else d).I = if P then c.I else d.I := by split <;> rfl
@[simp] theorem D_ite : (if P then c else d).D = if P then c.D else d.D := by split <;> rfl
@[simp] theorem B_ite : (if P then c else d).B = if P then c.B else d.B := by split <;> rfl
@[simp] theorem V_ite : (if P then c else d).V = if P then c.V else d.V := by split <;> rfl
@[simp] theorem N_ite : (if P then c else d).N = if P then c.N else d.N := by split <;> rfl
@[simp] theorem cycles_ite : (if P then c else d).cycles = if P then c.cycles else d.cycles := by
  split <;> rfl
@[simp] theorem total_cycles_ite :
    (if P then c else d).total_cycles = if P then c.total_cycles else d.total_cycles := by
  split <;> rfl
@[simp] theorem irq_pending_ite :
    (if P then c else d).irq_pending = if P then c.irq_pending else d.irq_pending := by
  split <;> rfl
@[simp] theorem nmi_pending_ite :
    (if P then c else d).nmi_pending = if P then c.nmi_pending else d.nmi_pending := by
  split <;> rfl

end ProjIte

/-- Source `CPU6502.get_status`: assemble the P register (bit 5 always set; the B
bit is not included). -/
def get_status (c : CPU6502) : Nat :=
  c.C ||| (c.Z <<< 1) ||| (c.I <<< 2) ||| (c.D <<< 3) ||| (1 <<< 5) |||
    (c.V <<< 6) ||| (c.N <<< 7)

/-- Source `CPU6502.set_status`: scatter a byte into the flags (bit 5 ignored). -/
def set_status (c : CPU6502) (value : Nat) : CPU6502 :=
  { c with
    C := value &&& 1,
    Z := (value >>> 1) &&& 1,
    I := (value >>> 2) &&& 1,
    D := (value >>> 3) &&& 1,
    B := (value >>> 4) &&& 1,
    V := (value >>> 6) &&& 1,
    N := (value >>> 7) &&& 1 }

/-- Source `CPU6502.update_ZN`. -/
def update_ZN (c : CPU6502) (value : Nat) : CPU6502 :=
  { c with
    Z := if value % 256 = 0 then 1 else 0,
    N := if value &&& 0x80 ≠ 0 then 1 else 0 }

/-! ### Addressing modes (each returns the operand/address and the CPU
with `PC` advanced) -/

def immediate (c : CPU6502) (m : Memory) : Nat × CPU6502 :=
  (m.read c.PC, { c with PC := c.PC + 1 })

def zeropage (c : CPU6502) (m : Memory) : Nat × CPU6502 :=
  (m.read c.PC, { c with PC := c.PC + 1 })

def zeropageX (c : CPU6502) (m : Memory) : Nat × CPU6502 :=
  ((m.read c.PC + c.X) % 256, { c with PC := c.PC + 1 })

def zeropageY (c : CPU6502) (m : Memory) : Nat × CPU6502 :=
  ((m.read c.PC + c.Y) % 256, { c with PC := c.PC + 1 })

def absolute (c : CPU6502) (m : Memory) : Nat × CPU6502 :=
  let low := m.read c.PC
  let high := m.read (c.PC + 1)
  ((high <<< 8) ||| low, { c with PC := c.PC + 2 })

def absoluteX (c : CPU6502) (m : Memory) (check_page_cross : Bool := true) :
    Nat × Bool × CPU6502 :=
  let low := m.read c.PC
  let high := m.read (c.PC + 1)
  let base := (high <<< 8) ||| low
  let addr := (base + c.X) % 65536
  let page_crossed := check_page_cross && (base &&& 0xFF00 != addr &&& 0xFF00)
  (addr, page_crossed, { c with PC := c.PC + 2 })

def absoluteY (c : CPU6502) (m : Memory) (check_page_cross : Bool := true) :
    Nat × Bool × CPU6502 :=
  let low := m.read c.PC
  let high := m.read (c.PC + 1)
  let base := (high <<< 8) ||| low
  let addr := (base + c.Y) % 65536
  let page_crossed := check_page_cross && (base &&& 0xFF00 != addr &&& 0xFF00)
  (addr, page_crossed, { c with PC := c.PC + 2 })

/-- Source `CPU6502.indirect` (JMP only), with the 6502 page-wrap bug: the low
byte of the target is always read at the pointer; the high byte comes
from the start of the pointer's page when the pointer ends in `$FF`. -/
def indirect (c : CPU6502) (m : Memory) : Nat × CPU6502 :=
  let r := absolute c m
  let addr_ptr := r.1
  let low := m.read addr_ptr
  let high :=
    if addr_ptr % 256 = 0xFF then m.read (addr_ptr &&& 0xFF00)
    else m.read (addr_ptr + 1)
  ((high <<< 8) ||| low, r.2)

def indirectX (c : CPU6502) (m : Memory) : Nat × CPU6502 :=
  let ptr := (m.read c.PC + c.X) % 256
  let c := { c with PC := c.PC + 1 }
  let low := m.read (ptr % 256)
  let high := m.read ((ptr + 1) % 256)
  ((high <<< 8) ||| low, c)

def indirectY (c : CPU6502) (m : Memory) (check_page_cross : Bool := true) :
    Nat × Bool × CPU6502 :=
  let ptr := m.read c.PC
  let c := { c with PC := c.PC + 1 }
  let low := m.read (ptr % 256)
  let high := m.read ((ptr + 1) % 256)
  let base := (high <<< 8) ||| low
  let addr := (base + c.Y) % 65536
  let page_crossed := check_page_cross && (base &&& 0xFF00 != addr &&& 0xFF00)
  (addr, page_crossed, c)

end CPU6502

namespace CPU6502

/-! ### Load/store operations -/

def LDA_immediate (c : CPU6502) (m : Memory) : CPU6502 × Memory :=
  let r := immediate c m
  let c := { r.2 with A := r.1 }
  let c := update_ZN c c.A
  ({ c with cycles := c.cycles + 2 }, m)

def LDA_zeropage (c : CPU6502) (m : Memory) : CPU6502 × Memory :=
  let r := zeropage c m
  let c := { r.2 with A := m.read r.1 }
  let c := update_ZN c c.A
  ({ c with cycles := c.cycles + 3 }, m)

def LDA_zeropageX (c : CPU6502) (m : Memory) : CPU6502 × Memory :=
  let r := zeropageX c m
  let c := { r.2 with A := m.read r.1 }
  let c := update_ZN c c.A
  ({ c with cycles := c.cycles + 4 }, m)

def LDA_absolute (c : CPU6502) (m : Memory) : CPU6502 × Memory :=
  let r := absolute c m
  let c := { r.2 with A := m.read r.1 }
  let c := update_ZN c c.A
  ({ c with cycles := c.cycles + 4 }, m)

def LDA_absoluteX (c : CPU6502) (m : Memory) : CPU6502 × Memory :=
  let r := absoluteX c m
  let c := { r.2.2 with A := m.read r.1 }
  let c := update_ZN c c.A
  ({ c with cycles := c.cycles + 4 + (if r.2.1 then 1 else 0) }, m)

def LDA_absoluteY (c : CPU6502) (m : Memory) : CPU6502 × Memory :=
  let r := absoluteY c m
  let c := { r.2.2 with A := m.read r.1 }
  let c := update_ZN c c.A
  ({ c with cycles := c.cycles + 4 + (if r.2.1 then 1 else 0) }, m)

def LDA_indirectX (c : CPU6502) (m : Memory) : CPU6502 × Memory :=
  let r := indirectX c m
  let c := { r.2 with A := m.read r.1 }
  let c := update_ZN c c.A
  ({ c with cycles := c.cycles + 6 }, m)

def LDA_indirectY (c : CPU6502) (m : Memory) : CPU6502 × Memory :=
  let r := indirectY c m
  let c := { r.2.2 with A := m.read r.1 }
  let c := update_ZN c c.A
  ({ c with cycles := c.cycles + 5 + (if r.2.1 then 1 else 0) }, m)

def LDX_immediate (c : CPU6502) (m : Memory) : CPU6502 × Memory :=
  let r := immediate c m
  let c := { r.2 with X := r.1 }
  let c := update_ZN c c.X
  ({ c with cycles := c.cycles + 2 }, m)

def LDX_zeropage (c : CPU6502) (m : Memory) : CPU6502 × Memory :=
  let r := zeropage c m
  let c := { r.2 with X := m.read r.1 }
  let c := update_ZN c c.X
  ({ c with cycles := c.cycles + 3 }, m)

def LDX_zeropageY (c : CPU6502) (m : Memory) : CPU6502 × Memory :=
  let r := zeropageY c m
  let c := { r.2 with X := m.read r.1 }
  let c := update_ZN c c.X
  ({ c with cycles := c.cycles + 4 }, m)

def LDX_absolute (c : CPU6502) (m : Memory) : CPU6502 × Memory :=
  let r := absolute c m
  let c := { r.2 with X := m.read r.1 }
  let c := update_ZN c c.X
  ({ c with cycles := c.cycles + 4 }, m)

def LDX_absoluteY (c : CPU6502) (m : Memory) : CPU6502 × Memory :=
  let r := absoluteY c m
  let c := { r.2.2 with X := m.read r.1 }
  let c := update_ZN c c.X
  ({ c with cycles := c.cycles + 4 + (if r.2.1 then 1 else 0) }, m)

def LDY_immediate (c : CPU6502) (m : Memory) : CPU6502 × Memory :=
  let r := immediate c m
  let c := { r.2 with Y := r.1 }
  let c := update_ZN c c.Y
  ({ c with cycles := c.cycles + 2 }, m)

def LDY_zeropage (c : CPU6502) (m : Memory) : CPU6502 × Memory :=
  let r := zeropage c m
  let c := { r.2 with Y := m.read r.1 }
  let c := update_ZN c c.Y
  ({ c with cycles := c.cycles + 3 }, m)

def LDY_zeropageX (c : CPU6502) (m : Memory) : CPU6502 × Memory :=
  let r := zeropageX c m
  let c := { r.2 with Y := m.read r.1 }
  let c := update_ZN c c.Y
  ({ c with cycles := c.cycles + 4 }, m)

def LDY_absolute (c : CPU6502) (m : Memory) : CPU6502 × Memory :=
  let r := absolute c m
  let c := { r.2 with Y := m.read r.1 }
  let c := update_ZN c c.Y
  ({ c with cycles := c.cycles + 4 }, m)

def LDY_absoluteX (c : CPU6502) (m : Memory) : CPU6502 × Memory :=
  let r := absoluteX c m
  let c := { r.2.2 with Y := m.read r.1 }
  let c := update_ZN c c.Y
  ({ c with cycles := c.cycles + 4 + (if r.2.1 then 1 else 0) }, m)

def STA_zeropage (c : CPU6502) (m : Memory) : CPU6502 × Memory :=
  let r := zeropage c m
  let c := r.2
  ({ c with cycles := c.cycles + 3 }, m.write r.1 c.A)

def STA_zeropageX (c : CPU6502) (m : Memory) : CPU6502 × Memory :=
  let r := zeropageX c m
  let c := r.2
  ({ c with cycles := c.cycles + 4 }, m.write r.1 c.A)

def STA_absolute (c : CPU6502) (m : Memory) : CPU6502 × Memory :=
  let r := absolute c m
  let c := r.2
  ({ c with cycles := c.cycles + 4 }, m.write r.1 c.A)

def STA_absoluteX (c : CPU6502) (m : Memory) : CPU6502 × Memory :=
  let r := absoluteX c m false
  let c := r.2.2
  ({ c with cycles := c.cycles + 5 }, m.write r.1 c.A)

def STA_absoluteY (c : CPU6502) (m : Memory) : CPU6502 × Memory :=
  let r := absoluteY c m false
  let c := r.2.2
  ({ c with cycles := c.cycles + 5 }, m.write r.1 c.A)

def STA_indirectX (c : CPU6502) (m : Memory) : CPU6502 × Memory :=
  let r := indirectX c m
  let c := r.2
  ({ c with cycles := c.cycles + 6 }, m.write r.1 c.A)

def STA_indirectY (c : CPU6502) (m : Memory) : CPU6502 × Memory :=
  let r := indirectY c m false
  let c := r.2.2
  ({ c with cycles := c.cycles + 6 }, m.write r.1 c.A)

def STX_zeropage (c : CPU6502) (m : Memory) : CPU6502 × Memory :=
  let r := zeropage c m
  let c := r.2
  ({ c with cycles := c.cycles + 3 }, m.write r.1 c.X)

def STX_zeropageY (c : CPU6502) (m : Memory) : CPU6502 × Memory :=
  let r := zeropageY c m
  let c := r.2
  ({ c with cycles := c.cycles + 4 }, m.write r.1 c.X)

def STX_absolute (c : CPU6502) (m : Memory) : CPU6502 × Memory :=
  let r := absolute c m
  let c := r.2
  ({ c with cycles := c.cycles + 4 }, m.write r.1 c.X)

def STY_zeropage (c : CPU6502) (m : Memory) : CPU6502 × Memory :=
  let r := zeropage c m
  let c := r.2
  ({ c with cycles := c.cycles + 3 }, m.write r.1 c.Y)

def STY_zeropageX (c : CPU6502) (m : Memory) : CPU6502 × Memory :=
  let r := zeropageX c m
  let c := r.2
  ({ c with cycles := c.cycles + 4 }, m.write r.1 c.Y)

def STY_absolute (c : CPU6502) (m : Memory) : CPU6502 × Memory :=
  let r := absolute c m
  let c := r.2
  ({ c with cycles := c.cycles + 4 }, m.write r.1 c.Y)

/-! ### Register transfers -/

def TAX (c : CPU6502) (m : Memory) : CPU6502 × Memory :=
  let c := { c with X := c.A }
  let c := update_ZN c c.X
  ({ c with cycles := c.cycles + 2 }, m)

def TXA (c : CPU6502) (m : Memory) : CPU6502 × Memory :=
  let c := { c with A := c.X }
  let c := update_ZN c c.A
  ({ c with cycles := c.cycles + 2 }, m)

def TAY (c : CPU6502) (m : Memory) : CPU6502 × Memory :=
  let c := { c with Y := c.A }
  let c := update_ZN c c.Y
  ({ c with cycles := c.cycles + 2 }, m)

def TYA (c : CPU6502) (m : Memory) : CPU6502 × Memory :=
  let c := { c with A := c.Y }
  let c := update_ZN c c.A
  ({ c with cycles := c.cycles + 2 }, m)

def TSX (c : CPU6502) (m : Memory) : CPU6502 × Memory :=
  let c := { c with X := c.SP }
  let c := update_ZN c c.X
  ({ c with cycles := c.cycles + 2 }, m)

def TXS (c : CPU6502) (m : Memory) : CPU6502 × Memory :=
  let c := { c with SP := c.X }
  ({ c with cycles := c.cycles + 2 }, m)

/-! ### Stack operations -/

def PHA (c : CPU6502) (m : Memory) : CPU6502 × Memory :=
  let m := m.write (0x100 + c.SP) c.A
  let c := { c with SP := (c.SP + 255) % 256 }
  ({ c with cycles := c.cycles + 3 }, m)

def PLA (c : CPU6502) (m : Memory) : CPU6502 × Memory :=
  let c := { c with SP := (c.SP + 1) % 256 }
  let c := { c with A := m.read (0x100 + c.SP) }
  let c := update_ZN c c.A
  ({ c with cycles := c.cycles + 4 }, m)

def PHP (c : CPU6502) (m : Memory) : CPU6502 × Memory :=
  let status := get_status c ||| 0x10
  let m := m.write (0x100 + c.SP) status
  let c := { c with SP := (c.SP + 255) % 256 }
  ({ c with cycles := c.cycles + 3 }, m)

def PLP (c : CPU6502) (m : Memory) : CPU6502 × Memory :=
  let c := { c with SP := (c.SP + 1) % 256 }
  let c := set_status c (m.read (0x100 + c.SP))
  ({ c with cycles := c.cycles + 4 }, m)

end CPU6502

namespace CPU6502

/-! ### Logical operations -/

def AND_immediate (c : CPU6502) (m : Memory) : CPU6502 × Memory :=
  let r := immediate c m
  let c := { r.2 with A := r.2.A &&& r.1 }
  let c := update_ZN c c.A
  ({ c with cycles := c.cycles + 2 }, m)

def AND_zeropage (c : CPU6502) (m : Memory) : CPU6502 × Memory :=
  let r := zeropage c m
  let c := { r.2 with A := r.2.A &&& m.read r.1 }
  let c := update_ZN c c.A
  ({ c with cycles := c.cycles + 3 }, m)

def AND_zeropageX (c : CPU6502) (m : Memory) : CPU6502 × Memory :=
  let r := zeropageX c m
  let c := { r.2 with A := r.2.A &&& m.read r.1 }
  let c := update_ZN c c.A
  ({ c with cycles := c.cycles + 4 }, m)

def AND_absolute (c : CPU6502) (m : Memory) : CPU6502 × Memory :=
  let r := absolute c m
  let c := { r.2 with A := r.2.A &&& m.read r.1 }
  let c := update_ZN c c.A
  ({ c with cycles := c.cycles + 4 }, m)

def AND_absoluteX (c : CPU6502) (m : Memory) : CPU6502 × Memory :=
  let r := absoluteX c m
  let c := { r.2.2 with A := r.2.2.A &&& m.read r.1 }
  let c := update_ZN c c.A
  ({ c with cycles := c.cycles + 4 + (if r.2.1 then 1 else 0) }, m)

def AND_absoluteY (c : CPU6502) (m : Memory) : CPU6502 × Memory :=
  let r := absoluteY c m
  let c := { r.2.2 with A := r.2.2.A &&& m.read r.1 }
  let c := update_ZN c c.A
  ({ c with cycles := c.cycles + 4 + (if r.2.1 then 1 else 0) }, m)

def AND_indirectX (c : CPU6502) (m : Memory) : CPU6502 × Memory :=
  let r := indirectX c m
  let c := { r.2 with A := r.2.A &&& m.read r.1 }
  let c := update_ZN c c.A
  ({ c with cycles := c.cycles + 6 }, m)

def AND_indirectY (c : CPU6502) (m : Memory) : CPU6502 × Memory :=
  let r := indirectY c m
  let c := { r.2.2 with A := r.2.2.A &&& m.read r.1 }
  let c := update_ZN c c.A
  ({ c with cycles := c.cycles + 5 + (if r.2.1 then 1 else 0) }, m)

def ORA_immediate (c : CPU6502) (m : Memory) : CPU6502 × Memory :=
  let r := immediate c m
  let c := { r.2 with A := r.2.A ||| r.1 }
  let c := update_ZN c c.A
  ({ c with cycles := c.cycles + 2 }, m)

def ORA_zeropage (c : CPU6502) (m : Memory) : CPU6502 × Memory :=
  let r := zeropage c m
  let c := { r.2 with A := r.2.A ||| m.read r.1 }
  let c := update_ZN c c.A
  ({ c with cycles := c.cycles + 3 }, m)

def ORA_zeropageX (c : CPU6502) (m : Memory) : CPU6502 × Memory :=
  let r := zeropageX c m
  let c := { r.2 with A := r.2.A ||| m.read r.1 }
  let c := update_ZN c c.A
  ({ c with cycles := c.cycles + 4 }, m)

def ORA_absolute (c : CPU6502) (m : Memory) : CPU6502 × Memory :=
  let r := absolute c m
  let c := { r.2 with A := r.2.A ||| m.read r.1 }
  let c := update_ZN c c.A
  ({ c with cycles := c.cycles + 4 }, m)

def ORA_absoluteX (c : CPU6502) (m : Memory) : CPU6502 × Memory :=
  let r := absoluteX c m
  let c := { r.2.2 with A := r.2.2.A ||| m.read r.1 }
  let c := update_ZN c c.A
  ({ c with cycles := c.cycles + 4 + (if r.2.1 then 1 else 0) }, m)

def ORA_absoluteY (c : CPU6502) (m : Memory) : CPU6502 × Memory :=
  let r := absoluteY c m
  let c := { r.2.2 with A := r.2.2.A ||| m.read r.1 }
  let c := update_ZN c c.A
  ({ c with cycles := c.cycles + 4 + (if r.2.1 then 1 else 0) }, m)

def ORA_indirectX (c : CPU6502) (m : Memory) : CPU6502 × Memory :=
  let r := indirectX c m
  let c := { r.2 with A := r.2.A ||| m.read r.1 }
  let c := update_ZN c c.A
  ({ c with cycles := c.cycles + 6 }, m)

def ORA_indirectY (c : CPU6502) (m : Memory) : CPU6502 × Memory :=
  let r := indirectY c m
  let c := { r.2.2 with A := r.2.2.A ||| m.read r.1 }
  let c := update_ZN c c.A
  ({ c with cycles := c.cycles + 5 + (if r.2.1 then 1 else 0) }, m)

def EOR_immediate (c : CPU6502) (m : Memory) : CPU6502 × Memory :=
  let r := immediate c m
  let c := { r.2 with A := r.2.A ^^^ r.1 }
  let c := update_ZN c c.A
  ({ c with cycles := c.cycles + 2 }, m)

def EOR_zeropage (c : CPU6502) (m : Memory) : CPU6502 × Memory :=
  let r := zeropage c m
  let c := { r.2 with A := r.2.A ^^^ m.read r.1 }
  let c := update_ZN c c.A
  ({ c with cycles := c.cycles + 3 }, m)

def EOR_zeropageX (c : CPU6502) (m : Memory) : CPU6502 × Memory :=
  let r := zeropageX c m
  let c := { r.2 with A := r.2.A ^^^ m.read r.1 }
  let c := update_ZN c c.A
  ({ c with cycles := c.cycles + 4 }, m)

def EOR_absolute (c : CPU6502) (m : Memory) : CPU6502 × Memory :=
  let r := absolute c m
  let c := { r.2 with A := r.2.A ^^^ m.read r.1 }
  let c := update_ZN c c.A
  ({ c with cycles := c.cycles + 4 }, m)

def EOR_absoluteX (c : CPU6502) (m : Memory) : CPU6502 × Memory :=
  let r := absoluteX c m
  let c := { r.2.2 with A := r.2.2.A ^^^ m.read r.1 }
  let c := update_ZN c c.A
  ({ c with cycles := c.cycles + 4 + (if r.2.1 then 1 else 0) }, m)

def EOR_absoluteY (c : CPU6502) (m : Memory) : CPU6502 × Memory :=
  let r := absoluteY c m
  let c := { r.2.2 with A := r.2.2.A ^^^ m.read r.1 }
  let c := update_ZN c c.A
  ({ c with cycles := c.cycles + 4 + (if r.2.1 then 1 else 0) }, m)

def EOR_indirectX (c : CPU6502) (m : Memory) : CPU6502 × Memory :=
  let r := indirectX c m
  let c := { r.2 with A := r.2.A ^^^ m.read r.1 }
  let c := update_ZN c c.A
  ({ c with cycles := c.cycles + 6 }, m)

def EOR_indirectY (c : CPU6502) (m : Memory) : CPU6502 × Memory :=
  let r := indirectY c m
  let c := { r.2.2 with A := r.2.2.A ^^^ m.read r.1 }
  let c := update_ZN c c.A
  ({ c with cycles := c.cycles + 5 + (if r.2.1 then 1 else 0) }, m)

def BIT_zeropage (c : CPU6502) (m : Memory) : CPU6502 × Memory :=
  let r := zeropage c m
  let value := m.read r.1
  let c := { r.2 with
    Z := if r.2.A &&& value = 0 then 1 else 0,
    V := (value >>> 6) &&& 1,
    N := (value >>> 7) &&& 1 }
  ({ c with cycles := c.cycles + 3 }, m)

def BIT_absolute (c : CPU6502) (m : Memory) : CPU6502 × Memory :=
  let r := absolute c m
  let value := m.read r.1
  let c := { r.2 with
    Z := if r.2.A &&& value = 0 then 1 else 0,
    V := (value >>> 6) &&& 1,
    N := (value >>> 7) &&& 1 }
  ({ c with cycles := c.cycles + 4 }, m)

/-! ### Arithmetic -/

/-- Source `CPU6502._add_with_carry`.  In decimal mode (`D ≠ 0`) the source
computes the BCD `result` and sets C/Z/N/V from it, but never assigns
`result` to `self.A`: the accumulator is left unchanged.  In binary mode
it is the usual 6502 ADC.  (Python's `~(A ^ value) & (A ^ temp)` equals
`pyAndNot (A ^ temp) (A ^ value)`.) -/
def add_with_carry (c : CPU6502) (value : Nat) : CPU6502 :=
  if c.D ≠ 0 then
    let a_lo := c.A % 16
    let a_hi := c.A >>> 4
    let val_lo := value % 16
    let val_hi := value >>> 4
    let rl := a_lo + val_lo + c.C
    let result_lo := if rl > 9 then (rl + 6) % 16 else rl
    let carry_lo := if rl > 9 then 1 else 0
    let rh := a_hi + val_hi + carry_lo
    let result_hi := if rh > 9 then (rh + 6) % 16 else rh
    let result := (result_hi <<< 4) ||| result_lo
    { c with
      C := if rh > 9 then 1 else 0,
      Z := if result % 256 = 0 then 1 else 0,
      N := if result &&& 0x80 ≠ 0 then 1 else 0,
      V := 0 }
  else
    let temp := c.A + value + c.C
    let c := { c with
      C := if temp > 0xFF then 1 else 0,
      V := if (pyAndNot (c.A ^^^ temp) (c.A ^^^ value)) &&& 0x80 ≠ 0 then 1 else 0,
      A := temp % 256 }
    update_ZN c c.A

/-- Source `CPU6502._subtract_with_carry`.  In decimal mode the source computes
the BCD `result` and sets C/Z/N/V from it but, as in `add_with_carry`,
never assigns it to `self.A`.  The nibble differences can be negative in
Python, so they are `Int` here. -/
def subtract_with_carry (c : CPU6502) (value : Nat) : CPU6502 :=
  if c.D ≠ 0 then
    let a_lo : Int := c.A % 16
    let a_hi : Int := c.A >>> 4
    let val_lo : Int := value % 16
    let val_hi : Int := value >>> 4
    let borrow : Int := 1 - (c.C : Int)
    let rl := a_lo - val_lo - borrow
    let result_lo := if rl < 0 then rl + 10 else rl
    let borrow_lo : Int := if rl < 0 then 1 else 0
    let rh := a_hi - val_hi - borrow_lo
    let result_hi := if rh < 0 then rh + 10 else rh
    let result := pyOr (pyShl result_hi 4) result_lo
    { c with
      C := if rh < 0 then 0 else 1,
      Z := if pyAnd result 0xFF = 0 then 1 else 0,
      N := if pyAnd result 0x80 ≠ 0 then 1 else 0,
      V := 0 }
  else
    add_with_carry c (value ^^^ 0xFF)

def ADC_immediate (c : CPU6502) (m : Memory) : CPU6502 × Memory :=
  let r := immediate c m
  let c := add_with_carry r.2 r.1
  ({ c with cycles := c.cycles + 2 }, m)

def ADC_zeropage (c : CPU6502) (m : Memory) : CPU6502 × Memory :=
  let r := zeropage c m
  let c := add_with_carry r.2 (m.read r.1)
  ({ c with cycles := c.cycles + 3 }, m)

def ADC_zeropageX (c : CPU6502) (m : Memory) : CPU6502 × Memory :=
  let r := zeropageX c m
  let c := add_with_carry r.2 (m.read r.1)
  ({ c with cycles := c.cycles + 4 }, m)

def ADC_absolute (c : CPU6502) (m : Memory) : CPU6502 × Memory :=
  let r := absolute c m
  let c := add_with_carry r.2 (m.read r.1)
  ({ c with cycles := c.cycles + 4 }, m)

def ADC_absoluteX (c : CPU6502) (m : Memory) : CPU6502 × Memory :=
  let r := absoluteX c m
  let c := add_with_carry r.2.2 (m.read r.1)
  ({ c with cycles := c.cycles + 4 + (if r.2.1 then 1 else 0) }, m)

def ADC_absoluteY (c : CPU6502) (m : Memory) : CPU6502 × Memory :=
  let r := absoluteY c m
  let c := add_with_carry r.2.2 (m.read r.1)
  ({ c with cycles := c.cycles + 4 + (if r.2.1 then 1 else 0) }, m)

def ADC_indirectX (c : CPU6502) (m : Memory) : CPU6502 × Memory :=
  let r := indirectX c m
  let c := add_with_carry r.2 (m.read r.1)
  ({ c with cycles := c.cycles + 6 }, m)

def ADC_indirectY (c : CPU6502) (m : Memory) : CPU6502 × Memory :=
  let r := indirectY c m
  let c := add_with_carry r.2.2 (m.read r.1)
  ({ c with cycles := c.cycles + 5 + (if r.2.1 then 1 else 0) }, m)

def SBC_immediate (c : CPU6502) (m : Memory) : CPU6502 × Memory :=
  let r := immediate c m
  let c := subtract_with_carry r.2 r.1
  ({ c with cycles := c.cycles + 2 }, m)

def SBC_zeropage (c : CPU6502) (m : Memory) : CPU6502 × Memory :=
  let r := zeropage c m
  let c := subtract_with_carry r.2 (m.read r.1)
  ({ c with cycles := c.cycles + 3 }, m)

def SBC_zeropageX (c : CPU6502) (m : Memory) : CPU6502 × Memory :=
  let r := zeropageX c m
  let c := subtract_with_carry r.2 (m.read r.1)
  ({ c with cycles := c.cycles + 4 }, m)

def SBC_absolute (c : CPU6502) (m : Memory) : CPU6502 × Memory :=
  let r := absolute c m
  let c := subtract_with_carry r.2 (m.read r.1)
  ({ c with cycles := c.cycles + 4 }, m)

def SBC_absoluteX (c : CPU6502) (m : Memory) : CPU6502 × Memory :=
  let r := absoluteX c m
  let c := subtract_with_carry r.2.2 (m.read r.1)
  ({ c with cycles := c.cycles + 4 + (if r.2.1 then 1 else 0) }, m)

def SBC_absoluteY (c : CPU6502) (m : Memory) : CPU6502 × Memory :=
  let r := absoluteY c m
  let c := subtract_with_carry r.2.2 (m.read r.1)
  ({ c with cycles := c.cycles + 4 + (if r.2.1 then 1 else 0) }, m)

def SBC_indirectX (c : CPU6502) (m : Memory) : CPU6502 × Memory :=
  let r := indirectX c m
  let c := subtract_with_carry r.2 (m.read r.1)
  ({ c with cycles := c.cycles + 6 }, m)

def SBC_indirectY (c : CPU6502) (m : Memory) : CPU6502 × Memory :=
  let r := indirectY c m
  let c := subtract_with_carry r.2.2 (m.read r.1)
  ({ c with cycles := c.cycles + 5 + (if r.2.1 then 1 else 0) }, m)

/-- Source `CPU6502._compare` (CMP/CPX/CPY).  `(reg - value) & 0xFF` can have a
negative left operand in Python, hence the `Int` detour. -/
def compare (c : CPU6502) (reg value : Nat) : CPU6502 :=
  let result := (((reg : Int) - (value : Int)).emod 256).toNat
  { c with
    C := if reg ≥ value then 1 else 0,
    Z := if reg = value then 1 else 0,
    N := if result &&& 0x80 ≠ 0 then 1 else 0 }

def CMP_immediate (c : CPU6502) (m : Memory) : CPU6502 × Memory :=
  let r := immediate c m
  let c := compare r.2 r.2.A r.1
  ({ c with cycles := c.cycles + 2 }, m)

def CMP_zeropage (c : CPU6502) (m : Memory) : CPU6502 × Memory :=
  let r := zeropage c m
  let c := compare r.2 r.2.A (m.read r.1)
  ({ c with cycles := c.cycles + 3 }, m)

def CMP_zeropageX (c : CPU6502) (m : Memory) : CPU6502 × Memory :=
  let r := zeropageX c m
  let c := compare r.2 r.2.A (m.read r.1)
  ({ c with cycles := c.cycles + 4 }, m)

def CMP_absolute (c : CPU6502) (m : Memory) : CPU6502 × Memory :=
  let r := absolute c m
  let c := compare r.2 r.2.A (m.read r.1)
  ({ c with cycles := c.cycles + 4 }, m)

def CMP_absoluteX (c : CPU6502) (m : Memory) : CPU6502 × Memory :=
  let r := absoluteX c m
  let c := compare r.2.2 r.2.2.A (m.read r.1)
  ({ c with cycles := c.cycles + 4 + (if r.2.1 then 1 else 0) }, m)

def CMP_absoluteY (c : CPU6502) (m : Memory) : CPU6502 × Memory :=
  let r := absoluteY c m
  let c := compare r.2.2 r.2.2.A (m.read r.1)
  ({ c with cycles := c.cycles + 4 + (if r.2.1 then 1 else 0) }, m)

def CMP_indirectX (c : CPU6502) (m : Memory) : CPU6502 × Memory :=
  let r := indirectX c m
  let c := compare r.2 r.2.A (m.read r.1)
  ({ c with cycles := c.cycles + 6 }, m)

def CMP_indirectY (c : CPU6502) (m : Memory) : CPU6502 × Memory :=
  let r := indirectY c m
  let c := compare r.2.2 r.2.2.A (m.read r.1)
  ({ c with cycles := c.cycles + 5 + (if r.2.1 then 1 else 0) }, m)

def CPX_immediate (c : CPU6502) (m : Memory) : CPU6502 × Memory :=
  let r := immediate c m
  let c := compare r.2 r.2.X r.1
  ({ c with cycles := c.cycles + 2 }, m)

def CPX_zeropage (c : CPU6502) (m : Memory) : CPU6502 × Memory :=
  let r := zeropage c m
  let c := compare r.2 r.2.X (m.read r.1)
  ({ c with cycles := c.cycles + 3 }, m)

def CPX_absolute (c : CPU6502) (m : Memory) : CPU6502 × Memory :=
  let r := absolute c m
  let c := compare r.2 r.2.X (m.read r.1)
  ({ c with cycles := c.cycles + 4 }, m)

def CPY_immediate (c : CPU6502) (m : Memory) : CPU6502 × Memory :=
  let r := immediate c m
  let c := compare r.2 r.2.Y r.1
  ({ c with cycles := c.cycles + 2 }, m)

def CPY_zeropage (c : CPU6502) (m : Memory) : CPU6502 × Memory :=
  let r := zeropage c m
  let c := compare r.2 r.2.Y (m.read r.1)
  ({ c with cycles := c.cycles + 3 }, m)

def CPY_absolute (c : CPU6502) (m : Memory) : CPU6502 × Memory :=
  let r := absolute c m
  let c := compare r.2 r.2.Y (m.read r.1)
  ({ c with cycles := c.cycles + 4 }, m)

end CPU6502

namespace CPU6502

/-! ### Increments and decrements -/

def INC_zeropage (c : CPU6502) (m : Memory) : CPU6502 × Memory :=
  let r := zeropage c m
  let value := (m.read r.1 + 1) % 256
  let c := update_ZN r.2 value
  ({ c with cycles := c.cycles + 5 }, m.write r.1 value)

def INC_zeropageX (c : CPU6502) (m : Memory) : CPU6502 × Memory :=
  let r := zeropageX c m
  let value := (m.read r.1 + 1) % 256
  let c := update_ZN r.2 value
  ({ c with cycles := c.cycles + 6 }, m.write r.1 value)

def INC_absolute (c : CPU6502) (m : Memory) : CPU6502 × Memory :=
  let r := absolute c m
  let value := (m.read r.1 + 1) % 256
  let c := update_ZN r.2 value
  ({ c with cycles := c.cycles + 6 }, m.write r.1 value)

def INC_absoluteX (c : CPU6502) (m : Memory) : CPU6502 × Memory :=
  let r := absoluteX c m false
  let value := (m.read r.1 + 1) % 256
  let c := update_ZN r.2.2 value
  ({ c with cycles := c.cycles + 7 }, m.write r.1 value)

def INX (c : CPU6502) (m : Memory) : CPU6502 × Memory :=
  let c := { c with X := (c.X + 1) % 256 }
  let c := update_ZN c c.X
  ({ c with cycles := c.cycles + 2 }, m)

def INY (c : CPU6502) (m : Memory) : CPU6502 × Memory :=
  let c := { c with Y := (c.Y + 1) % 256 }
  let c := update_ZN c c.Y
  ({ c with cycles := c.cycles + 2 }, m)

def DEC_zeropage (c : CPU6502) (m : Memory) : CPU6502 × Memory :=
  let r := zeropage c m
  let value := (m.read r.1 + 255) % 256
  let c := update_ZN r.2 value
  ({ c with cycles := c.cycles + 5 }, m.write r.1 value)

def DEC_zeropageX (c : CPU6502) (m : Memory) : CPU6502 × Memory :=
  let r := zeropageX c m
  let value := (m.read r.1 + 255) % 256
  let c := update_ZN r.2 value
  ({ c with cycles := c.cycles + 6 }, m.write r.1 value)

def DEC_absolute (c : CPU6502) (m : Memory) : CPU6502 × Memory :=
  let r := absolute c m
  let value := (m.read r.1 + 255) % 256
  let c := update_ZN r.2 value
  ({ c with cycles := c.cycles + 6 }, m.write r.1 value)

def DEC_absoluteX (c : CPU6502) (m : Memory) : CPU6502 × Memory :=
  let r := absoluteX c m false
  let value := (m.read r.1 + 255) % 256
  let c := update_ZN r.2.2 value
  ({ c with cycles := c.cycles + 7 }, m.write r.1 value)

def DEX (c : CPU6502) (m : Memory) : CPU6502 × Memory :=
  let c := { c with X := (c.X + 255) % 256 }
  let c := update_ZN c c.X
  ({ c with cycles := c.cycles + 2 }, m)

def DEY (c : CPU6502) (m : Memory) : CPU6502 × Memory :=
  let c := { c with Y := (c.Y + 255) % 256 }
  let c := update_ZN c c.Y
  ({ c with cycles := c.cycles + 2 }, m)

/-! ### Shifts and rotates -/

def ASL_accumulator (c : CPU6502) (m : Memory) : CPU6502 × Memory :=
  let c := { c with C := (c.A >>> 7) &&& 1 }
  let c := { c with A := (c.A <<< 1) % 256 }
  let c := update_ZN c c.A
  ({ c with cycles := c.cycles + 2 }, m)

def ASL_zeropage (c : CPU6502) (m : Memory) : CPU6502 × Memory :=
  let r := zeropage c m
  let value := m.read r.1
  let c := { r.2 with C := (value >>> 7) &&& 1 }
  let value := (value <<< 1) % 256
  let c := update_ZN c value
  ({ c with cycles := c.cycles + 5 }, m.write r.1 value)

def ASL_zeropageX (c : CPU6502) (m : Memory) : CPU6502 × Memory :=
  let r := zeropageX c m
  let value := m.read r.1
  let c := { r.2 with C := (value >>> 7) &&& 1 }
  let value := (value <<< 1) % 256
  let c := update_ZN c value
  ({ c with cycles := c.cycles + 6 }, m.write r.1 value)

def ASL_absolute (c : CPU6502) (m : Memory) : CPU6502 × Memory :=
  let r := absolute c m
  let value := m.read r.1
  let c := { r.2 with C := (value >>> 7) &&& 1 }
  let value := (value <<< 1) % 256
  let c := update_ZN c value
  ({ c with cycles := c.cycles + 6 }, m.write r.1 value)

def ASL_absoluteX (c : CPU6502) (m : Memory) : CPU6502 × Memory :=
  let r := absoluteX c m false
  let value := m.read r.1
  let c := { r.2.2 with C := (value >>> 7) &&& 1 }
  let value := (value <<< 1) % 256
  let c := update_ZN c value
  ({ c with cycles := c.cycles + 7 }, m.write r.1 value)

def LSR_accumulator (c : CPU6502) (m : Memory) : CPU6502 × Memory :=
  let c := { c with C := c.A &&& 1 }
  let c := { c with A := c.A >>> 1 }
  let c := update_ZN c c.A
  ({ c with cycles := c.cycles + 2 }, m)

def LSR_zeropage (c : CPU6502) (m : Memory) : CPU6502 × Memory :=
  let r := zeropage c m
  let value := m.read r.1
  let c := { r.2 with C := value &&& 1 }
  let value := value >>> 1
  let c := update_ZN c value
  ({ c with cycles := c.cycles + 5 }, m.write r.1 value)

def LSR_zeropageX (c : CPU6502) (m : Memory) : CPU6502 × Memory :=
  let r := zeropageX c m
  let value := m.read r.1
  let c := { r.2 with C := value &&& 1 }
  let value := value >>> 1
  let c := update_ZN c value
  ({ c with cycles := c.cycles + 6 }, m.write r.1 value)

def LSR_absolute (c : CPU6502) (m : Memory) : CPU6502 × Memory :=
  let r := absolute c m
  let value := m.read r.1
  let c := { r.2 with C := value &&& 1 }
  let value := value >>> 1
  let c := update_ZN c value
  ({ c with cycles := c.cycles + 6 }, m.write r.1 value)

def LSR_absoluteX (c : CPU6502) (m : Memory) : CPU6502 × Memory :=
  let r := absoluteX c m false
  let value := m.read r.1
  let c := { r.2.2 with C := value &&& 1 }
  let value := value >>> 1
  let c := update_ZN c value
  ({ c with cycles := c.cycles + 7 }, m.write r.1 value)

def ROL_accumulator (c : CPU6502) (m : Memory) : CPU6502 × Memory :=
  let old_carry := c.C
  let c := { c with C := (c.A >>> 7) &&& 1 }
  let c := { c with A := ((c.A <<< 1) ||| old_carry) % 256 }
  let c := update_ZN c c.A
  ({ c with cycles := c.cycles + 2 }, m)

def ROL_zeropage (c : CPU6502) (m : Memory) : CPU6502 × Memory :=
  let r := zeropage c m
  let value := m.read r.1
  let old_carry := r.2.C
  let c := { r.2 with C := (value >>> 7) &&& 1 }
  let value := ((value <<< 1) ||| old_carry) % 256
  let c := update_ZN c value
  ({ c with cycles := c.cycles + 5 }, m.write r.1 value)

def ROL_zeropageX (c : CPU6502) (m : Memory) : CPU6502 × Memory :=
  let r := zeropageX c m
  let value := m.read r.1
  let old_carry := r.2.C
  let c := { r.2 with C := (value >>> 7) &&& 1 }
  let value := ((value <<< 1) ||| old_carry) % 256
  let c := update_ZN c value
  ({ c with cycles := c.cycles + 6 }, m.write r.1 value)

def ROL_absolute (c : CPU6502) (m : Memory) : CPU6502 × Memory :=
  let r := absolute c m
  let value := m.read r.1
  let old_carry := r.2.C
  let c := { r.2 with C := (value >>> 7) &&& 1 }
  let value := ((value <<< 1) ||| old_carry) % 256
  let c := update_ZN c value
  ({ c with cycles := c.cycles + 6 }, m.write r.1 value)

def ROL_absoluteX (c : CPU6502) (m : Memory) : CPU6502 × Memory :=
  let r := absoluteX c m false
  let value := m.read r.1
  let old_carry := r.2.2.C
  let c := { r.2.2 with C := (value >>> 7) &&& 1 }
  let value := ((value <<< 1) ||| old_carry) % 256
  let c := update_ZN c value
  ({ c with cycles := c.cycles + 7 }, m.write r.1 value)

def ROR_accumulator (c : CPU6502) (m : Memory) : CPU6502 × Memory :=
  let old_carry := c.C
  let c := { c with C := c.A &&& 1 }
  let c := { c with A := (c.A >>> 1) ||| (old_carry <<< 7) }
  let c := update_ZN c c.A
  ({ c with cycles := c.cycles + 2 }, m)

def ROR_zeropage (c : CPU6502) (m : Memory) : CPU6502 × Memory :=
  let r := zeropage c m
  let value := m.read r.1
  let old_carry := r.2.C
  let c := { r.2 with C := value &&& 1 }
  let value := (value >>> 1) ||| (old_carry <<< 7)
  let c := update_ZN c value
  ({ c with cycles := c.cycles + 5 }, m.write r.1 value)

def ROR_zeropageX (c : CPU6502) (m : Memory) : CPU6502 × Memory :=
  let r := zeropageX c m
  let value := m.read r.1
  let old_carry := r.2.C
  let c := { r.2 with C := value &&& 1 }
  let value := (value >>> 1) ||| (old_carry <<< 7)
  let c := update_ZN c value
  ({ c with cycles := c.cycles + 6 }, m.write r.1 value)

def ROR_absolute (c : CPU6502) (m : Memory) : CPU6502 × Memory :=
  let r := absolute c m
  let value := m.read r.1
  let old_carry := r.2.C
  let c := { r.2 with C := value &&& 1 }
  let value := (value >>> 1) ||| (old_carry <<< 7)
  let c := update_ZN c value
  ({ c with cycles := c.cycles + 6 }, m.write r.1 value)

def ROR_absoluteX (c : CPU6502) (m : Memory) : CPU6502 × Memory :=
  let r := absoluteX c m false
  let value := m.read r.1
  let old_carry := r.2.2.C
  let c := { r.2.2 with C := value &&& 1 }
  let value := (value >>> 1) ||| (old_carry <<< 7)
  let c := update_ZN c value
  ({ c with cycles := c.cycles + 7 }, m.write r.1 value)

/-! ### Jumps, calls and branches -/

def JMP_absolute (c : CPU6502) (m : Memory) : CPU6502 × Memory :=
  let r := absolute c m
  let c := { r.2 with PC := r.1 }
  ({ c with cycles := c.cycles + 3 }, m)

def JMP_indirect (c : CPU6502) (m : Memory) : CPU6502 × Memory :=
  let r := indirect c m
  let c := { r.2 with PC := r.1 }
  ({ c with cycles := c.cycles + 5 }, m)

def JSR_absolute (c : CPU6502) (m : Memory) : CPU6502 × Memory :=
  let r := absolute c m
  let c := r.2
  let return_addr := c.PC - 1
  let m := m.write (0x100 + c.SP) ((return_addr >>> 8) % 256)
  let c := { c with SP := (c.SP + 255) % 256 }
  let m := m.write (0x100 + c.SP) (return_addr % 256)
  let c := { c with SP := (c.SP + 255) % 256 }
  let c := { c with PC := r.1 }
  ({ c with cycles := c.cycles + 6 }, m)

/-- Source `CPU6502.RTS`.  Note the source sets `PC = ((high << 8) | low) + 1`
without masking to 16 bits. -/
def RTS (c : CPU6502) (m : Memory) : CPU6502 × Memory :=
  let c := { c with SP := (c.SP + 1) % 256 }
  let low := m.read (0x100 + c.SP)
  let c := { c with SP := (c.SP + 1) % 256 }
  let high := m.read (0x100 + c.SP)
  let c := { c with PC := ((high <<< 8) ||| low) + 1 }
  ({ c with cycles := c.cycles + 6 }, m)

/-- Source `CPU6502._branch`: signed 8-bit offset applied to the PC after the
operand, with +1 cycle when taken and +1 more on a page cross. -/
def branch (c : CPU6502) (m : Memory) (condition : Bool) : CPU6502 × Memory :=
  let r := immediate c m
  let offset := r.1
  let c := r.2
  let c :=
    if condition then
      let off : Int := if offset &&& 0x80 ≠ 0 then -(256 - (offset : Int)) else (offset : Int)
      let old_pc := c.PC
      let newPC := (((c.PC : Int) + off).emod 65536).toNat
      let c := { c with PC := newPC, cycles := c.cycles + 1 }
      if old_pc &&& 0xFF00 ≠ newPC &&& 0xFF00 then { c with cycles := c.cycles + 1 } else c
    else c
  ({ c with cycles := c.cycles + 2 }, m)

def BCC (c : CPU6502) (m : Memory) : CPU6502 × Memory := branch c m (c.C == 0)

def BCS (c : CPU6502) (m : Memory) : CPU6502 × Memory := branch c m (c.C == 1)

def BEQ (c : CPU6502) (m : Memory) : CPU6502 × Memory := branch c m (c.Z == 1)

def BMI (c : CPU6502) (m : Memory) : CPU6502 × Memory := branch c m (c.N == 1)

def BNE (c : CPU6502) (m : Memory) : CPU6502 × Memory := branch c m (c.Z == 0)

def BPL (c : CPU6502) (m : Memory) : CPU6502 × Memory := branch c m (c.N == 0)

def BVC (c : CPU6502) (m : Memory) : CPU6502 × Memory := branch c m (c.V == 0)

def BVS (c : CPU6502) (m : Memory) : CPU6502 × Memory := branch c m (c.V == 1)

/-! ### Flag changes and system functions -/

def CLC (c : CPU6502) (m : Memory) : CPU6502 × Memory :=
  ({ c with C := 0, cycles := c.cycles + 2 }, m)

def SEC (c : CPU6502) (m : Memory) : CPU6502 × Memory :=
  ({ c with C := 1, cycles := c.cycles + 2 }, m)

def CLI (c : CPU6502) (m : Memory) : CPU6502 × Memory :=
  ({ c with I := 0, cycles := c.cycles + 2 }, m)

def SEI (c : CPU6502) (m : Memory) : CPU6502 × Memory :=
  ({ c with I := 1, cycles := c.cycles + 2 }, m)

def CLV (c : CPU6502) (m : Memory) : CPU6502 × Memory :=
  ({ c with V := 0, cycles := c.cycles + 2 }, m)

def CLD (c : CPU6502) (m : Memory) : CPU6502 × Memory :=
  ({ c with D := 0, cycles := c.cycles + 2 }, m)

def SED (c : CPU6502) (m : Memory) : CPU6502 × Memory :=
  ({ c with D := 1, cycles := c.cycles + 2 }, m)

/-- Source `CPU6502.BRK`: push PC+1 (high then low), push status with B set,
set I, vector through `$FFFE/$FFFF`, 7 cycles.  The vector is read from
the memory after the pushes, exactly as in the source. -/
def BRK (c : CPU6502) (m : Memory) : CPU6502 × Memory :=
  let m := m.write (0x100 + c.SP) (((c.PC + 1) >>> 8) % 256)
  let c := { c with SP := (c.SP + 255) % 256 }
  let m := m.write (0x100 + c.SP) ((c.PC + 1) % 256)
  let c := { c with SP := (c.SP + 255) % 256 }
  let m := m.write (0x100 + c.SP) (get_status c ||| 0x10)
  let c := { c with SP := (c.SP + 255) % 256 }
  let c := { c with I := 1 }
  let c := { c with PC := m.read 0xFFFE ||| (m.read 0xFFFF <<< 8) }
  ({ c with cycles := c.cycles + 7 }, m)

def RTI (c : CPU6502) (m : Memory) : CPU6502 × Memory :=
  let c := { c with SP := (c.SP + 1) % 256 }
  let c := set_status c (m.read (0x100 + c.SP))
  let c := { c with SP := (c.SP + 1) % 256 }
  let low := m.read (0x100 + c.SP)
  let c := { c with SP := (c.SP + 1) % 256 }
  let high := m.read (0x100 + c.SP)
  let c := { c with PC := (high <<< 8) ||| low }
  ({ c with cycles := c.cycles + 6 }, m)

def NOP (c : CPU6502) (m : Memory) : CPU6502 × Memory :=
  ({ c with cycles := c.cycles + 2 }, m)

end CPU6502

namespace CPU6502

set_option maxRecDepth 8192 in
/-- The 256-entry dispatch of `self.instructions` plus the
unknown-opcode fallback (`self.cycles += 2`) from `CPU6502.step`;
the dict lookup is modelled as a chain of opcode comparisons. -/
def execute (opcode : Nat) (c : CPU6502) (m : Memory) : CPU6502 × Memory :=
  if opcode = 0xA9 then LDA_immediate c m
  else if opcode = 0xA5 then LDA_zeropage c m
  else if opcode = 0xB5 then LDA_zeropageX c m
  else if opcode = 0xAD then LDA_absolute c m
  else if opcode = 0xBD then LDA_absoluteX c m
  else if opcode = 0xB9 then LDA_absoluteY c m
  else if opcode = 0xA1 then LDA_indirectX c m
  else if opcode = 0xB1 then LDA_indirectY c m
  else if opcode = 0xA2 then LDX_immediate c m
  else if opcode = 0xA6 then LDX_zeropage c m
  else if opcode = 0xB6 then LDX_zeropageY c m
  else if opcode = 0xAE then LDX_absolute c m
  else if opcode = 0xBE then LDX_absoluteY c m
  else if opcode = 0xA0 then LDY_immediate c m
  else if opcode = 0xA4 then LDY_zeropage c m
  else if opcode = 0xB4 then LDY_zeropageX c m
  else if opcode = 0xAC then LDY_absolute c m
  else if opcode = 0xBC then LDY_absoluteX c m
  else if opcode = 0x85 then STA_zeropage c m
  else if opcode = 0x95 then STA_zeropageX c m
  else if opcode = 0x8D then STA_absolute c m
  else if opcode = 0x9D then STA_absoluteX c m
  else if opcode = 0x99 then STA_absoluteY c m
  else if opcode = 0x81 then STA_indirectX c m
  else if opcode = 0x91 then STA_indirectY c m
  else if opcode = 0x86 then STX_zeropage c m
  else if opcode = 0x96 then STX_zeropageY c m
  else if opcode = 0x8E then STX_absolute c m
  else if opcode = 0x84 then STY_zeropage c m
  else if opcode = 0x94 then STY_zeropageX c m
  else if opcode = 0x8C then STY_absolute c m
  else if opcode = 0xAA then TAX c m
  else if opcode = 0x8A then TXA c m
  else if opcode = 0xA8 then TAY c m
  else if opcode = 0x98 then TYA c m
  else if opcode = 0xBA then TSX c m
  else if opcode = 0x9A then TXS c m
  else if opcode = 0x48 then PHA c m
  else if opcode = 0x68 then PLA c m
  else if opcode = 0x08 then PHP c m
  else if opcode = 0x28 then PLP c m
  else if opcode = 0x29 then AND_immediate c m
  else if opcode = 0x25 then AND_zeropage c m
  else if opcode = 0x35 then AND_zeropageX c m
  else if opcode = 0x2D then AND_absolute c m
  else if opcode = 0x3D then AND_absoluteX c m
  else if opcode = 0x39 then AND_absoluteY c m
  else if opcode = 0x21 then AND_indirectX c m
  else if opcode = 0x31 then AND_indirectY c m
  else if opcode = 0x09 then ORA_immediate c m
  else if opcode = 0x05 then ORA_zeropage c m
  else if opcode = 0x15 then ORA_zeropageX c m
  else if opcode = 0x0D then ORA_absolute c m
  else if opcode = 0x1D then ORA_absoluteX c m
  else if opcode = 0x19 then ORA_absoluteY c m
  else if opcode = 0x01 then ORA_indirectX c m
  else if opcode = 0x11 then ORA_indirectY c m
  else if opcode = 0x49 then EOR_immediate c m
  else if opcode = 0x45 then EOR_zeropage c m
  else if opcode = 0x55 then EOR_zeropageX c m
  else if opcode = 0x4D then EOR_absolute c m
  else if opcode = 0x5D then EOR_absoluteX c m
  else if opcode = 0x59 then EOR_absoluteY c m
  else if opcode = 0x41 then EOR_indirectX c m
  else if opcode = 0x51 then EOR_indirectY c m
  else if opcode = 0x24 then BIT_zeropage c m
  else if opcode = 0x2C then BIT_absolute c m
  else if opcode = 0x69 then ADC_immediate c m
  else if opcode = 0x65 then ADC_zeropage c m
  else if opcode = 0x75 then ADC_zeropageX c m
  else if opcode = 0x6D then ADC_absolute c m
  else if opcode = 0x7D then ADC_absoluteX c m
  else if opcode = 0x79 then ADC_absoluteY c m
  else if opcode = 0x61 then ADC_indirectX c m
  else if opcode = 0x71 then ADC_indirectY c m
  else if opcode = 0xE9 then SBC_immediate c m
  else if opcode = 0xE5 then SBC_zeropage c m
  else if opcode = 0xF5 then SBC_zeropageX c m
  else if opcode = 0xED then SBC_absolute c m
  else if opcode = 0xFD then SBC_absoluteX c m
  else if opcode = 0xF9 then SBC_absoluteY c m
  else if opcode = 0xE1 then SBC_indirectX c m
  else if opcode = 0xF1 then SBC_indirectY c m
  else if opcode = 0xC9 then CMP_immediate c m
  else if opcode = 0xC5 then CMP_zeropage c m
  else if opcode = 0xD5 then CMP_zeropageX c m
  else if opcode = 0xCD then CMP_absolute c m
  else if opcode = 0xDD then CMP_absoluteX c m
  else if opcode = 0xD9 then CMP_absoluteY c m
  else if opcode = 0xC1 then CMP_indirectX c m
  else if opcode = 0xD1 then CMP_indirectY c m
  else if opcode = 0xE0 then CPX_immediate c m
  else if opcode = 0xE4 then CPX_zeropage c m
  else if opcode = 0xEC then CPX_absolute c m
  else if opcode = 0xC0 then CPY_immediate c m
  else if opcode = 0xC4 then CPY_zeropage c m
  else if opcode = 0xCC then CPY_absolute c m
  else if opcode = 0xE6 then INC_zeropage c m
  else if opcode = 0xF6 then INC_zeropageX c m
  else if opcode = 0xEE then INC_absolute c m
  else if opcode = 0xFE then INC_absoluteX c m
  else if opcode = 0xE8 then INX c m
  else if opcode = 0xC8 then INY c m
  else if opcode = 0xC6 then DEC_zeropage c m
  else if opcode = 0xD6 then DEC_zeropageX c m
  else if opcode = 0xCE then DEC_absolute c m
  else if opcode = 0xDE then DEC_absoluteX c m
  else if opcode = 0xCA then DEX c m
  else if opcode = 0x88 then DEY c m
  else if opcode = 0x0A then ASL_accumulator c m
  else if opcode = 0x06 then ASL_zeropage c m
  else if opcode = 0x16 then ASL_zeropageX c m
  else if opcode = 0x0E then ASL_absolute c m
  else if opcode = 0x1E then ASL_absoluteX c m
  else if opcode = 0x4A then LSR_accumulator c m
  else if opcode = 0x46 then LSR_zeropage c m
  else if opcode = 0x56 then LSR_zeropageX c m
  else if opcode = 0x4E then LSR_absolute c m
  else if opcode = 0x5E then LSR_absoluteX c m
  else if opcode = 0x2A then ROL_accumulator c m
  else if opcode = 0x26 then ROL_zeropage c m
  else if opcode = 0x36 then ROL_zeropageX c m
  else if opcode = 0x2E then ROL_absolute c m
  else if opcode = 0x3E then ROL_absoluteX c m
  else if opcode = 0x6A then ROR_accumulator c m
  else if opcode = 0x66 then ROR_zeropage c m
  else if opcode = 0x76 then ROR_zeropageX c m
  else if opcode = 0x6E then ROR_absolute c m
  else if opcode = 0x7E then ROR_absoluteX c m
  else if opcode = 0x4C then JMP_absolute c m
  else if opcode = 0x6C then JMP_indirect c m
  else if opcode = 0x20 then JSR_absolute c m
  else if opcode = 0x60 then RTS c m
  else if opcode = 0x90 then BCC c m
  else if opcode = 0xB0 then BCS c m
  else if opcode = 0xF0 then BEQ c m
  else if opcode = 0x30 then BMI c m
  else if opcode = 0xD0 then BNE c m
  else if opcode = 0x10 then BPL c m
  else if opcode = 0x50 then BVC c m
  else if opcode = 0x70 then BVS c m
  else if opcode = 0x18 then CLC c m
  else if opcode = 0x38 then SEC c m
  else if opcode = 0x58 then CLI c m
  else if opcode = 0x78 then SEI c m
  else if opcode = 0xB8 then CLV c m
  else if opcode = 0xD8 then CLD c m
  else if opcode = 0xF8 then SED c m
  else if opcode = 0x00 then BRK c m
  else if opcode = 0x40 then RTI c m
  else if opcode = 0xEA then NOP c m
  else ({ c with cycles := c.cycles + 2 }, m)

/-- Source `CPU6502._handle_nmi`: push PC (high, low) and status with B clear,
set I, load the vector from `$FFFA/$FFFB`, add 7 to the (not yet reset)
cycle counter, clear the pending flag. -/
def handle_nmi (c : CPU6502) (m : Memory) : CPU6502 × Memory :=
  let m := m.write (0x100 + c.SP) ((c.PC >>> 8) % 256)
  let c := { c with SP := (c.SP + 255) % 256 }
  let m := m.write (0x100 + c.SP) (c.PC % 256)
  let c := { c with SP := (c.SP + 255) % 256 }
  let m := m.write (0x100 + c.SP) (pyAndNot (get_status c) 0x10)
  let c := { c with SP := (c.SP + 255) % 256 }
  let c := { c with I := 1 }
  let c := { c with PC := m.read 0xFFFA ||| (m.read 0xFFFB <<< 8) }
  let c := { c with cycles := c.cycles + 7 }
  ({ c with nmi_pending := false }, m)

/-- Source `CPU6502._handle_irq`: as `handle_nmi` but through `$FFFE/$FFFF`,
clearing `irq_pending`. -/
def handle_irq (c : CPU6502) (m : Memory) : CPU6502 × Memory :=
  let m := m.write (0x100 + c.SP) ((c.PC >>> 8) % 256)
  let c := { c with SP := (c.SP + 255) % 256 }
  let m := m.write (0x100 + c.SP) (c.PC % 256)
  let c := { c with SP := (c.SP + 255) % 256 }
  let m := m.write (0x100 + c.SP) (pyAndNot (get_status c) 0x10)
  let c := { c with SP := (c.SP + 255) % 256 }
  let c := { c with I := 1 }
  let c := { c with PC := m.read 0xFFFE ||| (m.read 0xFFFF <<< 8) }
  let c := { c with cycles := c.cycles + 7 }
  ({ c with irq_pending := false }, m)

/-- Source `CPU6502.step`: service a pending NMI (or IRQ when I=0), fetch,
**then** reset the per-instruction cycle counter, execute, accumulate
into `total_cycles` and return the per-instruction count.  The cycle
reset after the interrupt service is exactly the source's order of
statements. -/
def step (c0 : CPU6502) (m0 : Memory) : CPU6502 × Memory × Nat :=
  let r :=
    if c0.nmi_pending then handle_nmi c0 m0
    else if c0.irq_pending && c0.I == 0 then handle_irq c0 m0
    else (c0, m0)
  let c := r.1
  let m := r.2
  let opcode := m.read c.PC
  let c := { c with PC := c.PC + 1 }
  let c := { c with cycles := 0 }
  let r2 := execute opcode c m
  let c := r2.1
  let c := { c with total_cycles := c.total_cycles + c.cycles }
  (c, r2.2, c.cycles)

end CPU6502

namespace CPU6502

/-- The register/flag bounds from the data-model invariant: 8-bit
registers and 0/1 flags.  (`PC` is treated separately.) -/
def Wf (c : CPU6502) : Prop :=
  c.A < 256 ∧ c.X < 256 ∧ c.Y < 256 ∧ c.SP < 256 ∧
  c.C ≤ 1 ∧ c.Z ≤ 1 ∧ c.I ≤ 1 ∧ c.D ≤ 1 ∧ c.B ≤ 1 ∧ c.V ≤ 1 ∧ c.N ≤ 1

theorem ite_zero_one_le (P : Prop) [Decidable P] : (if P then 0 else 1 : Nat) ≤ 1 := by
  split <;> omega

/-! ### Preservation of the register/flag bounds, instruction by
instruction.  `PostOf c r` says the post-state of an instruction started
from `c` satisfies the bounds and its `PC` either moved past at most the
two operand bytes or was loaded with a value of at most 65536. -/

def PostOf (c : CPU6502) (r : CPU6502 × Memory) : Prop :=
  Wf r.1 ∧ (r.1.PC ≤ c.PC + 2 ∨ r.1.PC ≤ 65536)

theorem awc_wf (c : CPU6502) (v : Nat) (hc : Wf c) : Wf (add_with_carry c v) := by
  obtain ⟨hA, hX, hY, hSP, hC, hZ, hI, hD, hB, hV, hN⟩ := hc
  unfold add_with_carry update_ZN Wf
  split
  · exact ⟨hA, hX, hY, hSP, ite_one_zero_le _, ite_one_zero_le _, hI, hD, hB,
      Nat.zero_le _, ite_one_zero_le _⟩
  · exact ⟨mod256_lt _, hX, hY, hSP, ite_one_zero_le _, ite_one_zero_le _, hI, hD, hB,
      ite_one_zero_le _, ite_one_zero_le _⟩

theorem awc_PC (c : CPU6502) (v : Nat) : (add_with_carry c v).PC = c.PC := by
  unfold add_with_carry update_ZN
  split <;> rfl

theorem swc_wf (c : CPU6502) (v : Nat) (hc : Wf c) : Wf (subtract_with_carry c v) := by
  obtain ⟨hA, hX, hY, hSP, hC, hZ, hI, hD, hB, hV, hN⟩ := hc
  unfold subtract_with_carry
  split
  · exact ⟨hA, hX, hY, hSP, ite_zero_one_le _, ite_one_zero_le _, hI, hD, hB,
      Nat.zero_le _, ite_one_zero_le _⟩
  · exact awc_wf _ _ ⟨hA, hX, hY, hSP, hC, hZ, hI, hD, hB, hV, hN⟩

theorem swc_PC (c : CPU6502) (v : Nat) : (subtract_with_carry c v).PC = c.PC := by
  unfold subtract_with_carry
  split
  · rfl
  · exact awc_PC _ _

theorem branch_post (c : CPU6502) (m : Memory) (cond : Bool) (hc : Wf c) :
    PostOf c (branch c m cond) := by
  obtain ⟨hA, hX, hY, hSP, hC, hZ, hI, hD, hB, hV, hN⟩ := hc
  unfold PostOf branch immediate Wf
  simp only [A_ite, X_ite, Y_ite, PC_ite, SP_ite, C_ite, Z_ite, I_ite, D_ite, B_ite,
    V_ite, N_ite, ite_self]
  refine ⟨⟨hA, hX, hY, hSP, hC, hZ, hI, hD, hB, hV, hN⟩, ?_⟩
  split
  · exact Or.inr (Nat.le_of_lt (emod65536_toNat_lt _))
  · omega

theorem post_LDA_immediate (c : CPU6502) (m : Memory) (hc : Wf c) (hm : m.Wf) :
    PostOf c (LDA_immediate c m) := by
  obtain ⟨hA, hX, hY, hSP, hC, hZ, hI, hD, hB, hV, hN⟩ := hc
  exact ⟨⟨Memory.read_lt hm _, hX, hY, hSP, hC, ite_one_zero_le _, hI, hD, hB, hV, ite_one_zero_le _⟩, Or.inl (Nat.le_succ _)⟩

theorem post_LDA_zeropage (c : CPU6502) (m : Memory) (hc : Wf c) (hm : m.Wf) :
    PostOf c (LDA_zeropage c m) := by
  obtain ⟨hA, hX, hY, hSP, hC, hZ, hI, hD, hB, hV, hN⟩ := hc
  exact ⟨⟨Memory.read_lt hm _, hX, hY, hSP, hC, ite_one_zero_le _, hI, hD, hB, hV, ite_one_zero_le _⟩, Or.inl (Nat.le_succ _)⟩

theorem post_LDA_zeropageX (c : CPU6502) (m : Memory) (hc : Wf c) (hm : m.Wf) :
    PostOf c (LDA_zeropageX c m) := by
  obtain ⟨hA, hX, hY, hSP, hC, hZ, hI, hD, hB, hV, hN⟩ := hc
  exact ⟨⟨Memory.read_lt hm _, hX, hY, hSP, hC, ite_one_zero_le _, hI, hD, hB, hV, ite_one_zero_le _⟩, Or.inl (Nat.le_succ _)⟩

theorem post_LDA_absolute (c : CPU6502) (m : Memory) (hc : Wf c) (hm : m.Wf) :
    PostOf c (LDA_absolute c m) := by
  obtain ⟨hA, hX, hY, hSP, hC, hZ, hI, hD, hB, hV, hN⟩ := hc
  exact ⟨⟨Memory.read_lt hm _, hX, hY, hSP, hC, ite_one_zero_le _, hI, hD, hB, hV, ite_one_zero_le _⟩, Or.inl (Nat.le_refl _)⟩

theorem post_LDA_absoluteX (c : CPU6502) (m : Memory) (hc : Wf c) (hm : m.Wf) :
    PostOf c (LDA_absoluteX c m) := by
  obtain ⟨hA, hX, hY, hSP, hC, hZ, hI, hD, hB, hV, hN⟩ := hc
  exact ⟨⟨Memory.read_lt hm _, hX, hY, hSP, hC, ite_one_zero_le _, hI, hD, hB, hV, ite_one_zero_le _⟩, Or.inl (Nat.le_refl _)⟩

theorem post_LDA_absoluteY (c : CPU6502) (m : Memory) (hc : Wf c) (hm : m.Wf) :
    PostOf c (LDA_absoluteY c m) := by
  obtain ⟨hA, hX, hY, hSP, hC, hZ, hI, hD, hB, hV, hN⟩ := hc
  exact ⟨⟨Memory.read_lt hm _, hX, hY, hSP, hC, ite_one_zero_le _, hI, hD, hB, hV, ite_one_zero_le _⟩, Or.inl (Nat.le_refl _)⟩

theorem post_LDA_indirectX (c : CPU6502) (m : Memory) (hc : Wf c) (hm : m.Wf) :
    PostOf c (LDA_indirectX c m) := by
  obtain ⟨hA, hX, hY, hSP, hC, hZ, hI, hD, hB, hV, hN⟩ := hc
  exact ⟨⟨Memory.read_lt hm _, hX, hY, hSP, hC, ite_one_zero_le _, hI, hD, hB, hV, ite_one_zero_le _⟩, Or.inl (Nat.le_succ _)⟩

theorem post_LDA_indirectY (c : CPU6502) (m : Memory) (hc : Wf c) (hm : m.Wf) :
    PostOf c (LDA_indirectY c m) := by
  obtain ⟨hA, hX, hY, hSP, hC, hZ, hI, hD, hB, hV, hN⟩ := hc
  exact ⟨⟨Memory.read_lt hm _, hX, hY, hSP, hC, ite_one_zero_le _, hI, hD, hB, hV, ite_one_zero_le _⟩, Or.inl (Nat.le_succ _)⟩

theorem post_LDX_immediate (c : CPU6502) (m : Memory) (hc : Wf c) (hm : m.Wf) :
    PostOf c (LDX_immediate c m) := by
  obtain ⟨hA, hX, hY, hSP, hC, hZ, hI, hD, hB, hV, hN⟩ := hc
  exact ⟨⟨hA, Memory.read_lt hm _, hY, hSP, hC, ite_one_zero_le _, hI, hD, hB, hV, ite_one_zero_le _⟩, Or.inl (Nat.le_succ _)⟩

theorem post_LDX_zeropage (c : CPU6502) (m : Memory) (hc : Wf c) (hm : m.Wf) :
    PostOf c (LDX_zeropage c m) := by
  obtain ⟨hA, hX, hY, hSP, hC, hZ, hI, hD, hB, hV, hN⟩ := hc
  exact ⟨⟨hA, Memory.read_lt hm _, hY, hSP, hC, ite_one_zero_le _, hI, hD, hB, hV, ite_one_zero_le _⟩, Or.inl (Nat.le_succ _)⟩

theorem post_LDX_zeropageY (c : CPU6502) (m : Memory) (hc : Wf c) (hm : m.Wf) :
    PostOf c (LDX_zeropageY c m) := by
  obtain ⟨hA, hX, hY, hSP, hC, hZ, hI, hD, hB, hV, hN⟩ := hc
  exact ⟨⟨hA, Memory.read_lt hm _, hY, hSP, hC, ite_one_zero_le _, hI, hD, hB, hV, ite_one_zero_le _⟩, Or.inl (Nat.le_succ _)⟩

theorem post_LDX_absolute (c : CPU6502) (m : Memory) (hc : Wf c) (hm : m.Wf) :
    PostOf c (LDX_absolute c m) := by
  obtain ⟨hA, hX, hY, hSP, hC, hZ, hI, hD, hB, hV, hN⟩ := hc
  exact ⟨⟨hA, Memory.read_lt hm _, hY, hSP, hC, ite_one_zero_le _, hI, hD, hB, hV, ite_one_zero_le _⟩, Or.inl (Nat.le_refl _)⟩

theorem post_LDX_absoluteY (c : CPU6502) (m : Memory) (hc : Wf c) (hm : m.Wf) :
    PostOf c (LDX_absoluteY c m) := by
  obtain ⟨hA, hX, hY, hSP, hC, hZ, hI, hD, hB, hV, hN⟩ := hc
  exact ⟨⟨hA, Memory.read_lt hm _, hY, hSP, hC, ite_one_zero_le _, hI, hD, hB, hV, ite_one_zero_le _⟩, Or.inl (Nat.le_refl _)⟩

theorem post_LDY_immediate (c : CPU6502) (m : Memory) (hc : Wf c) (hm : m.Wf) :
    PostOf c (LDY_immediate c m) := by
  obtain ⟨hA, hX, hY, hSP, hC, hZ, hI, hD, hB, hV, hN⟩ := hc
  exact ⟨⟨hA, hX, Memory.read_lt hm _, hSP, hC, ite_one_zero_le _, hI, hD, hB, hV, ite_one_zero_le _⟩, Or.inl (Nat.le_succ _)⟩

theorem post_LDY_zeropage (c : CPU6502) (m : Memory) (hc : Wf c) (hm : m.Wf) :
    PostOf c (LDY_zeropage c m) := by
  obtain ⟨hA, hX, hY, hSP, hC, hZ, hI, hD, hB, hV, hN⟩ := hc
  exact ⟨⟨hA, hX, Memory.read_lt hm _, hSP, hC, ite_one_zero_le _, hI, hD, hB, hV, ite_one_zero_le _⟩, Or.inl (Nat.le_succ _)⟩

theorem post_LDY_zeropageX (c : CPU6502) (m : Memory) (hc : Wf c) (hm : m.Wf) :
    PostOf c (LDY_zeropageX c m) := by
  obtain ⟨hA, hX, hY, hSP, hC, hZ, hI, hD, hB, hV, hN⟩ := hc
  exact ⟨⟨hA, hX, Memory.read_lt hm _, hSP, hC, ite_one_zero_le _, hI, hD, hB, hV, ite_one_zero_le _⟩, Or.inl (Nat.le_succ _)⟩

theorem post_LDY_absolute (c : CPU6502) (m : Memory) (hc : Wf c) (hm : m.Wf) :
    PostOf c (LDY_absolute c m) := by
  obtain ⟨hA, hX, hY, hSP, hC, hZ, hI, hD, hB, hV, hN⟩ := hc
  exact ⟨⟨hA, hX, Memory.read_lt hm _, hSP, hC, ite_one_zero_le _, hI, hD, hB, hV, ite_one_zero_le _⟩, Or.inl (Nat.le_refl _)⟩

theorem post_LDY_absoluteX (c : CPU6502) (m : Memory) (hc : Wf c) (hm : m.Wf) :
    PostOf c (LDY_absoluteX c m) := by
  obtain ⟨hA, hX, hY, hSP, hC, hZ, hI, hD, hB, hV, hN⟩ := hc
  exact ⟨⟨hA, hX, Memory.read_lt hm _, hSP, hC, ite_one_zero_le _, hI, hD, hB, hV, ite_one_zero_le _⟩, Or.inl (Nat.le_refl _)⟩

theorem post_STA_zeropage (c : CPU6502) (m : Memory) (hc : Wf c) (hm : m.Wf) :
    PostOf c (STA_zeropage c m) := by
  obtain ⟨hA, hX, hY, hSP, hC, hZ, hI, hD, hB, hV, hN⟩ := hc
  exact ⟨⟨hA, hX, hY, hSP, hC, hZ, hI, hD, hB, hV, hN⟩, Or.inl (Nat.le_succ _)⟩

theorem post_STA_zeropageX (c : CPU6502) (m : Memory) (hc : Wf c) (hm : m.Wf) :
    PostOf c (STA_zeropageX c m) := by
  obtain ⟨hA, hX, hY, hSP, hC, hZ, hI, hD, hB, hV, hN⟩ := hc
  exact ⟨⟨hA, hX, hY, hSP, hC, hZ, hI, hD, hB, hV, hN⟩, Or.inl (Nat.le_succ _)⟩

theorem post_STA_absolute (c : CPU6502) (m : Memory) (hc : Wf c) (hm : m.Wf) :
    PostOf c (STA_absolute c m) := by
  obtain ⟨hA, hX, hY, hSP, hC, hZ, hI, hD, hB, hV, hN⟩ := hc
  exact ⟨⟨hA, hX, hY, hSP, hC, hZ, hI, hD, hB, hV, hN⟩, Or.inl (Nat.le_refl _)⟩

theorem post_STA_absoluteX (c : CPU6502) (m : Memory) (hc : Wf c) (hm : m.Wf) :
    PostOf c (STA_absoluteX c m) := by
  obtain ⟨hA, hX, hY, hSP, hC, hZ, hI, hD, hB, hV, hN⟩ := hc
  exact ⟨⟨hA, hX, hY, hSP, hC, hZ, hI, hD, hB, hV, hN⟩, Or.inl (Nat.le_refl _)⟩

theorem post_STA_absoluteY (c : CPU6502) (m : Memory) (hc : Wf c) (hm : m.Wf) :
    PostOf c (STA_absoluteY c m) := by
  obtain ⟨hA, hX, hY, hSP, hC, hZ, hI, hD, hB, hV, hN⟩ := hc
  exact ⟨⟨hA, hX, hY, hSP, hC, hZ, hI, hD, hB, hV, hN⟩, Or.inl (Nat.le_refl _)⟩

theorem post_STA_indirectX (c : CPU6502) (m : Memory) (hc : Wf c) (hm : m.Wf) :
    PostOf c (STA_indirectX c m) := by
  obtain ⟨hA, hX, hY, hSP, hC, hZ, hI, hD, hB, hV, hN⟩ := hc
  exact ⟨⟨hA, hX, hY, hSP, hC, hZ, hI, hD, hB, hV, hN⟩, Or.inl (Nat.le_succ _)⟩

theorem post_STA_indirectY (c : CPU6502) (m : Memory) (hc : Wf c) (hm : m.Wf) :
    PostOf c (STA_indirectY c m) := by
  obtain ⟨hA, hX, hY, hSP, hC, hZ, hI, hD, hB, hV, hN⟩ := hc
  exact ⟨⟨hA, hX, hY, hSP, hC, hZ, hI, hD, hB, hV, hN⟩, Or.inl (Nat.le_succ _)⟩

theorem post_STX_zeropage (c : CPU6502) (m : Memory) (hc : Wf c) (hm : m.Wf) :
    PostOf c (STX_zeropage c m) := by
  obtain ⟨hA, hX, hY, hSP, hC, hZ, hI, hD, hB, hV, hN⟩ := hc
  exact ⟨⟨hA, hX, hY, hSP, hC, hZ, hI, hD, hB, hV, hN⟩, Or.inl (Nat.le_succ _)⟩

theorem post_STX_zeropageY (c : CPU6502) (m : Memory) (hc : Wf c) (hm : m.Wf) :
    PostOf c (STX_zeropageY c m) := by
  obtain ⟨hA, hX, hY, hSP, hC, hZ, hI, hD, hB, hV, hN⟩ := hc
  exact ⟨⟨hA, hX, hY, hSP, hC, hZ, hI, hD, hB, hV, hN⟩, Or.inl (Nat.le_succ _)⟩

theorem post_STX_absolute (c : CPU6502) (m : Memory) (hc : Wf c) (hm : m.Wf) :
    PostOf c (STX_absolute c m) := by
  obtain ⟨hA, hX, hY, hSP, hC, hZ, hI, hD, hB, hV, hN⟩ := hc
  exact ⟨⟨hA, hX, hY, hSP, hC, hZ, hI, hD, hB, hV, hN⟩, Or.inl (Nat.le_refl _)⟩

theorem post_STY_zeropage (c : CPU6502) (m : Memory) (hc : Wf c) (hm : m.Wf) :
    PostOf c (STY_zeropage c m) := by
  obtain ⟨hA, hX, hY, hSP, hC, hZ, hI, hD, hB, hV, hN⟩ := hc
  exact ⟨⟨hA, hX, hY, hSP, hC, hZ, hI, hD, hB, hV, hN⟩, Or.inl (Nat.le_succ _)⟩

theorem post_STY_zeropageX (c : CPU6502) (m : Memory) (hc : Wf c) (hm : m.Wf) :
    PostOf c (STY_zeropageX c m) := by
  obtain ⟨hA, hX, hY, hSP, hC, hZ, hI, hD, hB, hV, hN⟩ := hc
  exact ⟨⟨hA, hX, hY, hSP, hC, hZ, hI, hD, hB, hV, hN⟩, Or.inl (Nat.le_succ _)⟩

theorem post_STY_absolute (c : CPU6502) (m : Memory) (hc : Wf c) (hm : m.Wf) :
    PostOf c (STY_absolute c m) := by
  obtain ⟨hA, hX, hY, hSP, hC, hZ, hI, hD, hB, hV, hN⟩ := hc
  exact ⟨⟨hA, hX, hY, hSP, hC, hZ, hI, hD, hB, hV, hN⟩, Or.inl (Nat.le_refl _)⟩

theorem post_TAX (c : CPU6502) (m : Memory) (hc : Wf c) (hm : m.Wf) :
    PostOf c (TAX c m) := by
  obtain ⟨hA, hX, hY, hSP, hC, hZ, hI, hD, hB, hV, hN⟩ := hc
  exact ⟨⟨hA, hA, hY, hSP, hC, ite_one_zero_le _, hI, hD, hB, hV, ite_one_zero_le _⟩, Or.inl (Nat.le_add_right _ 2)⟩

theorem post_TXA (c : CPU6502) (m : Memory) (hc : Wf c) (hm : m.Wf) :
    PostOf c (TXA c m) := by
  obtain ⟨hA, hX, hY, hSP, hC, hZ, hI, hD, hB, hV, hN⟩ := hc
  exact ⟨⟨hX, hX, hY, hSP, hC, ite_one_zero_le _, hI, hD, hB, hV, ite_one_zero_le _⟩, Or.inl (Nat.le_add_right _ 2)⟩

theorem post_TAY (c : CPU6502) (m : Memory) (hc : Wf c) (hm : m.Wf) :
    PostOf c (TAY c m) := by
  obtain ⟨hA, hX, hY, hSP, hC, hZ, hI, hD, hB, hV, hN⟩ := hc
  exact ⟨⟨hA, hX, hA, hSP, hC, ite_one_zero_le _, hI, hD, hB, hV, ite_one_zero_le _⟩, Or.inl (Nat.le_add_right _ 2)⟩

theorem post_TYA (c : CPU6502) (m : Memory) (hc : Wf c) (hm : m.Wf) :
    PostOf c (TYA c m) := by
  obtain ⟨hA, hX, hY, hSP, hC, hZ, hI, hD, hB, hV, hN⟩ := hc
  exact ⟨⟨hY, hX, hY, hSP, hC, ite_one_zero_le _, hI, hD, hB, hV, ite_one_zero_le _⟩, Or.inl (Nat.le_add_right _ 2)⟩

theorem post_TSX (c : CPU6502) (m : Memory) (hc : Wf c) (hm : m.Wf) :
    PostOf c (TSX c m) := by
  obtain ⟨hA, hX, hY, hSP, hC, hZ, hI, hD, hB, hV, hN⟩ := hc
  exact ⟨⟨hA, hSP, hY, hSP, hC, ite_one_zero_le _, hI, hD, hB, hV, ite_one_zero_le _⟩, Or.inl (Nat.le_add_right _ 2)⟩

theorem post_TXS (c : CPU6502) (m : Memory) (hc : Wf c) (hm : m.Wf) :
    PostOf c (TXS c m) := by
  obtain ⟨hA, hX, hY, hSP, hC, hZ, hI, hD, hB, hV, hN⟩ := hc
  exact ⟨⟨hA, hX, hY, hX, hC, hZ, hI, hD, hB, hV, hN⟩, Or.inl (Nat.le_add_right _ 2)⟩

theorem post_PHA (c : CPU6502) (m : Memory) (hc : Wf c) (hm : m.Wf) :
    PostOf c (PHA c m) := by
  obtain ⟨hA, hX, hY, hSP, hC, hZ, hI, hD, hB, hV, hN⟩ := hc
  exact ⟨⟨hA, hX, hY, mod256_lt _, hC, hZ, hI, hD, hB, hV, hN⟩, Or.inl (Nat.le_add_right _ 2)⟩

theorem post_PLA (c : CPU6502) (m : Memory) (hc : Wf c) (hm : m.Wf) :
    PostOf c (PLA c m) := by
  obtain ⟨hA, hX, hY, hSP, hC, hZ, hI, hD, hB, hV, hN⟩ := hc
  exact ⟨⟨Memory.read_lt hm _, hX, hY, mod256_lt _, hC, ite_one_zero_le _, hI, hD, hB, hV, ite_one_zero_le _⟩, Or.inl (Nat.le_add_right _ 2)⟩

theorem post_PHP (c : CPU6502) (m : Memory) (hc : Wf c) (hm : m.Wf) :
    PostOf c (PHP c m) := by
  obtain ⟨hA, hX, hY, hSP, hC, hZ, hI, hD, hB, hV, hN⟩ := hc
  exact ⟨⟨hA, hX, hY, mod256_lt _, hC, hZ, hI, hD, hB, hV, hN⟩, Or.inl (Nat.le_add_right _ 2)⟩

theorem post_PLP (c : CPU6502) (m : Memory) (hc : Wf c) (hm : m.Wf) :
    PostOf c (PLP c m) := by
  obtain ⟨hA, hX, hY, hSP, hC, hZ, hI, hD, hB, hV, hN⟩ := hc
  exact ⟨⟨hA, hX, hY, mod256_lt _, and_one_le _, and_one_le _, and_one_le _, and_one_le _, and_one_le _, and_one_le _, and_one_le _⟩, Or.inl (Nat.le_add_right _ 2)⟩

theorem post_AND_immediate (c : CPU6502) (m : Memory) (hc : Wf c) (hm : m.Wf) :
    PostOf c (AND_immediate c m) := by
  obtain ⟨hA, hX, hY, hSP, hC, hZ, hI, hD, hB, hV, hN⟩ := hc
  exact ⟨⟨and_lt256 _ (Memory.read_lt hm _), hX, hY, hSP, hC, ite_one_zero_le _, hI, hD, hB, hV, ite_one_zero_le _⟩, Or.inl (Nat.le_succ _)⟩

theorem post_AND_zeropage (c : CPU6502) (m : Memory) (hc : Wf c) (hm : m.Wf) :
    PostOf c (AND_zeropage c m) := by
  obtain ⟨hA, hX, hY, hSP, hC, hZ, hI, hD, hB, hV, hN⟩ := hc
  exact ⟨⟨and_lt256 _ (Memory.read_lt hm _), hX, hY, hSP, hC, ite_one_zero_le _, hI, hD, hB, hV, ite_one_zero_le _⟩, Or.inl (Nat.le_succ _)⟩

theorem post_AND_zeropageX (c : CPU6502) (m : Memory) (hc : Wf c) (hm : m.Wf) :
    PostOf c (AND_zeropageX c m) := by
  obtain ⟨hA, hX, hY, hSP, hC, hZ, hI, hD, hB, hV, hN⟩ := hc
  exact ⟨⟨and_lt256 _ (Memory.read_lt hm _), hX, hY, hSP, hC, ite_one_zero_le _, hI, hD, hB, hV, ite_one_zero_le _⟩, Or.inl (Nat.le_succ _)⟩

theorem post_AND_absolute (c : CPU6502) (m : Memory) (hc : Wf c) (hm : m.Wf) :
    PostOf c (AND_absolute c m) := by
  obtain ⟨hA, hX, hY, hSP, hC, hZ, hI, hD, hB, hV, hN⟩ := hc
  exact ⟨⟨and_lt256 _ (Memory.read_lt hm _), hX, hY, hSP, hC, ite_one_zero_le _, hI, hD, hB, hV, ite_one_zero_le _⟩, Or.inl (Nat.le_refl _)⟩

theorem post_AND_absoluteX (c : CPU6502) (m : Memory) (hc : Wf c) (hm : m.Wf) :
    PostOf c (AND_absoluteX c m) := by
  obtain ⟨hA, hX, hY, hSP, hC, hZ, hI, hD, hB, hV, hN⟩ := hc
  exact ⟨⟨and_lt256 _ (Memory.read_lt hm _), hX, hY, hSP, hC, ite_one_zero_le _, hI, hD, hB, hV, ite_one_zero_le _⟩, Or.inl (Nat.le_refl _)⟩

theorem post_AND_absoluteY (c : CPU6502) (m : Memory) (hc : Wf c) (hm : m.Wf) :
    PostOf c (AND_absoluteY c m) := by
  obtain ⟨hA, hX, hY, hSP, hC, hZ, hI, hD, hB, hV, hN⟩ := hc
  exact ⟨⟨and_lt256 _ (Memory.read_lt hm _), hX, hY, hSP, hC, ite_one_zero_le _, hI, hD, hB, hV, ite_one_zero_le _⟩, Or.inl (Nat.le_refl _)⟩

theorem post_AND_indirectX (c : CPU6502) (m : Memory) (hc : Wf c) (hm : m.Wf) :
    PostOf c (AND_indirectX c m) := by
  obtain ⟨hA, hX, hY, hSP, hC, hZ, hI, hD, hB, hV, hN⟩ := hc
  exact ⟨⟨and_lt256 _ (Memory.read_lt hm _), hX, hY, hSP, hC, ite_one_zero_le _, hI, hD, hB, hV, ite_one_zero_le _⟩, Or.inl (Nat.le_succ _)⟩

theorem post_AND_indirectY (c : CPU6502) (m : Memory) (hc : Wf c) (hm : m.Wf) :
    PostOf c (AND_indirectY c m) := by
  obtain ⟨hA, hX, hY, hSP, hC, hZ, hI, hD, hB, hV, hN⟩ := hc
  exact ⟨⟨and_lt256 _ (Memory.read_lt hm _), hX, hY, hSP, hC, ite_one_zero_le _, hI, hD, hB, hV, ite_one_zero_le _⟩, Or.inl (Nat.le_succ _)⟩

theorem post_ORA_immediate (c : CPU6502) (m : Memory) (hc : Wf c) (hm : m.Wf) :
    PostOf c (ORA_immediate c m) := by
  obtain ⟨hA, hX, hY, hSP, hC, hZ, hI, hD, hB, hV, hN⟩ := hc
  exact ⟨⟨or_lt256 hA (Memory.read_lt hm _), hX, hY, hSP, hC, ite_one_zero_le _, hI, hD, hB, hV, ite_one_zero_le _⟩, Or.inl (Nat.le_succ _)⟩

theorem post_ORA_zeropage (c : CPU6502) (m : Memory) (hc : Wf c) (hm : m.Wf) :
    PostOf c (ORA_zeropage c m) := by
  obtain ⟨hA, hX, hY, hSP, hC, hZ, hI, hD, hB, hV, hN⟩ := hc
  exact ⟨⟨or_lt256 hA (Memory.read_lt hm _), hX, hY, hSP, hC, ite_one_zero_le _, hI, hD, hB, hV, ite_one_zero_le _⟩, Or.inl (Nat.le_succ _)⟩

theorem post_ORA_zeropageX (c : CPU6502) (m : Memory) (hc : Wf c) (hm : m.Wf) :
    PostOf c (ORA_zeropageX c m) := by
  obtain ⟨hA, hX, hY, hSP, hC, hZ, hI, hD, hB, hV, hN⟩ := hc
  exact ⟨⟨or_lt256 hA (Memory.read_lt hm _), hX, hY, hSP, hC, ite_one_zero_le _, hI, hD, hB, hV, ite_one_zero_le _⟩, Or.inl (Nat.le_succ _)⟩

theorem post_ORA_absolute (c : CPU6502) (m : Memory) (hc : Wf c) (hm : m.Wf) :
    PostOf c (ORA_absolute c m) := by
  obtain ⟨hA, hX, hY, hSP, hC, hZ, hI, hD, hB, hV, hN⟩ := hc
  exact ⟨⟨or_lt256 hA (Memory.read_lt hm _), hX, hY, hSP, hC, ite_one_zero_le _, hI, hD, hB, hV, ite_one_zero_le _⟩, Or.inl (Nat.le_refl _)⟩

theorem post_ORA_absoluteX (c : CPU6502) (m : Memory) (hc : Wf c) (hm : m.Wf) :
    PostOf c (ORA_absoluteX c m) := by
  obtain ⟨hA, hX, hY, hSP, hC, hZ, hI, hD, hB, hV, hN⟩ := hc
  exact ⟨⟨or_lt256 hA (Memory.read_lt hm _), hX, hY, hSP, hC, ite_one_zero_le _, hI, hD, hB, hV, ite_one_zero_le _⟩, Or.inl (Nat.le_refl _)⟩

theorem post_ORA_absoluteY (c : CPU6502) (m : Memory) (hc : Wf c) (hm : m.Wf) :
    PostOf c (ORA_absoluteY c m) := by
  obtain ⟨hA, hX, hY, hSP, hC, hZ, hI, hD, hB, hV, hN⟩ := hc
  exact ⟨⟨or_lt256 hA (Memory.read_lt hm _), hX, hY, hSP, hC, ite_one_zero_le _, hI, hD, hB, hV, ite_one_zero_le _⟩, Or.inl (Nat.le_refl _)⟩

theorem post_ORA_indirectX (c : CPU6502) (m : Memory) (hc : Wf c) (hm : m.Wf) :
    PostOf c (ORA_indirectX c m) := by
  obtain ⟨hA, hX, hY, hSP, hC, hZ, hI, hD, hB, hV, hN⟩ := hc
  exact ⟨⟨or_lt256 hA (Memory.read_lt hm _), hX, hY, hSP, hC, ite_one_zero_le _, hI, hD, hB, hV, ite_one_zero_le _⟩, Or.inl (Nat.le_succ _)⟩

theorem post_ORA_indirectY (c : CPU6502) (m : Memory) (hc : Wf c) (hm : m.Wf) :
    PostOf c (ORA_indirectY c m) := by
  obtain ⟨hA, hX, hY, hSP, hC, hZ, hI, hD, hB, hV, hN⟩ := hc
  exact ⟨⟨or_lt256 hA (Memory.read_lt hm _), hX, hY, hSP, hC, ite_one_zero_le _, hI, hD, hB, hV, ite_one_zero_le _⟩, Or.inl (Nat.le_succ _)⟩

theorem post_EOR_immediate (c : CPU6502) (m : Memory) (hc : Wf c) (hm : m.Wf) :
    PostOf c (EOR_immediate c m) := by
  obtain ⟨hA, hX, hY, hSP, hC, hZ, hI, hD, hB, hV, hN⟩ := hc
  exact ⟨⟨xor_lt256 hA (Memory.read_lt hm _), hX, hY, hSP, hC, ite_one_zero_le _, hI, hD, hB, hV, ite_one_zero_le _⟩, Or.inl (Nat.le_succ _)⟩

theorem post_EOR_zeropage (c : CPU6502) (m : Memory) (hc : Wf c) (hm : m.Wf) :
    PostOf c (EOR_zeropage c m) := by
  obtain ⟨hA, hX, hY, hSP, hC, hZ, hI, hD, hB, hV, hN⟩ := hc
  exact ⟨⟨xor_lt256 hA (Memory.read_lt hm _), hX, hY, hSP, hC, ite_one_zero_le _, hI, hD, hB, hV, ite_one_zero_le _⟩, Or.inl (Nat.le_succ _)⟩

theorem post_EOR_zeropageX (c : CPU6502) (m : Memory) (hc : Wf c) (hm : m.Wf) :
    PostOf c (EOR_zeropageX c m) := by
  obtain ⟨hA, hX, hY, hSP, hC, hZ, hI, hD, hB, hV, hN⟩ := hc
  exact ⟨⟨xor_lt256 hA (Memory.read_lt hm _), hX, hY, hSP, hC, ite_one_zero_le _, hI, hD, hB, hV, ite_one_zero_le _⟩, Or.inl (Nat.le_succ _)⟩

theorem post_EOR_absolute (c : CPU6502) (m : Memory) (hc : Wf c) (hm : m.Wf) :
    PostOf c (EOR_absolute c m) := by
  obtain ⟨hA, hX, hY, hSP, hC, hZ, hI, hD, hB, hV, hN⟩ := hc
  exact ⟨⟨xor_lt256 hA (Memory.read_lt hm _), hX, hY, hSP, hC, ite_one_zero_le _, hI, hD, hB, hV, ite_one_zero_le _⟩, Or.inl (Nat.le_refl _)⟩

theorem post_EOR_absoluteX (c : CPU6502) (m : Memory) (hc : Wf c) (hm : m.Wf) :
    PostOf c (EOR_absoluteX c m) := by
  obtain ⟨hA, hX, hY, hSP, hC, hZ, hI, hD, hB, hV, hN⟩ := hc
  exact ⟨⟨xor_lt256 hA (Memory.read_lt hm _), hX, hY, hSP, hC, ite_one_zero_le _, hI, hD, hB, hV, ite_one_zero_le _⟩, Or.inl (Nat.le_refl _)⟩

theorem post_EOR_absoluteY (c : CPU6502) (m : Memory) (hc : Wf c) (hm : m.Wf) :
    PostOf c (EOR_absoluteY c m) := by
  obtain ⟨hA, hX, hY, hSP, hC, hZ, hI, hD, hB, hV, hN⟩ := hc
  exact ⟨⟨xor_lt256 hA (Memory.read_lt hm _), hX, hY, hSP, hC, ite_one_zero_le _, hI, hD, hB, hV, ite_one_zero_le _⟩, Or.inl (Nat.le_refl _)⟩

theorem post_EOR_indirectX (c : CPU6502) (m : Memory) (hc : Wf c) (hm : m.Wf) :
    PostOf c (EOR_indirectX c m) := by
  obtain ⟨hA, hX, hY, hSP, hC, hZ, hI, hD, hB, hV, hN⟩ := hc
  exact ⟨⟨xor_lt256 hA (Memory.read_lt hm _), hX, hY, hSP, hC, ite_one_zero_le _, hI, hD, hB, hV, ite_one_zero_le _⟩, Or.inl (Nat.le_succ _)⟩

theorem post_EOR_indirectY (c : CPU6502) (m : Memory) (hc : Wf c) (hm : m.Wf) :
    PostOf c (EOR_indirectY c m) := by
  obtain ⟨hA, hX, hY, hSP, hC, hZ, hI, hD, hB, hV, hN⟩ := hc
  exact ⟨⟨xor_lt256 hA (Memory.read_lt hm _), hX, hY, hSP, hC, ite_one_zero_le _, hI, hD, hB, hV, ite_one_zero_le _⟩, Or.inl (Nat.le_succ _)⟩

theorem post_BIT_zeropage (c : CPU6502) (m : Memory) (hc : Wf c) (hm : m.Wf) :
    PostOf c (BIT_zeropage c m) := by
  obtain ⟨hA, hX, hY, hSP, hC, hZ, hI, hD, hB, hV, hN⟩ := hc
  exact ⟨⟨hA, hX, hY, hSP, hC, ite_one_zero_le _, hI, hD, hB, and_one_le _, and_one_le _⟩, Or.inl (Nat.le_succ _)⟩

theorem post_BIT_absolute (c : CPU6502) (m : Memory) (hc : Wf c) (hm : m.Wf) :
    PostOf c (BIT_absolute c m) := by
  obtain ⟨hA, hX, hY, hSP, hC, hZ, hI, hD, hB, hV, hN⟩ := hc
  exact ⟨⟨hA, hX, hY, hSP, hC, ite_one_zero_le _, hI, hD, hB, and_one_le _, and_one_le _⟩, Or.inl (Nat.le_refl _)⟩

theorem post_ADC_immediate (c : CPU6502) (m : Memory) (hc : Wf c) (hm : m.Wf) :
    PostOf c (ADC_immediate c m) := by
  refine ⟨awc_wf _ _ hc, ?_⟩
  unfold ADC_immediate immediate
  simp only [awc_PC]
  omega

theorem post_ADC_zeropage (c : CPU6502) (m : Memory) (hc : Wf c) (hm : m.Wf) :
    PostOf c (ADC_zeropage c m) := by
  refine ⟨awc_wf _ _ hc, ?_⟩
  unfold ADC_zeropage zeropage
  simp only [awc_PC]
  omega

theorem post_ADC_zeropageX (c : CPU6502) (m : Memory) (hc : Wf c) (hm : m.Wf) :
    PostOf c (ADC_zeropageX c m) := by
  refine ⟨awc_wf _ _ hc, ?_⟩
  unfold ADC_zeropageX zeropageX
  simp only [awc_PC]
  omega

theorem post_ADC_absolute (c : CPU6502) (m : Memory) (hc : Wf c) (hm : m.Wf) :
    PostOf c (ADC_absolute c m) := by
  refine ⟨awc_wf _ _ hc, ?_⟩
  unfold ADC_absolute absolute
  simp only [awc_PC]
  omega

theorem post_ADC_absoluteX (c : CPU6502) (m : Memory) (hc : Wf c) (hm : m.Wf) :
    PostOf c (ADC_absoluteX c m) := by
  refine ⟨awc_wf _ _ hc, ?_⟩
  unfold ADC_absoluteX absoluteX
  simp only [awc_PC]
  omega

theorem post_ADC_absoluteY (c : CPU6502) (m : Memory) (hc : Wf c) (hm : m.Wf) :
    PostOf c (ADC_absoluteY c m) := by
  refine ⟨awc_wf _ _ hc, ?_⟩
  unfold ADC_absoluteY absoluteY
  simp only [awc_PC]
  omega

theorem post_ADC_indirectX (c : CPU6502) (m : Memory) (hc : Wf c) (hm : m.Wf) :
    PostOf c (ADC_indirectX c m) := by
  refine ⟨awc_wf _ _ hc, ?_⟩
  unfold ADC_indirectX indirectX
  simp only [awc_PC]
  omega

theorem post_ADC_indirectY (c : CPU6502) (m : Memory) (hc : Wf c) (hm : m.Wf) :
    PostOf c (ADC_indirectY c m) := by
  refine ⟨awc_wf _ _ hc, ?_⟩
  unfold ADC_indirectY indirectY
  simp only [awc_PC]
  omega

theorem post_SBC_immediate (c : CPU6502) (m : Memory) (hc : Wf c) (hm : m.Wf) :
    PostOf c (SBC_immediate c m) := by
  refine ⟨swc_wf _ _ hc, ?_⟩
  unfold SBC_immediate immediate
  simp only [swc_PC]
  omega

theorem post_SBC_zeropage (c : CPU6502) (m : Memory) (hc : Wf c) (hm : m.Wf) :
    PostOf c (SBC_zeropage c m) := by
  refine ⟨swc_wf _ _ hc, ?_⟩
  unfold SBC_zeropage zeropage
  simp only [swc_PC]
  omega

theorem post_SBC_zeropageX (c : CPU6502) (m : Memory) (hc : Wf c) (hm : m.Wf) :
    PostOf c (SBC_zeropageX c m) := by
  refine ⟨swc_wf _ _ hc, ?_⟩
  unfold SBC_zeropageX zeropageX
  simp only [swc_PC]
  omega

theorem post_SBC_absolute (c : CPU6502) (m : Memory) (hc : Wf c) (hm : m.Wf) :
    PostOf c (SBC_absolute c m) := by
  refine ⟨swc_wf _ _ hc, ?_⟩
  unfold SBC_absolute absolute
  simp only [swc_PC]
  omega

theorem post_SBC_absoluteX (c : CPU6502) (m : Memory) (hc : Wf c) (hm : m.Wf) :
    PostOf c (SBC_absoluteX c m) := by
  refine ⟨swc_wf _ _ hc, ?_⟩
  unfold SBC_absoluteX absoluteX
  simp only [swc_PC]
  omega

theorem post_SBC_absoluteY (c : CPU6502) (m : Memory) (hc : Wf c) (hm : m.Wf) :
    PostOf c (SBC_absoluteY c m) := by
  refine ⟨swc_wf _ _ hc, ?_⟩
  unfold SBC_absoluteY absoluteY
  simp only [swc_PC]
  omega

theorem post_SBC_indirectX (c : CPU6502) (m : Memory) (hc : Wf c) (hm : m.Wf) :
    PostOf c (SBC_indirectX c m) := by
  refine ⟨swc_wf _ _ hc, ?_⟩
  unfold SBC_indirectX indirectX
  simp only [swc_PC]
  omega

theorem post_SBC_indirectY (c : CPU6502) (m : Memory) (hc : Wf c) (hm : m.Wf) :
    PostOf c (SBC_indirectY c m) := by
  refine ⟨swc_wf _ _ hc, ?_⟩
  unfold SBC_indirectY indirectY
  simp only [swc_PC]
  omega

theorem post_CMP_immediate (c : CPU6502) (m : Memory) (hc : Wf c) (hm : m.Wf) :
    PostOf c (CMP_immediate c m) := by
  obtain ⟨hA, hX, hY, hSP, hC, hZ, hI, hD, hB, hV, hN⟩ := hc
  exact ⟨⟨hA, hX, hY, hSP, ite_one_zero_le _, ite_one_zero_le _, hI, hD, hB, hV, ite_one_zero_le _⟩, Or.inl (Nat.le_succ _)⟩

theorem post_CMP_zeropage (c : CPU6502) (m : Memory) (hc : Wf c) (hm : m.Wf) :
    PostOf c (CMP_zeropage c m) := by
  obtain ⟨hA, hX, hY, hSP, hC, hZ, hI, hD, hB, hV, hN⟩ := hc
  exact ⟨⟨hA, hX, hY, hSP, ite_one_zero_le _, ite_one_zero_le _, hI, hD, hB, hV, ite_one_zero_le _⟩, Or.inl (Nat.le_succ _)⟩

theorem post_CMP_zeropageX (c : CPU6502) (m : Memory) (hc : Wf c) (hm : m.Wf) :
    PostOf c (CMP_zeropageX c m) := by
  obtain ⟨hA, hX, hY, hSP, hC, hZ, hI, hD, hB, hV, hN⟩ := hc
  exact ⟨⟨hA, hX, hY, hSP, ite_one_zero_le _, ite_one_zero_le _, hI, hD, hB, hV, ite_one_zero_le _⟩, Or.inl (Nat.le_succ _)⟩

theorem post_CMP_absolute (c : CPU6502) (m : Memory) (hc : Wf c) (hm : m.Wf) :
    PostOf c (CMP_absolute c m) := by
  obtain ⟨hA, hX, hY, hSP, hC, hZ, hI, hD, hB, hV, hN⟩ := hc
  exact ⟨⟨hA, hX, hY, hSP, ite_one_zero_le _, ite_one_zero_le _, hI, hD, hB, hV, ite_one_zero_le _⟩, Or.inl (Nat.le_refl _)⟩

theorem post_CMP_absoluteX (c : CPU6502) (m : Memory) (hc : Wf c) (hm : m.Wf) :
    PostOf c (CMP_absoluteX c m) := by
  obtain ⟨hA, hX, hY, hSP, hC, hZ, hI, hD, hB, hV, hN⟩ := hc
  exact ⟨⟨hA, hX, hY, hSP, ite_one_zero_le _, ite_one_zero_le _, hI, hD, hB, hV, ite_one_zero_le _⟩, Or.inl (Nat.le_refl _)⟩

theorem post_CMP_absoluteY (c : CPU6502) (m : Memory) (hc : Wf c) (hm : m.Wf) :
    PostOf c (CMP_absoluteY c m) := by
  obtain ⟨hA, hX, hY, hSP, hC, hZ, hI, hD, hB, hV, hN⟩ := hc
  exact ⟨⟨hA, hX, hY, hSP, ite_one_zero_le _, ite_one_zero_le _, hI, hD, hB, hV, ite_one_zero_le _⟩, Or.inl (Nat.le_refl _)⟩

theorem post_CMP_indirectX (c : CPU6502) (m : Memory) (hc : Wf c) (hm : m.Wf) :
    PostOf c (CMP_indirectX c m) := by
  obtain ⟨hA, hX, hY, hSP, hC, hZ, hI, hD, hB, hV, hN⟩ := hc
  exact ⟨⟨hA, hX, hY, hSP, ite_one_zero_le _, ite_one_zero_le _, hI, hD, hB, hV, ite_one_zero_le _⟩, Or.inl (Nat.le_succ _)⟩

theorem post_CMP_indirectY (c : CPU6502) (m : Memory) (hc : Wf c) (hm : m.Wf) :
    PostOf c (CMP_indirectY c m) := by
  obtain ⟨hA, hX, hY, hSP, hC, hZ, hI, hD, hB, hV, hN⟩ := hc
  exact ⟨⟨hA, hX, hY, hSP, ite_one_zero_le _, ite_one_zero_le _, hI, hD, hB, hV, ite_one_zero_le _⟩, Or.inl (Nat.le_succ _)⟩

theorem post_CPX_immediate (c : CPU6502) (m : Memory) (hc : Wf c) (hm : m.Wf) :
    PostOf c (CPX_immediate c m) := by
  obtain ⟨hA, hX, hY, hSP, hC, hZ, hI, hD, hB, hV, hN⟩ := hc
  exact ⟨⟨hA, hX, hY, hSP, ite_one_zero_le _, ite_one_zero_le _, hI, hD, hB, hV, ite_one_zero_le _⟩, Or.inl (Nat.le_succ _)⟩

theorem post_CPX_zeropage (c : CPU6502) (m : Memory) (hc : Wf c) (hm : m.Wf) :
    PostOf c (CPX_zeropage c m) := by
  obtain ⟨hA, hX, hY, hSP, hC, hZ, hI, hD, hB, hV, hN⟩ := hc
  exact ⟨⟨hA, hX, hY, hSP, ite_one_zero_le _, ite_one_zero_le _, hI, hD, hB, hV, ite_one_zero_le _⟩, Or.inl (Nat.le_succ _)⟩

theorem post_CPX_absolute (c : CPU6502) (m : Memory) (hc : Wf c) (hm : m.Wf) :
    PostOf c (CPX_absolute c m) := by
  obtain ⟨hA, hX, hY, hSP, hC, hZ, hI, hD, hB, hV, hN⟩ := hc
  exact ⟨⟨hA, hX, hY, hSP, ite_one_zero_le _, ite_one_zero_le _, hI, hD, hB, hV, ite_one_zero_le _⟩, Or.inl (Nat.le_refl _)⟩

theorem post_CPY_immediate (c : CPU6502) (m : Memory) (hc : Wf c) (hm : m.Wf) :
    PostOf c (CPY_immediate c m) := by
  obtain ⟨hA, hX, hY, hSP, hC, hZ, hI, hD, hB, hV, hN⟩ := hc
  exact ⟨⟨hA, hX, hY, hSP, ite_one_zero_le _, ite_one_zero_le _, hI, hD, hB, hV, ite_one_zero_le _⟩, Or.inl (Nat.le_succ _)⟩

theorem post_CPY_zeropage (c : CPU6502) (m : Memory) (hc : Wf c) (hm : m.Wf) :
    PostOf c (CPY_zeropage c m) := by
  obtain ⟨hA, hX, hY, hSP, hC, hZ, hI, hD, hB, hV, hN⟩ := hc
  exact ⟨⟨hA, hX, hY, hSP, ite_one_zero_le _, ite_one_zero_le _, hI, hD, hB, hV, ite_one_zero_le _⟩, Or.inl (Nat.le_succ _)⟩

theorem post_CPY_absolute (c : CPU6502) (m : Memory) (hc : Wf c) (hm : m.Wf) :
    PostOf c (CPY_absolute c m) := by
  obtain ⟨hA, hX, hY, hSP, hC, hZ, hI, hD, hB, hV, hN⟩ := hc
  exact ⟨⟨hA, hX, hY, hSP, ite_one_zero_le _, ite_one_zero_le _, hI, hD, hB, hV, ite_one_zero_le _⟩, Or.inl (Nat.le_refl _)⟩

theorem post_INC_zeropage (c : CPU6502) (m : Memory) (hc : Wf c) (hm : m.Wf) :
    PostOf c (INC_zeropage c m) := by
  obtain ⟨hA, hX, hY, hSP, hC, hZ, hI, hD, hB, hV, hN⟩ := hc
  exact ⟨⟨hA, hX, hY, hSP, hC, ite_one_zero_le _, hI, hD, hB, hV, ite_one_zero_le _⟩, Or.inl (Nat.le_succ _)⟩

theorem post_INC_zeropageX (c : CPU6502) (m : Memory) (hc : Wf c) (hm : m.Wf) :
    PostOf c (INC_zeropageX c m) := by
  obtain ⟨hA, hX, hY, hSP, hC, hZ, hI, hD, hB, hV, hN⟩ := hc
  exact ⟨⟨hA, hX, hY, hSP, hC, ite_one_zero_le _, hI, hD, hB, hV, ite_one_zero_le _⟩, Or.inl (Nat.le_succ _)⟩

theorem post_INC_absolute (c : CPU6502) (m : Memory) (hc : Wf c) (hm : m.Wf) :
    PostOf c (INC_absolute c m) := by
  obtain ⟨hA, hX, hY, hSP, hC, hZ, hI, hD, hB, hV, hN⟩ := hc
  exact ⟨⟨hA, hX, hY, hSP, hC, ite_one_zero_le _, hI, hD, hB, hV, ite_one_zero_le _⟩, Or.inl (Nat.le_refl _)⟩

theorem post_INC_absoluteX (c : CPU6502) (m : Memory) (hc : Wf c) (hm : m.Wf) :
    PostOf c (INC_absoluteX c m) := by
  obtain ⟨hA, hX, hY, hSP, hC, hZ, hI, hD, hB, hV, hN⟩ := hc
  exact ⟨⟨hA, hX, hY, hSP, hC, ite_one_zero_le _, hI, hD, hB, hV, ite_one_zero_le _⟩, Or.inl (Nat.le_refl _)⟩

theorem post_INX (c : CPU6502) (m : Memory) (hc : Wf c) (hm : m.Wf) :
    PostOf c (INX c m) := by
  obtain ⟨hA, hX, hY, hSP, hC, hZ, hI, hD, hB, hV, hN⟩ := hc
  exact ⟨⟨hA, mod256_lt _, hY, hSP, hC, ite_one_zero_le _, hI, hD, hB, hV, ite_one_zero_le _⟩, Or.inl (Nat.le_add_right _ 2)⟩

theorem post_INY (c : CPU6502) (m : Memory) (hc : Wf c) (hm : m.Wf) :
    PostOf c (INY c m) := by
  obtain ⟨hA, hX, hY, hSP, hC, hZ, hI, hD, hB, hV, hN⟩ := hc
  exact ⟨⟨hA, hX, mod256_lt _, hSP, hC, ite_one_zero_le _, hI, hD, hB, hV, ite_one_zero_le _⟩, Or.inl (Nat.le_add_right _ 2)⟩

theorem post_DEC_zeropage (c : CPU6502) (m : Memory) (hc : Wf c) (hm : m.Wf) :
    PostOf c (DEC_zeropage c m) := by
  obtain ⟨hA, hX, hY, hSP, hC, hZ, hI, hD, hB, hV, hN⟩ := hc
  exact ⟨⟨hA, hX, hY, hSP, hC, ite_one_zero_le _, hI, hD, hB, hV, ite_one_zero_le _⟩, Or.inl (Nat.le_succ _)⟩

theorem post_DEC_zeropageX (c : CPU6502) (m : Memory) (hc : Wf c) (hm : m.Wf) :
    PostOf c (DEC_zeropageX c m) := by
  obtain ⟨hA, hX, hY, hSP, hC, hZ, hI, hD, hB, hV, hN⟩ := hc
  exact ⟨⟨hA, hX, hY, hSP, hC, ite_one_zero_le _, hI, hD, hB, hV, ite_one_zero_le _⟩, Or.inl (Nat.le_succ _)⟩

theorem post_DEC_absolute (c : CPU6502) (m : Memory) (hc : Wf c) (hm : m.Wf) :
    PostOf c (DEC_absolute c m) := by
  obtain ⟨hA, hX, hY, hSP, hC, hZ, hI, hD, hB, hV, hN⟩ := hc
  exact ⟨⟨hA, hX, hY, hSP, hC, ite_one_zero_le _, hI, hD, hB, hV, ite_one_zero_le _⟩, Or.inl (Nat.le_refl _)⟩

theorem post_DEC_absoluteX (c : CPU6502) (m : Memory) (hc : Wf c) (hm : m.Wf) :
    PostOf c (DEC_absoluteX c m) := by
  obtain ⟨hA, hX, hY, hSP, hC, hZ, hI, hD, hB, hV, hN⟩ := hc
  exact ⟨⟨hA, hX, hY, hSP, hC, ite_one_zero_le _, hI, hD, hB, hV, ite_one_zero_le _⟩, Or.inl (Nat.le_refl _)⟩

theorem post_DEX (c : CPU6502) (m : Memory) (hc : Wf c) (hm : m.Wf) :
    PostOf c (DEX c m) := by
  obtain ⟨hA, hX, hY, hSP, hC, hZ, hI, hD, hB, hV, hN⟩ := hc
  exact ⟨⟨hA, mod256_lt _, hY, hSP, hC, ite_one_zero_le _, hI, hD, hB, hV, ite_one_zero_le _⟩, Or.inl (Nat.le_add_right _ 2)⟩

theorem post_DEY (c : CPU6502) (m : Memory) (hc : Wf c) (hm : m.Wf) :
    PostOf c (DEY c m) := by
  obtain ⟨hA, hX, hY, hSP, hC, hZ, hI, hD, hB, hV, hN⟩ := hc
  exact ⟨⟨hA, hX, mod256_lt _, hSP, hC, ite_one_zero_le _, hI, hD, hB, hV, ite_one_zero_le _⟩, Or.inl (Nat.le_add_right _ 2)⟩

theorem post_ASL_accumulator (c : CPU6502) (m : Memory) (hc : Wf c) (hm : m.Wf) :
    PostOf c (ASL_accumulator c m) := by
  obtain ⟨hA, hX, hY, hSP, hC, hZ, hI, hD, hB, hV, hN⟩ := hc
  exact ⟨⟨mod256_lt _, hX, hY, hSP, and_one_le _, ite_one_zero_le _, hI, hD, hB, hV, ite_one_zero_le _⟩, Or.inl (Nat.le_add_right _ 2)⟩

theorem post_ASL_zeropage (c : CPU6502) (m : Memory) (hc : Wf c) (hm : m.Wf) :
    PostOf c (ASL_zeropage c m) := by
  obtain ⟨hA, hX, hY, hSP, hC, hZ, hI, hD, hB, hV, hN⟩ := hc
  exact ⟨⟨hA, hX, hY, hSP, and_one_le _, ite_one_zero_le _, hI, hD, hB, hV, ite_one_zero_le _⟩, Or.inl (Nat.le_succ _)⟩

theorem post_ASL_zeropageX (c : CPU6502) (m : Memory) (hc : Wf c) (hm : m.Wf) :
    PostOf c (ASL_zeropageX c m) := by
  obtain ⟨hA, hX, hY, hSP, hC, hZ, hI, hD, hB, hV, hN⟩ := hc
  exact ⟨⟨hA, hX, hY, hSP, and_one_le _, ite_one_zero_le _, hI, hD, hB, hV, ite_one_zero_le _⟩, Or.inl (Nat.le_succ _)⟩

theorem post_ASL_absolute (c : CPU6502) (m : Memory) (hc : Wf c) (hm : m.Wf) :
    PostOf c (ASL_absolute c m) := by
  obtain ⟨hA, hX, hY, hSP, hC, hZ, hI, hD, hB, hV, hN⟩ := hc
  exact ⟨⟨hA, hX, hY, hSP, and_one_le _, ite_one_zero_le _, hI, hD, hB, hV, ite_one_zero_le _⟩, Or.inl (Nat.le_refl _)⟩

theorem post_ASL_absoluteX (c : CPU6502) (m : Memory) (hc : Wf c) (hm : m.Wf) :
    PostOf c (ASL_absoluteX c m) := by
  obtain ⟨hA, hX, hY, hSP, hC, hZ, hI, hD, hB, hV, hN⟩ := hc
  exact ⟨⟨hA, hX, hY, hSP, and_one_le _, ite_one_zero_le _, hI, hD, hB, hV, ite_one_zero_le _⟩, Or.inl (Nat.le_refl _)⟩

theorem post_LSR_accumulator (c : CPU6502) (m : Memory) (hc : Wf c) (hm : m.Wf) :
    PostOf c (LSR_accumulator c m) := by
  obtain ⟨hA, hX, hY, hSP, hC, hZ, hI, hD, hB, hV, hN⟩ := hc
  exact ⟨⟨shiftr1_lt hA, hX, hY, hSP, and_one_le _, ite_one_zero_le _, hI, hD, hB, hV, ite_one_zero_le _⟩, Or.inl (Nat.le_add_right _ 2)⟩

theorem post_LSR_zeropage (c : CPU6502) (m : Memory) (hc : Wf c) (hm : m.Wf) :
    PostOf c (LSR_zeropage c m) := by
  obtain ⟨hA, hX, hY, hSP, hC, hZ, hI, hD, hB, hV, hN⟩ := hc
  exact ⟨⟨hA, hX, hY, hSP, and_one_le _, ite_one_zero_le _, hI, hD, hB, hV, ite_one_zero_le _⟩, Or.inl (Nat.le_succ _)⟩

theorem post_LSR_zeropageX (c : CPU6502) (m : Memory) (hc : Wf c) (hm : m.Wf) :
    PostOf c (LSR_zeropageX c m) := by
  obtain ⟨hA, hX, hY, hSP, hC, hZ, hI, hD, hB, hV, hN⟩ := hc
  exact ⟨⟨hA, hX, hY, hSP, and_one_le _, ite_one_zero_le _, hI, hD, hB, hV, ite_one_zero_le _⟩, Or.inl (Nat.le_succ _)⟩

theorem post_LSR_absolute (c : CPU6502) (m : Memory) (hc : Wf c) (hm : m.Wf) :
    PostOf c (LSR_absolute c m) := by
  obtain ⟨hA, hX, hY, hSP, hC, hZ, hI, hD, hB, hV, hN⟩ := hc
  exact ⟨⟨hA, hX, hY, hSP, and_one_le _, ite_one_zero_le _, hI, hD, hB, hV, ite_one_zero_le _⟩, Or.inl (Nat.le_refl _)⟩

theorem post_LSR_absoluteX (c : CPU6502) (m : Memory) (hc : Wf c) (hm : m.Wf) :
    PostOf c (LSR_absoluteX c m) := by
  obtain ⟨hA, hX, hY, hSP, hC, hZ, hI, hD, hB, hV, hN⟩ := hc
  exact ⟨⟨hA, hX, hY, hSP, and_one_le _, ite_one_zero_le _, hI, hD, hB, hV, ite_one_zero_le _⟩, Or.inl (Nat.le_refl _)⟩

theorem post_ROL_accumulator (c : CPU6502) (m : Memory) (hc : Wf c) (hm : m.Wf) :
    PostOf c (ROL_accumulator c m) := by
  obtain ⟨hA, hX, hY, hSP, hC, hZ, hI, hD, hB, hV, hN⟩ := hc
  exact ⟨⟨mod256_lt _, hX, hY, hSP, and_one_le _, ite_one_zero_le _, hI, hD, hB, hV, ite_one_zero_le _⟩, Or.inl (Nat.le_add_right _ 2)⟩

theorem post_ROL_zeropage (c : CPU6502) (m : Memory) (hc : Wf c) (hm : m.Wf) :
    PostOf c (ROL_zeropage c m) := by
  obtain ⟨hA, hX, hY, hSP, hC, hZ, hI, hD, hB, hV, hN⟩ := hc
  exact ⟨⟨hA, hX, hY, hSP, and_one_le _, ite_one_zero_le _, hI, hD, hB, hV, ite_one_zero_le _⟩, Or.inl (Nat.le_succ _)⟩

theorem post_ROL_zeropageX (c : CPU6502) (m : Memory) (hc : Wf c) (hm : m.Wf) :
    PostOf c (ROL_zeropageX c m) := by
  obtain ⟨hA, hX, hY, hSP, hC, hZ, hI, hD, hB, hV, hN⟩ := hc
  exact ⟨⟨hA, hX, hY, hSP, and_one_le _, ite_one_zero_le _, hI, hD, hB, hV, ite_one_zero_le _⟩, Or.inl (Nat.le_succ _)⟩

theorem post_ROL_absolute (c : CPU6502) (m : Memory) (hc : Wf c) (hm : m.Wf) :
    PostOf c (ROL_absolute c m) := by
  obtain ⟨hA, hX, hY, hSP, hC, hZ, hI, hD, hB, hV, hN⟩ := hc
  exact ⟨⟨hA, hX, hY, hSP, and_one_le _, ite_one_zero_le _, hI, hD, hB, hV, ite_one_zero_le _⟩, Or.inl (Nat.le_refl _)⟩

theorem post_ROL_absoluteX (c : CPU6502) (m : Memory) (hc : Wf c) (hm : m.Wf) :
    PostOf c (ROL_absoluteX c m) := by
  obtain ⟨hA, hX, hY, hSP, hC, hZ, hI, hD, hB, hV, hN⟩ := hc
  exact ⟨⟨hA, hX, hY, hSP, and_one_le _, ite_one_zero_le _, hI, hD, hB, hV, ite_one_zero_le _⟩, Or.inl (Nat.le_refl _)⟩

theorem post_ROR_accumulator (c : CPU6502) (m : Memory) (hc : Wf c) (hm : m.Wf) :
    PostOf c (ROR_accumulator c m) := by
  obtain ⟨hA, hX, hY, hSP, hC, hZ, hI, hD, hB, hV, hN⟩ := hc
  exact ⟨⟨or_lt256 (shiftr1_lt hA) (shl7_lt hC), hX, hY, hSP, and_one_le _, ite_one_zero_le _, hI, hD, hB, hV, ite_one_zero_le _⟩, Or.inl (Nat.le_add_right _ 2)⟩

theorem post_ROR_zeropage (c : CPU6502) (m : Memory) (hc : Wf c) (hm : m.Wf) :
    PostOf c (ROR_zeropage c m) := by
  obtain ⟨hA, hX, hY, hSP, hC, hZ, hI, hD, hB, hV, hN⟩ := hc
  exact ⟨⟨hA, hX, hY, hSP, and_one_le _, ite_one_zero_le _, hI, hD, hB, hV, ite_one_zero_le _⟩, Or.inl (Nat.le_succ _)⟩

theorem post_ROR_zeropageX (c : CPU6502) (m : Memory) (hc : Wf c) (hm : m.Wf) :
    PostOf c (ROR_zeropageX c m) := by
  obtain ⟨hA, hX, hY, hSP, hC, hZ, hI, hD, hB, hV, hN⟩ := hc
  exact ⟨⟨hA, hX, hY, hSP, and_one_le _, ite_one_zero_le _, hI, hD, hB, hV, ite_one_zero_le _⟩, Or.inl (Nat.le_succ _)⟩

theorem post_ROR_absolute (c : CPU6502) (m : Memory) (hc : Wf c) (hm : m.Wf) :
    PostOf c (ROR_absolute c m) := by
  obtain ⟨hA, hX, hY, hSP, hC, hZ, hI, hD, hB, hV, hN⟩ := hc
  exact ⟨⟨hA, hX, hY, hSP, and_one_le _, ite_one_zero_le _, hI, hD, hB, hV, ite_one_zero_le _⟩, Or.inl (Nat.le_refl _)⟩

theorem post_ROR_absoluteX (c : CPU6502) (m : Memory) (hc : Wf c) (hm : m.Wf) :
    PostOf c (ROR_absoluteX c m) := by
  obtain ⟨hA, hX, hY, hSP, hC, hZ, hI, hD, hB, hV, hN⟩ := hc
  exact ⟨⟨hA, hX, hY, hSP, and_one_le _, ite_one_zero_le _, hI, hD, hB, hV, ite_one_zero_le _⟩, Or.inl (Nat.le_refl _)⟩

theorem post_JMP_absolute (c : CPU6502) (m : Memory) (hc : Wf c) (hm : m.Wf) :
    PostOf c (JMP_absolute c m) := by
  obtain ⟨hA, hX, hY, hSP, hC, hZ, hI, hD, hB, hV, hN⟩ := hc
  exact ⟨⟨hA, hX, hY, hSP, hC, hZ, hI, hD, hB, hV, hN⟩, Or.inr (Nat.le_of_lt (or_hi_lo (Memory.read_lt hm _) (Memory.read_lt hm _)))⟩

theorem post_JMP_indirect (c : CPU6502) (m : Memory) (hc : Wf c) (hm : m.Wf) :
    PostOf c (JMP_indirect c m) := by
  obtain ⟨hA, hX, hY, hSP, hC, hZ, hI, hD, hB, hV, hN⟩ := hc
  refine ⟨⟨hA, hX, hY, hSP, hC, hZ, hI, hD, hB, hV, hN⟩,
    Or.inr (Nat.le_of_lt (or_hi_lo ?_ (Memory.read_lt hm _)))⟩
  split <;> exact Memory.read_lt hm _

theorem post_JSR_absolute (c : CPU6502) (m : Memory) (hc : Wf c) (hm : m.Wf) :
    PostOf c (JSR_absolute c m) := by
  obtain ⟨hA, hX, hY, hSP, hC, hZ, hI, hD, hB, hV, hN⟩ := hc
  exact ⟨⟨hA, hX, hY, mod256_lt _, hC, hZ, hI, hD, hB, hV, hN⟩, Or.inr (Nat.le_of_lt (or_hi_lo (Memory.read_lt hm _) (Memory.read_lt hm _)))⟩

theorem post_RTS (c : CPU6502) (m : Memory) (hc : Wf c) (hm : m.Wf) :
    PostOf c (RTS c m) := by
  obtain ⟨hA, hX, hY, hSP, hC, hZ, hI, hD, hB, hV, hN⟩ := hc
  exact ⟨⟨hA, hX, hY, mod256_lt _, hC, hZ, hI, hD, hB, hV, hN⟩, Or.inr (Nat.succ_le_of_lt (or_hi_lo (Memory.read_lt hm _) (Memory.read_lt hm _)))⟩

theorem post_BCC (c : CPU6502) (m : Memory) (hc : Wf c) (hm : m.Wf) :
    PostOf c (BCC c m) := branch_post c m _ hc

theorem post_BCS (c : CPU6502) (m : Memory) (hc : Wf c) (hm : m.Wf) :
    PostOf c (BCS c m) := branch_post c m _ hc

theorem post_BEQ (c : CPU6502) (m : Memory) (hc : Wf c) (hm : m.Wf) :
    PostOf c (BEQ c m) := branch_post c m _ hc

theorem post_BMI (c : CPU6502) (m : Memory) (hc : Wf c) (hm : m.Wf) :
    PostOf c (BMI c m) := branch_post c m _ hc

theorem post_BNE (c : CPU6502) (m : Memory) (hc : Wf c) (hm : m.Wf) :
    PostOf c (BNE c m) := branch_post c m _ hc

theorem post_BPL (c : CPU6502) (m : Memory) (hc : Wf c) (hm : m.Wf) :
    PostOf c (BPL c m) := branch_post c m _ hc

theorem post_BVC (c : CPU6502) (m : Memory) (hc : Wf c) (hm : m.Wf) :
    PostOf c (BVC c m) := branch_post c m _ hc

theorem post_BVS (c : CPU6502) (m : Memory) (hc : Wf c) (hm : m.Wf) :
    PostOf c (BVS c m) := branch_post c m _ hc

theorem post_CLC (c : CPU6502) (m : Memory) (hc : Wf c) (hm : m.Wf) :
    PostOf c (CLC c m) := by
  obtain ⟨hA, hX, hY, hSP, hC, hZ, hI, hD, hB, hV, hN⟩ := hc
  exact ⟨⟨hA, hX, hY, hSP, Nat.zero_le _, hZ, hI, hD, hB, hV, hN⟩, Or.inl (Nat.le_add_right _ 2)⟩

theorem post_SEC (c : CPU6502) (m : Memory) (hc : Wf c) (hm : m.Wf) :
    PostOf c (SEC c m) := by
  obtain ⟨hA, hX, hY, hSP, hC, hZ, hI, hD, hB, hV, hN⟩ := hc
  exact ⟨⟨hA, hX, hY, hSP, Nat.le_refl _, hZ, hI, hD, hB, hV, hN⟩, Or.inl (Nat.le_add_right _ 2)⟩

theorem post_CLI (c : CPU6502) (m : Memory) (hc : Wf c) (hm : m.Wf) :
    PostOf c (CLI c m) := by
  obtain ⟨hA, hX, hY, hSP, hC, hZ, hI, hD, hB, hV, hN⟩ := hc
  exact ⟨⟨hA, hX, hY, hSP, hC, hZ, Nat.zero_le _, hD, hB, hV, hN⟩, Or.inl (Nat.le_add_right _ 2)⟩

theorem post_SEI (c : CPU6502) (m : Memory) (hc : Wf c) (hm : m.Wf) :
    PostOf c (SEI c m) := by
  obtain ⟨hA, hX, hY, hSP, hC, hZ, hI, hD, hB, hV, hN⟩ := hc
  exact ⟨⟨hA, hX, hY, hSP, hC, hZ, Nat.le_refl _, hD, hB, hV, hN⟩, Or.inl (Nat.le_add_right _ 2)⟩

theorem post_CLV (c : CPU6502) (m : Memory) (hc : Wf c) (hm : m.Wf) :
    PostOf c (CLV c m) := by
  obtain ⟨hA, hX, hY, hSP, hC, hZ, hI, hD, hB, hV, hN⟩ := hc
  exact ⟨⟨hA, hX, hY, hSP, hC, hZ, hI, hD, hB, Nat.zero_le _, hN⟩, Or.inl (Nat.le_add_right _ 2)⟩

theorem post_CLD (c : CPU6502) (m : Memory) (hc : Wf c) (hm : m.Wf) :
    PostOf c (CLD c m) := by
  obtain ⟨hA, hX, hY, hSP, hC, hZ, hI, hD, hB, hV, hN⟩ := hc
  exact ⟨⟨hA, hX, hY, hSP, hC, hZ, hI, Nat.zero_le _, hB, hV, hN⟩, Or.inl (Nat.le_add_right _ 2)⟩

theorem post_SED (c : CPU6502) (m : Memory) (hc : Wf c) (hm : m.Wf) :
    PostOf c (SED c m) := by
  obtain ⟨hA, hX, hY, hSP, hC, hZ, hI, hD, hB, hV, hN⟩ := hc
  exact ⟨⟨hA, hX, hY, hSP, hC, hZ, hI, Nat.le_refl _, hB, hV, hN⟩, Or.inl (Nat.le_add_right _ 2)⟩

theorem post_BRK (c : CPU6502) (m : Memory) (hc : Wf c) (hm : m.Wf) :
    PostOf c (BRK c m) := by
  obtain ⟨hA, hX, hY, hSP, hC, hZ, hI, hD, hB, hV, hN⟩ := hc
  exact ⟨⟨hA, hX, hY, mod256_lt _, hC, hZ, Nat.le_refl 1, hD, hB, hV, hN⟩,
    Or.inr (Nat.le_of_lt (or_lo_hi
      (Memory.read_lt
        (Memory.write_wf (Memory.write_wf (Memory.write_wf hm _ _) _ _) _ _) _)
      (Memory.read_lt
        (Memory.write_wf (Memory.write_wf (Memory.write_wf hm _ _) _ _) _ _) _)))⟩

theorem post_RTI (c : CPU6502) (m : Memory) (hc : Wf c) (hm : m.Wf) :
    PostOf c (RTI c m) := by
  obtain ⟨hA, hX, hY, hSP, hC, hZ, hI, hD, hB, hV, hN⟩ := hc
  exact ⟨⟨hA, hX, hY, mod256_lt _, and_one_le _, and_one_le _, and_one_le _, and_one_le _, and_one_le _, and_one_le _, and_one_le _⟩, Or.inr (Nat.le_of_lt (or_hi_lo (Memory.read_lt hm _) (Memory.read_lt hm _)))⟩

theorem post_NOP (c : CPU6502) (m : Memory) (hc : Wf c) (hm : m.Wf) :
    PostOf c (NOP c m) := by
  obtain ⟨hA, hX, hY, hSP, hC, hZ, hI, hD, hB, hV, hN⟩ := hc
  exact ⟨⟨hA, hX, hY, hSP, hC, hZ, hI, hD, hB, hV, hN⟩, Or.inl (Nat.le_add_right _ 2)⟩

set_option maxRecDepth 8192 in
set_option maxHeartbeats 4000000 in
/-- Any single dispatched instruction (or the unknown-opcode fallback)
keeps the registers and flags in range, and either advances `PC` by at
most the two operand bytes or loads it with a value of at most 65536
(the unmasked `RTS` increment being the only way to reach 65536).
The opcode is a byte because it comes off the bus. -/
theorem execute_post (opcode : Nat) (c : CPU6502) (m : Memory)
    (hop : opcode < 256) (hc : Wf c) (hm : m.Wf) : PostOf c (execute opcode c m) := by
  interval_cases opcode
  · exact post_BRK c m hc hm
  · exact post_ORA_indirectX c m hc hm
  · exact ⟨hc, Or.inl (Nat.le_add_right _ 2)⟩
  · exact ⟨hc, Or.inl (Nat.le_add_right _ 2)⟩
  · exact ⟨hc, Or.inl (Nat.le_add_right _ 2)⟩
  · exact post_ORA_zeropage c m hc hm
  · exact post_ASL_zeropage c m hc hm
  · exact ⟨hc, Or.inl (Nat.le_add_right _ 2)⟩
  · exact post_PHP c m hc hm
  · exact post_ORA_immediate c m hc hm
  · exact post_ASL_accumulator c m hc hm
  · exact ⟨hc, Or.inl (Nat.le_add_right _ 2)⟩
  · exact ⟨hc, Or.inl (Nat.le_add_right _ 2)⟩
  · exact post_ORA_absolute c m hc hm
  · exact post_ASL_absolute c m hc hm
  · exact ⟨hc, Or.inl (Nat.le_add_right _ 2)⟩
  · exact post_BPL c m hc hm
  · exact post_ORA_indirectY c m hc hm
  · exact ⟨hc, Or.inl (Nat.le_add_right _ 2)⟩
  · exact ⟨hc, Or.inl (Nat.le_add_right _ 2)⟩
  · exact ⟨hc, Or.inl (Nat.le_add_right _ 2)⟩
  · exact post_ORA_zeropageX c m hc hm
  · exact post_ASL_zeropageX c m hc hm
  · exact ⟨hc, Or.inl (Nat.le_add_right _ 2)⟩
  · exact post_CLC c m hc hm
  · exact post_ORA_absoluteY c m hc hm
  · exact ⟨hc, Or.inl (Nat.le_add_right _ 2)⟩
  · exact ⟨hc, Or.inl (Nat.le_add_right _ 2)⟩
  · exact ⟨hc, Or.inl (Nat.le_add_right _ 2)⟩
  · exact post_ORA_absoluteX c m hc hm
  · exact post_ASL_absoluteX c m hc hm
  · exact ⟨hc, Or.inl (Nat.le_add_right _ 2)⟩
  · exact post_JSR_absolute c m hc hm
  · exact post_AND_indirectX c m hc hm
  · exact ⟨hc, Or.inl (Nat.le_add_right _ 2)⟩
  · exact ⟨hc, Or.inl (Nat.le_add_right _ 2)⟩
  · exact post_BIT_zeropage c m hc hm
  · exact post_AND_zeropage c m hc hm
  · exact post_ROL_zeropage c m hc hm
  · exact ⟨hc, Or.inl (Nat.le_add_right _ 2)⟩
  · exact post_PLP c m hc hm
  · exact post_AND_immediate c m hc hm
  · exact post_ROL_accumulator c m hc hm
  · exact ⟨hc, Or.inl (Nat.le_add_right _ 2)⟩
  · exact post_BIT_absolute c m hc hm
  · exact post_AND_absolute c m hc hm
  · exact post_ROL_absolute c m hc hm
  · exact ⟨hc, Or.inl (Nat.le_add_right _ 2)⟩
  · exact post_BMI c m hc hm
  · exact post_AND_indirectY c m hc hm
  · exact ⟨hc, Or.inl (Nat.le_add_right _ 2)⟩
  · exact ⟨hc, Or.inl (Nat.le_add_right _ 2)⟩
  · exact ⟨hc, Or.inl (Nat.le_add_right _ 2)⟩
  · exact post_AND_zeropageX c m hc hm
  · exact post_ROL_zeropageX c m hc hm
  · exact ⟨hc, Or.inl (Nat.le_add_right _ 2)⟩
  · exact post_SEC c m hc hm
  · exact post_AND_absoluteY c m hc hm
  · exact ⟨hc, Or.inl (Nat.le_add_right _ 2)⟩
  · exact ⟨hc, Or.inl (Nat.le_add_right _ 2)⟩
  · exact ⟨hc, Or.inl (Nat.le_add_right _ 2)⟩
  · exact post_AND_absoluteX c m hc hm
  · exact post_ROL_absoluteX c m hc hm
  · exact ⟨hc, Or.inl (Nat.le_add_right _ 2)⟩
  · exact post_RTI c m hc hm
  · exact post_EOR_indirectX c m hc hm
  · exact ⟨hc, Or.inl (Nat.le_add_right _ 2)⟩
  · exact ⟨hc, Or.inl (Nat.le_add_right _ 2)⟩
  · exact ⟨hc, Or.inl (Nat.le_add_right _ 2)⟩
  · exact post_EOR_zeropage c m hc hm
  · exact post_LSR_zeropage c m hc hm
  · exact ⟨hc, Or.inl (Nat.le_add_right _ 2)⟩
  · exact post_PHA c m hc hm
  · exact post_EOR_immediate c m hc hm
  · exact post_LSR_accumulator c m hc hm
  · exact ⟨hc, Or.inl (Nat.le_add_right _ 2)⟩
  · exact post_JMP_absolute c m hc hm
  · exact post_EOR_absolute c m hc hm
  · exact post_LSR_absolute c m hc hm
  · exact ⟨hc, Or.inl (Nat.le_add_right _ 2)⟩
  · exact post_BVC c m hc hm
  · exact post_EOR_indirectY c m hc hm
  · exact ⟨hc, Or.inl (Nat.le_add_right _ 2)⟩
  · exact ⟨hc, Or.inl (Nat.le_add_right _ 2)⟩
  · exact ⟨hc, Or.inl (Nat.le_add_right _ 2)⟩
  · exact post_EOR_zeropageX c m hc hm
  · exact post_LSR_zeropageX c m hc hm
  · exact ⟨hc, Or.inl (Nat.le_add_right _ 2)⟩
  · exact post_CLI c m hc hm
  · exact post_EOR_absoluteY c m hc hm
  · exact ⟨hc, Or.inl (Nat.le_add_right _ 2)⟩
  · exact ⟨hc, Or.inl (Nat.le_add_right _ 2)⟩
  · exact ⟨hc, Or.inl (Nat.le_add_right _ 2)⟩
  · exact post_EOR_absoluteX c m hc hm
  · exact post_LSR_absoluteX c m hc hm
  · exact ⟨hc, Or.inl (Nat.le_add_right _ 2)⟩
  · exact post_RTS c m hc hm
  · exact post_ADC_indirectX c m hc hm
  · exact ⟨hc, Or.inl (Nat.le_add_right _ 2)⟩
  · exact ⟨hc, Or.inl (Nat.le_add_right _ 2)⟩
  · exact ⟨hc, Or.inl (Nat.le_add_right _ 2)⟩
  · exact post_ADC_zeropage c m hc hm
  · exact post_ROR_zeropage c m hc hm
  · exact ⟨hc, Or.inl (Nat.le_add_right _ 2)⟩
  · exact post_PLA c m hc hm
  · exact post_ADC_immediate c m hc hm
  · exact post_ROR_accumulator c m hc hm
  · exact ⟨hc, Or.inl (Nat.le_add_right _ 2)⟩
  · exact post_JMP_indirect c m hc hm
  · exact post_ADC_absolute c m hc hm
  · exact post_ROR_absolute c m hc hm
  · exact ⟨hc, Or.inl (Nat.le_add_right _ 2)⟩
  · exact post_BVS c m hc hm
  · exact post_ADC_indirectY c m hc hm
  · exact ⟨hc, Or.inl (Nat.le_add_right _ 2)⟩
  · exact ⟨hc, Or.inl (Nat.le_add_right _ 2)⟩
  · exact ⟨hc, Or.inl (Nat.le_add_right _ 2)⟩
  · exact post_ADC_zeropageX c m hc hm
  · exact post_ROR_zeropageX c m hc hm
  · exact ⟨hc, Or.inl (Nat.le_add_right _ 2)⟩
  · exact post_SEI c m hc hm
  · exact post_ADC_absoluteY c m hc hm
  · exact ⟨hc, Or.inl (Nat.le_add_right _ 2)⟩
  · exact ⟨hc, Or.inl (Nat.le_add_right _ 2)⟩
  · exact ⟨hc, Or.inl (Nat.le_add_right _ 2)⟩
  · exact post_ADC_absoluteX c m hc hm
  · exact post_ROR_absoluteX c m hc hm
  · exact ⟨hc, Or.inl (Nat.le_add_right _ 2)⟩
  · exact ⟨hc, Or.inl (Nat.le_add_right _ 2)⟩
  · exact post_STA_indirectX c m hc hm
  · exact ⟨hc, Or.inl (Nat.le_add_right _ 2)⟩
  · exact ⟨hc, Or.inl (Nat.le_add_right _ 2)⟩
  · exact post_STY_zeropage c m hc hm
  · exact post_STA_zeropage c m hc hm
  · exact post_STX_zeropage c m hc hm
  · exact ⟨hc, Or.inl (Nat.le_add_right _ 2)⟩
  · exact post_DEY c m hc hm
  · exact ⟨hc, Or.inl (Nat.le_add_right _ 2)⟩
  · exact post_TXA c m hc hm
  · exact ⟨hc, Or.inl (Nat.le_add_right _ 2)⟩
  · exact post_STY_absolute c m hc hm
  · exact post_STA_absolute c m hc hm
  · exact post_STX_absolute c m hc hm
  · exact ⟨hc, Or.inl (Nat.le_add_right _ 2)⟩
  · exact post_BCC c m hc hm
  · exact post_STA_indirectY c m hc hm
  · exact ⟨hc, Or.inl (Nat.le_add_right _ 2)⟩
  · exact ⟨hc, Or.inl (Nat.le_add_right _ 2)⟩
  · exact post_STY_zeropageX c m hc hm
  · exact post_STA_zeropageX c m hc hm
  · exact post_STX_zeropageY c m hc hm
  · exact ⟨hc, Or.inl (Nat.le_add_right _ 2)⟩
  · exact post_TYA c m hc hm
  · exact post_STA_absoluteY c m hc hm
  · exact post_TXS c m hc hm
  · exact ⟨hc, Or.inl (Nat.le_add_right _ 2)⟩
  · exact ⟨hc, Or.inl (Nat.le_add_right _ 2)⟩
  · exact post_STA_absoluteX c m hc hm
  · exact ⟨hc, Or.inl (Nat.le_add_right _ 2)⟩
  · exact ⟨hc, Or.inl (Nat.le_add_right _ 2)⟩
  · exact post_LDY_immediate c m hc hm
  · exact post_LDA_indirectX c m hc hm
  · exact post_LDX_immediate c m hc hm
  · exact ⟨hc, Or.inl (Nat.le_add_right _ 2)⟩
  · exact post_LDY_zeropage c m hc hm
  · exact post_LDA_zeropage c m hc hm
  · exact post_LDX_zeropage c m hc hm
  · exact ⟨hc, Or.inl (Nat.le_add_right _ 2)⟩
  · exact post_TAY c m hc hm
  · exact post_LDA_immediate c m hc hm
  · exact post_TAX c m hc hm
  · exact ⟨hc, Or.inl (Nat.le_add_right _ 2)⟩
  · exact post_LDY_absolute c m hc hm
  · exact post_LDA_absolute c m hc hm
  · exact post_LDX_absolute c m hc hm
  · exact ⟨hc, Or.inl (Nat.le_add_right _ 2)⟩
  · exact post_BCS c m hc hm
  · exact post_LDA_indirectY c m hc hm
  · exact ⟨hc, Or.inl (Nat.le_add_right _ 2)⟩
  · exact ⟨hc, Or.inl (Nat.le_add_right _ 2)⟩
  · exact post_LDY_zeropageX c m hc hm
  · exact post_LDA_zeropageX c m hc hm
  · exact post_LDX_zeropageY c m hc hm
  · exact ⟨hc, Or.inl (Nat.le_add_right _ 2)⟩
  · exact post_CLV c m hc hm
  · exact post_LDA_absoluteY c m hc hm
  · exact post_TSX c m hc hm
  · exact ⟨hc, Or.inl (Nat.le_add_right _ 2)⟩
  · exact post_LDY_absoluteX c m hc hm
  · exact post_LDA_absoluteX c m hc hm
  · exact post_LDX_absoluteY c m hc hm
  · exact ⟨hc, Or.inl (Nat.le_add_right _ 2)⟩
  · exact post_CPY_immediate c m hc hm
  · exact post_CMP_indirectX c m hc hm
  · exact ⟨hc, Or.inl (Nat.le_add_right _ 2)⟩
  · exact ⟨hc, Or.inl (Nat.le_add_right _ 2)⟩
  · exact post_CPY_zeropage c m hc hm
  · exact post_CMP_zeropage c m hc hm
  · exact post_DEC_zeropage c m hc hm
  · exact ⟨hc, Or.inl (Nat.le_add_right _ 2)⟩
  · exact post_INY c m hc hm
  · exact post_CMP_immediate c m hc hm
  · exact post_DEX c m hc hm
  · exact ⟨hc, Or.inl (Nat.le_add_right _ 2)⟩
  · exact post_CPY_absolute c m hc hm
  · exact post_CMP_absolute c m hc hm
  · exact post_DEC_absolute c m hc hm
  · exact ⟨hc, Or.inl (Nat.le_add_right _ 2)⟩
  · exact post_BNE c m hc hm
  · exact post_CMP_indirectY c m hc hm
  · exact ⟨hc, Or.inl (Nat.le_add_right _ 2)⟩
  · exact ⟨hc, Or.inl (Nat.le_add_right _ 2)⟩
  · exact ⟨hc, Or.inl (Nat.le_add_right _ 2)⟩
  · exact post_CMP_zeropageX c m hc hm
  · exact post_DEC_zeropageX c m hc hm
  · exact ⟨hc, Or.inl (Nat.le_add_right _ 2)⟩
  · exact post_CLD c m hc hm
  · exact post_CMP_absoluteY c m hc hm
  · exact ⟨hc, Or.inl (Nat.le_add_right _ 2)⟩
  · exact ⟨hc, Or.inl (Nat.le_add_right _ 2)⟩
  · exact ⟨hc, Or.inl (Nat.le_add_right _ 2)⟩
  · exact post_CMP_absoluteX c m hc hm
  · exact post_DEC_absoluteX c m hc hm
  · exact ⟨hc, Or.inl (Nat.le_add_right _ 2)⟩
  · exact post_CPX_immediate c m hc hm
  · exact post_SBC_indirectX c m hc hm
  · exact ⟨hc, Or.inl (Nat.le_add_right _ 2)⟩
  · exact ⟨hc, Or.inl (Nat.le_add_right _ 2)⟩
  · exact post_CPX_zeropage c m hc hm
  · exact post_SBC_zeropage c m hc hm
  · exact post_INC_zeropage c m hc hm
  · exact ⟨hc, Or.inl (Nat.le_add_right _ 2)⟩
  · exact post_INX c m hc hm
  · exact post_SBC_immediate c m hc hm
  · exact post_NOP c m hc hm
  · exact ⟨hc, Or.inl (Nat.le_add_right _ 2)⟩
  · exact post_CPX_absolute c m hc hm
  · exact post_SBC_absolute c m hc hm
  · exact post_INC_absolute c m hc hm
  · exact ⟨hc, Or.inl (Nat.le_add_right _ 2)⟩
  · exact post_BEQ c m hc hm
  · exact post_SBC_indirectY c m hc hm
  · exact ⟨hc, Or.inl (Nat.le_add_right _ 2)⟩
  · exact ⟨hc, Or.inl (Nat.le_add_right _ 2)⟩
  · exact ⟨hc, Or.inl (Nat.le_add_right _ 2)⟩
  · exact post_SBC_zeropageX c m hc hm
  · exact post_INC_zeropageX c m hc hm
  · exact ⟨hc, Or.inl (Nat.le_add_right _ 2)⟩
  · exact post_SED c m hc hm
  · exact post_SBC_absoluteY c m hc hm
  · exact ⟨hc, Or.inl (Nat.le_add_right _ 2)⟩
  · exact ⟨hc, Or.inl (Nat.le_add_right _ 2)⟩
  · exact ⟨hc, Or.inl (Nat.le_add_right _ 2)⟩
  · exact post_SBC_absoluteX c m hc hm
  · exact post_INC_absoluteX c m hc hm
  · exact ⟨hc, Or.inl (Nat.le_add_right _ 2)⟩

theorem handle_nmi_post (c : CPU6502) (m : Memory) (hc : Wf c) (hm : m.Wf) :
    Wf (handle_nmi c m).1 ∧ (handle_nmi c m).1.PC < 65536 ∧ (handle_nmi c m).2.Wf := by
  obtain ⟨hA, hX, hY, hSP, hC, hZ, hI, hD, hB, hV, hN⟩ := hc
  refine ⟨⟨hA, hX, hY, mod256_lt _, hC, hZ, Nat.le_refl 1, hD, hB, hV, hN⟩, ?_, ?_⟩
  · exact or_lo_hi
      (Memory.read_lt
        (Memory.write_wf (Memory.write_wf (Memory.write_wf hm _ _) _ _) _ _) _)
      (Memory.read_lt
        (Memory.write_wf (Memory.write_wf (Memory.write_wf hm _ _) _ _) _ _) _)
  · exact Memory.write_wf (Memory.write_wf (Memory.write_wf hm _ _) _ _) _ _

theorem handle_irq_post (c : CPU6502) (m : Memory) (hc : Wf c) (hm : m.Wf) :
    Wf (handle_irq c m).1 ∧ (handle_irq c m).1.PC < 65536 ∧ (handle_irq c m).2.Wf := by
  obtain ⟨hA, hX, hY, hSP, hC, hZ, hI, hD, hB, hV, hN⟩ := hc
  refine ⟨⟨hA, hX, hY, mod256_lt _, hC, hZ, Nat.le_refl 1, hD, hB, hV, hN⟩, ?_, ?_⟩
  · exact or_lo_hi
      (Memory.read_lt
        (Memory.write_wf (Memory.write_wf (Memory.write_wf hm _ _) _ _) _ _) _)
      (Memory.read_lt
        (Memory.write_wf (Memory.write_wf (Memory.write_wf hm _ _) _ _) _ _) _)
  · exact Memory.write_wf (Memory.write_wf (Memory.write_wf hm _ _) _ _) _ _

/-- One full `step` from a well-formed state keeps every register and
flag in range, and leaves `PC ≤ 65538` (the unmasked fetch/operand
increments and the unmasked `RTS` target mean 65535 is not an upper
bound; see the RTS counterexample). -/
theorem step_bounds (c : CPU6502) (m : Memory) (hc : Wf c) (hpc : c.PC ≤ 65535)
    (hm : m.Wf) : Wf (step c m).1 ∧ (step c m).1.PC ≤ 65538 := by
  unfold step
  split
  · -- NMI pending
    rename_i hn
    have h1 := handle_nmi_post c m hc hm
    have hop : (handle_nmi c m).2.read (handle_nmi c m).1.PC < 256 :=
      Memory.read_lt h1.2.2 _
    have hep := execute_post ((handle_nmi c m).2.read (handle_nmi c m).1.PC)
      { (handle_nmi c m).1 with PC := (handle_nmi c m).1.PC + 1, cycles := 0 }
      (handle_nmi c m).2 hop h1.1 h1.2.2
    refine ⟨hep.1, ?_⟩
    rcases hep.2 with h | h
    · refine Nat.le_trans h ?_
      show (handle_nmi c m).1.PC + 1 + 2 ≤ 65538
      have := h1.2.1
      omega
    · exact Nat.le_trans h (by norm_num)
  · split
    · -- IRQ pending with I = 0
      rename_i hirq
      have h1 := handle_irq_post c m hc hm
      have hop : (handle_irq c m).2.read (handle_irq c m).1.PC < 256 :=
        Memory.read_lt h1.2.2 _
      have hep := execute_post ((handle_irq c m).2.read (handle_irq c m).1.PC)
        { (handle_irq c m).1 with PC := (handle_irq c m).1.PC + 1, cycles := 0 }
        (handle_irq c m).2 hop h1.1 h1.2.2
      refine ⟨hep.1, ?_⟩
      rcases hep.2 with h | h
      · refine Nat.le_trans h ?_
        show (handle_irq c m).1.PC + 1 + 2 ≤ 65538
        have := h1.2.1
        omega
      · exact Nat.le_trans h (by norm_num)
    · -- no interrupt
      have hop : m.read c.PC < 256 := Memory.read_lt hm _
      have hep := execute_post (m.read c.PC)
        { c with PC := c.PC + 1, cycles := 0 } m hop hc hm
      refine ⟨hep.1, ?_⟩
      rcases hep.2 with h | h
      · refine Nat.le_trans h ?_
        show c.PC + 1 + 2 ≤ 65538
        omega
      · exact Nat.le_trans h (by norm_num)

end CPU6502


/-! ## Claim checks -/

/-! ### C1: interrupt entry cycles and the value returned by `step` -/

/-- State with a pending NMI: flags clear, `PC = $0200`, `SP = $FF`. -/
def c1_cpu : CPU6502 :=
  { A := 0, X := 0, Y := 0, PC := 0x0200, SP := 0xFF,
    C := 0, Z := 0, I := 0, D := 0, B := 0, V := 0, N := 0,
    cycles := 0, total_cycles := 0, irq_pending := false, nmi_pending := true }

/-- NMI vector `$FFFA/$FFFB` pointing at `$0300`, a NOP (`$EA`) there. -/
def c1_mem : Memory :=
  { ram := fun a =>
      if a = 0xFFFA then 0x00 else if a = 0xFFFB then 0x03
      else if a = 0x0300 then 0xEA else 0,
    roms := [], io_read := fun _ => none, io_write := fun _ => false }

/-- C1: refuted on the code.  `step` services the pending NMI (the pushes
land on the stack, `I` becomes 1, `PC` runs the handler at the vector and
`nmi_pending` clears), but the handler's `cycles += 7` is wiped out by
the `cycles = 0` reset that follows interrupt handling in `step`, so the
call returns only the 2 cycles of the executed NOP — not 9 — and
`total_cycles` also advances by just 2. -/
theorem nmi_entry_cycles_dropped :
    (CPU6502.step c1_cpu c1_mem).2.2 = 2 ∧
    (CPU6502.step c1_cpu c1_mem).1.total_cycles = 2 ∧
    (CPU6502.step c1_cpu c1_mem).1.PC = 0x0301 ∧
    (CPU6502.step c1_cpu c1_mem).1.I = 1 ∧
    (CPU6502.step c1_cpu c1_mem).1.nmi_pending = false ∧
    (CPU6502.step c1_cpu c1_mem).2.1.ram 0x1FF = 0x02 ∧
    (CPU6502.step c1_cpu c1_mem).2.1.ram 0x1FE = 0x00 ∧
    (CPU6502.step c1_cpu c1_mem).2.1.ram 0x1FD = 0x20 := by
  decide

/-! ### C2: register/flag/PC bounds after any step -/

/-- All-zero CPU with `SP = 0`, `PC = 0`. -/
def c2_cpu : CPU6502 :=
  { A := 0, X := 0, Y := 0, PC := 0, SP := 0,
    C := 0, Z := 0, I := 0, D := 0, B := 0, V := 0, N := 0,
    cycles := 0, total_cycles := 0, irq_pending := false, nmi_pending := false }

/-- RTS opcode at `$0000`; every other byte `$FF`, so the pulled return
address is `$FFFF`. -/
def c2_mem : Memory :=
  { ram := fun a => if a = 0 then 0x60 else 0xFF,
    roms := [], io_read := fun _ => none, io_write := fun _ => false }

/-- C2 counterexample: one `RTS` pulling `$FFFF` leaves `PC = $10000`,
because the source computes `PC = ((high << 8) | low) + 1` without
masking — so `PC ∈ [0, 65535]` is not an invariant of `step`. -/
theorem rts_pc_exceeds_16_bits :
    (CPU6502.step c2_cpu c2_mem).1.PC = 65536 ∧
    65535 < (CPU6502.step c2_cpu c2_mem).1.PC := by
  decide

/-- C2 (amended): from any state with byte-sized registers, 0/1 flags,
a 16-bit `PC` and byte-valued memory, a single `step` keeps `A`, `X`,
`Y`, `SP` in `[0,255]` and every flag in `{0,1}`; `PC` however is only
bounded by 65538 (opcode/operand fetches and the `RTS` increment are not
masked to 16 bits). -/
theorem step_keeps_registers_in_range (c : CPU6502) (m : Memory)
    (hA : c.A < 256) (hX : c.X < 256) (hY : c.Y < 256) (hSP : c.SP < 256)
    (hC : c.C ≤ 1) (hZ : c.Z ≤ 1) (hI : c.I ≤ 1) (hD : c.D ≤ 1) (hB : c.B ≤ 1)
    (hV : c.V ≤ 1) (hN : c.N ≤ 1) (hpc : c.PC ≤ 65535) (hm : m.Wf) :
    ((CPU6502.step c m).1.A < 256 ∧ (CPU6502.step c m).1.X < 256 ∧
     (CPU6502.step c m).1.Y < 256 ∧ (CPU6502.step c m).1.SP < 256) ∧
    ((CPU6502.step c m).1.C = 0 ∨ (CPU6502.step c m).1.C = 1) ∧
    ((CPU6502.step c m).1.Z = 0 ∨ (CPU6502.step c m).1.Z = 1) ∧
    ((CPU6502.step c m).1.I = 0 ∨ (CPU6502.step c m).1.I = 1) ∧
    ((CPU6502.step c m).1.D = 0 ∨ (CPU6502.step c m).1.D = 1) ∧
    ((CPU6502.step c m).1.B = 0 ∨ (CPU6502.step c m).1.B = 1) ∧
    ((CPU6502.step c m).1.V = 0 ∨ (CPU6502.step c m).1.V = 1) ∧
    ((CPU6502.step c m).1.N = 0 ∨ (CPU6502.step c m).1.N = 1) ∧
    (CPU6502.step c m).1.PC ≤ 65538 := by
  have h := CPU6502.step_bounds c m
    ⟨hA, hX, hY, hSP, hC, hZ, hI, hD, hB, hV, hN⟩ hpc hm
  obtain ⟨⟨wA, wX, wY, wSP, wC, wZ, wI, wD, wB, wV, wN⟩, wPC⟩ := h
  exact ⟨⟨wA, wX, wY, wSP⟩, by omega, by omega, by omega, by omega, by omega,
    by omega, by omega, wPC⟩

/-- Memory holding `$EA` (NOP) everywhere. -/
def c2w_mem : Memory :=
  { ram := fun _ => 0xEA,
    roms := [], io_read := fun _ => none, io_write := fun _ => false }

/-- Witness for the amended C2 at a concrete state and memory. -/
theorem step_keeps_registers_in_range_witness :
    (c2_cpu.A < 256 ∧ c2_cpu.PC ≤ 65535) ∧
    (CPU6502.step c2_cpu c2w_mem).1.SP < 256 ∧
    (CPU6502.step c2_cpu c2w_mem).1.PC ≤ 65538 := by
  refine ⟨by decide, ?_⟩
  have h := step_keeps_registers_in_range c2_cpu c2w_mem
    (by decide) (by decide) (by decide) (by decide) (by decide) (by decide)
    (by decide) (by decide) (by decide) (by decide) (by decide) (by decide)
    ⟨fun a => (by norm_num : (0xEA : Nat) < 256), by simp [c2w_mem],
     fun a v hv => by simp [c2w_mem] at hv⟩
  exact ⟨h.1.2.2.2, h.2.2.2.2.2.2.2.2⟩

/-! ### C3: decimal-mode ADC/SBC and the accumulator -/

/-- Decimal mode, `A = $09`, carry clear. -/
def c3_cpu : CPU6502 :=
  { A := 0x09, X := 0, Y := 0, PC := 0, SP := 0xFF,
    C := 0, Z := 0, I := 0, D := 1, B := 0, V := 0, N := 0,
    cycles := 0, total_cycles := 0, irq_pending := false, nmi_pending := false }

/-- Decimal mode, `A = $10`, carry set (no borrow). -/
def c3_cpu_sbc : CPU6502 :=
  { A := 0x10, X := 0, Y := 0, PC := 0, SP := 0xFF,
    C := 1, Z := 0, I := 0, D := 1, B := 0, V := 0, N := 0,
    cycles := 0, total_cycles := 0, irq_pending := false, nmi_pending := false }

/-- C3: refuted on the code.  With `D = 1`, `$09 + $01` has BCD sum `$10`
and `$10 - $01` has BCD difference `$09`, and the source computes those
sums and sets C/Z/N/V from them — but never assigns the result to the
accumulator, so `A` is left at its old value in both cases. -/
theorem decimal_mode_leaves_accumulator_unchanged :
    (CPU6502.add_with_carry c3_cpu 0x01).A = 0x09 ∧
    (CPU6502.add_with_carry c3_cpu 0x01).C = 0 ∧
    (CPU6502.add_with_carry c3_cpu 0x01).Z = 0 ∧
    (CPU6502.add_with_carry c3_cpu 0x01).N = 0 ∧
    (CPU6502.add_with_carry c3_cpu 0x01).V = 0 ∧
    (CPU6502.subtract_with_carry c3_cpu_sbc 0x01).A = 0x10 ∧
    (CPU6502.subtract_with_carry c3_cpu_sbc 0x01).C = 1 ∧
    (CPU6502.subtract_with_carry c3_cpu_sbc 0x01).V = 0 := by
  decide

/-! ### C4: the BRK concrete scenario -/

/-- Flags clear, `I = 0`, `PC = $0200`, `SP = $FF`. -/
def c4_cpu : CPU6502 :=
  { A := 0, X := 0, Y := 0, PC := 0x0200, SP := 0xFF,
    C := 0, Z := 0, I := 0, D := 0, B := 0, V := 0, N := 0,
    cycles := 0, total_cycles := 0, irq_pending := false, nmi_pending := false }

/-- Vectors `$FFFE = $34`, `$FFFF = $12`; program `00 00` at `$0200` (all other
bytes are zero anyway). -/
def c4_mem : Memory :=
  { ram := fun a => if a = 0xFFFE then 0x34 else if a = 0xFFFF then 0x12 else 0,
    roms := [], io_read := fun _ => none, io_write := fun _ => false }

/-- C4 counterexample: in the spec scenario the three pushed bytes are
`$02` (PC high), `$02` (PC low) and `status | $10 = $30` — no pushed byte
equals the `$03` the claim lists, because BRK pushes `PC + 1 = $0202`
(`PC` already points at the signature byte after the opcode fetch). -/
theorem brk_scenario_pushes_0202 :
    (CPU6502.step c4_cpu c4_mem).2.1.ram 0x1FF = 0x02 ∧
    (CPU6502.step c4_cpu c4_mem).2.1.ram 0x1FE = 0x02 ∧
    (CPU6502.step c4_cpu c4_mem).2.1.ram 0x1FD = 0x30 ∧
    (CPU6502.step c4_cpu c4_mem).2.1.ram 0x1FF ≠ 0x03 ∧
    (CPU6502.step c4_cpu c4_mem).2.1.ram 0x1FE ≠ 0x03 ∧
    (CPU6502.step c4_cpu c4_mem).2.1.ram 0x1FD ≠ 0x03 := by
  decide

/-- C4 (amended): the BRK scenario with the pushed low byte corrected to
`$02`: after one step `PC = $1234`, `I = 1`, the call costs 7 cycles, and
the stack holds (downwards from `$01FF`) `$02`, `$02`, `status | $10`. -/
theorem brk_scenario_amended :
    (CPU6502.step c4_cpu c4_mem).1.PC = 0x1234 ∧
    (CPU6502.step c4_cpu c4_mem).1.I = 1 ∧
    (CPU6502.step c4_cpu c4_mem).2.2 = 7 ∧
    (CPU6502.step c4_cpu c4_mem).1.SP = 0xFC ∧
    (CPU6502.step c4_cpu c4_mem).2.1.ram 0x1FF = 0x02 ∧
    (CPU6502.step c4_cpu c4_mem).2.1.ram 0x1FE = 0x02 ∧
    (CPU6502.step c4_cpu c4_mem).2.1.ram 0x1FD = (CPU6502.get_status c4_cpu ||| 0x10) := by
  decide

/-! ### C5: the indirect-JMP page-wrap bug -/

/-- Scenario `PC = $0200`; program `6C FF 30`; `$30FF = $40`, `$3000 = $80` (and
`$3100 = 0`, so an unbugged fetch would land at `$0040` instead). -/
def c5_cpu : CPU6502 :=
  { A := 0, X := 0, Y := 0, PC := 0x0200, SP := 0xFF,
    C := 0, Z := 0, I := 0, D := 0, B := 0, V := 0, N := 0,
    cycles := 0, total_cycles := 0, irq_pending := false, nmi_pending := false }

def c5_mem : Memory :=
  { ram := fun a =>
      if a = 0x0200 then 0x6C else if a = 0x0201 then 0xFF else if a = 0x0202 then 0x30
      else if a = 0x30FF then 0x40 else if a = 0x3000 then 0x80 else 0,
    roms := [], io_read := fun _ => none, io_write := fun _ => false }

/-- The CPU as it stands when `indirect` runs: the opcode has been
fetched, so `PC` points at the pointer operand. -/
def c5w_cpu : CPU6502 := { c5_cpu with PC := 0x0201 }

/-- C5: confirmed.  Whenever the operand's low byte is `$FF`, `indirect`
returns a target whose low byte comes from the pointer address and whose
high byte comes from `(pointer & 0xFF00)` — the 6502 page-wrap bug — and
the spec's concrete scenario gives `PC = $8040` in 5 cycles. -/
theorem jmp_indirect_page_wrap :
    (∀ (c : CPU6502) (m : Memory), m.read c.PC = 0xFF →
      (CPU6502.indirect c m).1 =
        ((m.read ((((m.read (c.PC + 1)) <<< 8) ||| m.read c.PC) &&& 0xFF00)) <<< 8) |||
          m.read (((m.read (c.PC + 1)) <<< 8) ||| m.read c.PC) ∧
      (CPU6502.indirect c m).2.PC = c.PC + 2) ∧
    (CPU6502.step c5_cpu c5_mem).1.PC = 0x8040 ∧
    (CPU6502.step c5_cpu c5_mem).2.2 = 5 := by
  refine ⟨?_, by decide, by decide⟩
  intro c m hlo
  have hmod : ((m.read (c.PC + 1) <<< 8) ||| m.read c.PC) % 256 = 0xFF := by
    rw [hlo]
    exact or_shl8_mod256 _ (by norm_num)
  constructor
  · show (let r := CPU6502.absolute c m
          let addr_ptr := r.1
          let low := m.read addr_ptr
          let high :=
            if addr_ptr % 256 = 0xFF then m.read (addr_ptr &&& 0xFF00)
            else m.read (addr_ptr + 1)
          ((high <<< 8) ||| low, r.2)).1 = _
    simp only [CPU6502.absolute, hlo]
    rw [hlo] at hmod
    rw [if_pos hmod]
  · rfl

/-- Witness for C5's page-wrap clause at the spec scenario: the operand
low byte is `$FF` and the wrapped fetch yields `$8040`. -/
theorem jmp_indirect_page_wrap_witness :
    c5_mem.read c5w_cpu.PC = 0xFF ∧ (CPU6502.indirect c5w_cpu c5_mem).1 = 0x8040 := by
  refine ⟨by decide, ?_⟩
  have h := (jmp_indirect_page_wrap.1 c5w_cpu c5_mem (by decide)).1
  rw [h]
  decide

/-! ### C6: binary ADC -/

/-- Flags clear (`D = 0`), `PC = 0`, `SP = $FF`. -/
def c6_cpu : CPU6502 :=
  { A := 0, X := 0, Y := 0, PC := 0, SP := 0xFF,
    C := 0, Z := 0, I := 0, D := 0, B := 0, V := 0, N := 0,
    cycles := 0, total_cycles := 0, irq_pending := false, nmi_pending := false }

/-- Program `CLC; LDA #a; ADC #b` at address 0. -/
def c6_mem (a b : Nat) : Memory :=
  { ram := fun addr =>
      if addr = 0 then 0x18 else if addr = 1 then 0xA9 else if addr = 2 then a
      else if addr = 3 then 0x69 else if addr = 4 then b else 0,
    roms := [], io_read := fun _ => none, io_write := fun _ => false }

/-- State after `CLC`. -/
def c6_cpu1 : CPU6502 :=
  { A := 0, X := 0, Y := 0, PC := 1, SP := 0xFF,
    C := 0, Z := 0, I := 0, D := 0, B := 0, V := 0, N := 0,
    cycles := 2, total_cycles := 2, irq_pending := false, nmi_pending := false }

/-- State after `CLC; LDA #a`. -/
def c6_cpu2 (a : Nat) : CPU6502 :=
  { A := a, X := 0, Y := 0, PC := 3, SP := 0xFF,
    C := 0, Z := if a % 256 = 0 then 1 else 0, I := 0, D := 0, B := 0, V := 0,
    N := if a &&& 0x80 ≠ 0 then 1 else 0,
    cycles := 2, total_cycles := 4, irq_pending := false, nmi_pending := false }

/-- C6: confirmed.  For all bytes `a`, `b`, running `CLC; LDA #a; ADC #b`
with `D = 0` leaves `A = (a + b) % 256` and `C = 1` exactly when
`a + b ≥ 256`; and in general binary-mode `add_with_carry` computes
`t = A + M + C`, sets `C` to `t > $FF`, sets `V` from
`(~(A ^ M) & (A ^ t)) & $80`, stores `t & $FF` in `A` and updates Z, N
from it. -/
theorem adc_binary_add_correct :
    (∀ (a b : Nat), a < 256 → b < 256 →
      ((CPU6502.step ((CPU6502.step ((CPU6502.step c6_cpu (c6_mem a b)).1)
          (c6_mem a b)).1) (c6_mem a b)).1.A = (a + b) % 256 ∧
       (CPU6502.step ((CPU6502.step ((CPU6502.step c6_cpu (c6_mem a b)).1)
          (c6_mem a b)).1) (c6_mem a b)).1.C = if 256 ≤ a + b then 1 else 0)) ∧
    (∀ (c : CPU6502) (v : Nat), c.D = 0 →
      CPU6502.add_with_carry c v =
        CPU6502.update_ZN
          { c with
            C := if c.A + v + c.C > 0xFF then 1 else 0,
            V := if (pyAndNot (c.A ^^^ (c.A + v + c.C)) (c.A ^^^ v)) &&& 0x80 ≠ 0
                 then 1 else 0,
            A := (c.A + v + c.C) % 256 }
          ((c.A + v + c.C) % 256)) := by
  constructor
  · intro a b ha hb
    have h1 : (CPU6502.step c6_cpu (c6_mem a b)).1 = c6_cpu1 := rfl
    have h2 : (CPU6502.step c6_cpu1 (c6_mem a b)).1 = c6_cpu2 a := rfl
    have h3A : (CPU6502.step (c6_cpu2 a) (c6_mem a b)).1.A = (a + b + 0) % 256 := rfl
    have h3C : (CPU6502.step (c6_cpu2 a) (c6_mem a b)).1.C =
        if 255 < a + b + 0 then 1 else 0 := rfl
    rw [h1, h2]
    constructor
    · rw [h3A]
      omega
    · rw [h3C]
      split_ifs <;> omega
  · intro c v hD
    unfold CPU6502.add_with_carry
    rw [if_neg (by rw [hD]; exact fun h => h rfl)]

/-- Witness for C6 at `a = 200`, `b = 100`: the sum wraps to 44 with
carry out. -/
theorem adc_binary_add_correct_witness :
    ((200 : Nat) < 256 ∧ (100 : Nat) < 256) ∧
    (CPU6502.step ((CPU6502.step ((CPU6502.step c6_cpu (c6_mem 200 100)).1)
        (c6_mem 200 100)).1) (c6_mem 200 100)).1.A = 44 ∧
    (CPU6502.step ((CPU6502.step ((CPU6502.step c6_cpu (c6_mem 200 100)).1)
        (c6_mem 200 100)).1) (c6_mem 200 100)).1.C = 1 := by
  have h := adc_binary_add_correct.1 200 100 (by norm_num) (by norm_num)
  refine ⟨⟨by norm_num, by norm_num⟩, by rw [h.1], ?_⟩
  rw [h.2]
  norm_num

/-! ### C7: VIA Timer-1 expiry, reload and IRQ signalling -/

theorem testBit6_or40 (x : Nat) : (x ||| 0x40).testBit 6 = true := by
  rw [Nat.testBit_lor]
  have h : (0x40 : Nat).testBit 6 = true := by decide
  simp [h]

theorem testBit6_or40_or20 (x : Nat) : ((x ||| 0x40) ||| 0x20).testBit 6 = true := by
  rw [Nat.testBit_lor, testBit6_or40]
  simp

/-- C7: confirmed.  For every VIA state and cycle count: an armed Timer-1
(counter in `(0, cycles]`) reloads from the latch and raises IFR bit 6; a
counter above the cycle count is decremented; and the call returns `true`
exactly when a timer that fired during the call has its IER bit (6 for
Timer-1, 5 for Timer-2) enabled. -/
theorem via_timer1_update :
    ∀ (v : VIA) (cyc : Nat),
      (0 < v.timer1_counter → v.timer1_counter ≤ cyc →
        (VIA.update_timers v cyc).1.timer1_counter = v.timer1_latch ∧
        (VIA.update_timers v cyc).1.irq_status.testBit 6 = true) ∧
      (cyc < v.timer1_counter →
        (VIA.update_timers v cyc).1.timer1_counter = v.timer1_counter - cyc) ∧
      ((VIA.update_timers v cyc).2 = true ↔
        ((0 < v.timer1_counter ∧ v.timer1_counter ≤ cyc ∧ v.irq_enable &&& 0x40 ≠ 0) ∨
         (0 < v.timer2_counter ∧ v.timer2_counter ≤ cyc ∧ v.irq_enable &&& 0x20 ≠ 0))) := by
  intro v cyc
  by_cases h1 : 0 < v.timer1_counter
  all_goals by_cases h2 : v.timer1_counter ≤ cyc
  all_goals by_cases h3 : 0 < v.timer2_counter
  all_goals by_cases h4 : v.timer2_counter ≤ cyc
  all_goals
    simp only [VIA.update_timers, h1, h2, h3, h4, if_true, if_false,
      eq_self_iff_true, true_implies, true_and, and_true, false_and, and_false,
      if_pos, if_neg, not_false_iff, Bool.or_eq_true, bne_iff_ne, ne_eq,
      testBit6_or40, testBit6_or40_or20, or_false, false_or, iff_false, iff_true,
      Bool.false_eq_true, not_lt, not_le]
  all_goals
    (repeat' apply And.intro) <;>
      first
      | omega
      | (intro ha hb; exact ⟨rfl, testBit6_or40 _⟩)
      | (intro ha hb; exact ⟨rfl, testBit6_or40_or20 _⟩)
      | (intro ha hb; omega)
      | (intro ha; omega)
      | (intro ha; rfl)
      | tauto
      | decide

/-- The spec scenario: write T1 latch low = `$02`, then T1 counter high =
`$00` (which copies the latch into the counter), then enable IER bit 6. -/
def c7_via : VIA := ((VIA.init.write 0x4 0x02).write 0x5 0x00).write 0xE 0xC0

/-- Witness for C7 at the spec scenario: after 3 cycles the counter has
reloaded to `$0002`, IFR bit 6 is set and the call returns `true`. -/
theorem via_timer1_update_witness :
    (0 < c7_via.timer1_counter ∧ c7_via.timer1_counter ≤ 3 ∧
      c7_via.timer1_latch = 2 ∧ c7_via.irq_enable &&& 0x40 ≠ 0) ∧
    (VIA.update_timers c7_via 3).1.timer1_counter = 2 ∧
    (VIA.update_timers c7_via 3).1.irq_status.testBit 6 = true ∧
    (VIA.update_timers c7_via 3).2 = true := by
  have h := via_timer1_update c7_via 3
  refine ⟨⟨by decide, by decide, by decide, by decide⟩, ?_, ?_, ?_⟩
  · have h2 := (h.1 (by decide) (by decide)).1
    rw [h2]
    decide
  · exact (h.1 (by decide) (by decide)).2
  · exact (h.2.2).mpr (Or.inl ⟨by decide, by decide, by decide⟩)

/-! ### C8: bus overlay/callback resolution -/

/-- C8: confirmed.  A write at an address with no write callback that
falls in a ROM overlay leaves the whole bus state unchanged; a read with
a registered callback returns the callback value; a read in a ROM overlay
with no callback returns the overlay byte (RAM never consulted). -/
theorem bus_overlay_resolution :
    (∀ (m : Memory) (addr value : Nat),
        m.io_write (addr % 65536) = false →
        (Memory.rom_lookup m.roms (addr % 65536)).isSome = true →
        m.write addr value = m) ∧
    (∀ (m : Memory) (addr v : Nat),
        m.io_read (addr % 65536) = some v → m.read addr = v) ∧
    (∀ (m : Memory) (addr b : Nat),
        m.io_read (addr % 65536) = none →
        Memory.rom_lookup m.roms (addr % 65536) = some b →
        m.read addr = b) := by
  refine ⟨?_, ?_, ?_⟩
  · intro m addr value hio hrom
    simp [Memory.write, hio, hrom]
  · intro m addr v hio
    simp [Memory.read, hio]
  · intro m addr b hio hrom
    simp [Memory.read, hio, hrom]

/-- A ROM overlay `[1, 2, 3]` at `$0100` and a read callback at `$0055`
returning `$AB`; RAM reads 7 everywhere. -/
def c8_mem : Memory :=
  { ram := fun _ => 7, roms := [(0x100, [1, 2, 3])],
    io_read := fun a => if a = 0x55 then some 0xAB else none,
    io_write := fun _ => false }

/-- Witness for C8: the ROM write at `$0101` is dropped, the callback
read at `$0055` returns `$AB`, the ROM read at `$0101` returns 2 (not the
RAM's 7). -/
theorem bus_overlay_resolution_witness :
    (c8_mem.io_write (0x101 % 65536) = false ∧
      (Memory.rom_lookup c8_mem.roms (0x101 % 65536)).isSome = true ∧
      c8_mem.io_read (0x55 % 65536) = some 0xAB ∧
      c8_mem.io_read (0x101 % 65536) = none ∧
      Memory.rom_lookup c8_mem.roms (0x101 % 65536) = some 2) ∧
    c8_mem.write 0x101 9 = c8_mem ∧
    c8_mem.read 0x55 = 0xAB ∧
    c8_mem.read 0x101 = 2 := by
  exact ⟨⟨by decide, by decide, by decide, by decide, by decide⟩,
    bus_overlay_resolution.1 c8_mem 0x101 9 (by decide) (by decide),
    bus_overlay_resolution.2.1 c8_mem 0x55 0xAB (by decide),
    bus_overlay_resolution.2.2 c8_mem 0x101 2 (by decide) (by decide)⟩

/-! ### C9: ROM registration is not validated -/

/-- Fresh bus: zero RAM, no overlays, no callbacks. -/
def c9_mem : Memory :=
  { ram := fun _ => 0, roms := [], io_read := fun _ => none, io_write := fun _ => false }

/-- C9 counterexample: `load_rom` silently accepts and registers both a
zero-length image and one whose region crosses `$FFFF` (the RAM copy is
merely clamped at the RAM end) — nothing is rejected. -/
theorem load_rom_accepts_invalid_roms :
    (c9_mem.load_rom [] 0x100).roms = [(0x100, [])] ∧
    (c9_mem.load_rom [0xAB, 0xCD] 0xFFFF).roms = [(0xFFFF, [0xAB, 0xCD])] ∧
    (c9_mem.load_rom [0xAB, 0xCD] 0xFFFF).ram 0xFFFF = 0xAB ∧
    (c9_mem.load_rom [0xAB, 0xCD] 0xFFFF).ram 0x10000 = 0 := by
  decide

theorem dict_insert_self_mem (l : List (Nat × List Nat)) (k : Nat) (v : List Nat) :
    (k, v) ∈ Memory.dict_insert l k v := by
  induction l with
  | nil => simp [Memory.dict_insert]
  | cons hd tl ih =>
    obtain ⟨a, b⟩ := hd
    rw [Memory.dict_insert]
    split
    · exact List.mem_cons_self _ _
    · exact List.mem_cons_of_mem _ ih

/-- C9 (amended): `load_rom` performs no validation at all — for every
image (zero-length and `$FFFF`-crossing included) the overlay is
registered, the bytes are copied into RAM only at addresses below
`$10000`, and RAM above that is untouched. -/
theorem load_rom_registers_unconditionally :
    ∀ (m : Memory) (data : List Nat) (addr : Nat),
      (addr, data) ∈ (m.load_rom data addr).roms ∧
      (∀ x, addr ≤ x → x < addr + data.length → x < 65536 →
        (m.load_rom data addr).ram x = data.getD (x - addr) 0) ∧
      (∀ x, 65536 ≤ x → (m.load_rom data addr).ram x = m.ram x) := by
  intro m data addr
  refine ⟨dict_insert_self_mem _ _ _, ?_, ?_⟩
  · intro x h1 h2 h3
    simp [Memory.load_rom, h1, h2, h3]
  · intro x h
    have hcond : ¬(addr ≤ x ∧ x < addr + data.length ∧ x < 65536) := by omega
    simp [Memory.load_rom, hcond]

/-- Witness for the amended C9 at the `$FFFF`-crossing image. -/
theorem load_rom_registers_unconditionally_witness :
    (0xFFFF, [0xAB, 0xCD]) ∈ (c9_mem.load_rom [0xAB, 0xCD] 0xFFFF).roms ∧
    ((0xFFFF : Nat) ≤ 0xFFFF ∧ (0xFFFF : Nat) < 0xFFFF + 2 ∧ (0xFFFF : Nat) < 65536) ∧
    (c9_mem.load_rom [0xAB, 0xCD] 0xFFFF).ram 0xFFFF = 0xAB ∧
    ((65536 : Nat) ≤ 0x10000) ∧
    (c9_mem.load_rom [0xAB, 0xCD] 0xFFFF).ram 0x10000 = c9_mem.ram 0x10000 := by
  have h := load_rom_registers_unconditionally c9_mem [0xAB, 0xCD] 0xFFFF
  refine ⟨h.1, ⟨by norm_num, by norm_num, by norm_num⟩, ?_, by norm_num,
    h.2.2 0x10000 (by norm_num)⟩
  have h2 := h.2.1 0xFFFF (by norm_num) (by norm_num) (by norm_num)
  rw [h2]
  decide

/-! ### C10: VideoRAM bounds behaviour -/

/-- C10: confirmed.  With the constructor invariant (`size` is
`width * height` and the byte array has that length), every out-of-range
address reads 0 and writes change neither the bytes nor the dirty flag,
while every in-range address indexes inside the buffer. -/
theorem video_ram_access_bounds :
    ∀ (v : VideoRAM) (addr : Int) (value : Nat),
      v.size = v.width * v.height →
      v.memory.length = v.size →
      ((addr < 0 ∨ ((v.width * v.height : Nat) : Int) ≤ addr) →
        (VideoRAM.read v addr = 0 ∧
         (VideoRAM.write v addr value).memory = v.memory ∧
         (VideoRAM.write v addr value).dirty = v.dirty)) ∧
      ((0 ≤ addr ∧ addr < ((v.width * v.height : Nat) : Int)) →
        addr.toNat < v.memory.length) := by
  intro v addr value hsz hlen
  rw [← hsz]
  constructor
  · intro hout
    have hcond : ¬(0 ≤ addr ∧ addr < (v.size : Int)) := by omega
    refine ⟨?_, ?_, ?_⟩ <;> simp [VideoRAM.read, VideoRAM.write, hcond]
  · intro h
    rw [hlen]
    omega

set_option maxRecDepth 8192 in
/-- Witness for C10 on a fresh 40×25 buffer: address 1000 is
out-of-range (read 0, write inert), address 999 indexes inside. -/
theorem video_ram_access_bounds_witness :
    ((VideoRAM.init 40 25).size = (VideoRAM.init 40 25).width * (VideoRAM.init 40 25).height ∧
      (VideoRAM.init 40 25).memory.length = (VideoRAM.init 40 25).size) ∧
    VideoRAM.read (VideoRAM.init 40 25) 1000 = 0 ∧
    (VideoRAM.write (VideoRAM.init 40 25) 1000 7).memory = (VideoRAM.init 40 25).memory ∧
    (VideoRAM.write (VideoRAM.init 40 25) 1000 7).dirty = (VideoRAM.init 40 25).dirty ∧
    (999 : Int).toNat < (VideoRAM.init 40 25).memory.length := by
  have hsz : (VideoRAM.init 40 25).size =
      (VideoRAM.init 40 25).width * (VideoRAM.init 40 25).height := rfl
  have hlen : (VideoRAM.init 40 25).memory.length = (VideoRAM.init 40 25).size := by
    simp [VideoRAM.init]
  have hout := (video_ram_access_bounds (VideoRAM.init 40 25) 1000 7 hsz hlen).1
    (Or.inr (by norm_num [VideoRAM.init]))
  have hin := (video_ram_access_bounds (VideoRAM.init 40 25) 999 7 hsz hlen).2
    ⟨by norm_num, by norm_num [VideoRAM.init]⟩
  exact ⟨⟨hsz, hlen⟩, hout.1, hout.2.1, hout.2.2, hin⟩
